import Mathlib

/-!
# Sony IMX477 sensor driver: mode, timing, ROI and control engine

A shallow embedding of drivers/media/i2c/imx477.c.  C functions become Lean functions over an
explicit session record (the C struct imx477 plus the bus transcript); unsigned machine integers
are natural numbers reduced modulo their width where the C code can wrap, signed ones are
integers.  The I2C bus is an explicit parameter that answers every transaction, so that failing
transfers can be followed through the code.
-/

set_option autoImplicit false

/-! ## Machine integers and error codes -/

/-- Conversion of a C int to unsigned int (two's complement, 32 bits). -/
def to_u32 (x : Int) : Nat := (x % 4294967296).toNat

/-- Conversion of a C int to uint16_t. -/
def to_u16 (x : Int) : Nat := (x % 65536).toNat

/-- Errno value EINVAL of the kernel headers. -/
def EINVAL : Int := 22

/-- Errno value of a failed bus transfer (the kernel's I/O error code, 5). -/
def EIO_err : Int := 5

/-! ## Constants of the driver -/

def IMX477_REG_VALUE_08BIT : Nat := 1
def IMX477_REG_VALUE_16BIT : Nat := 2

def IMX477_REG_CHIP_ID : Nat := 0x0016
def IMX477_CHIP_ID : Nat := 0x0477
def IMX378_CHIP_ID : Nat := 0x0378

def IMX477_REG_MODE_SELECT : Nat := 0x0100
def IMX477_MODE_STANDBY : Nat := 0x00
def IMX477_MODE_STREAMING : Nat := 0x01

def IMX477_REG_ORIENTATION : Nat := 0x101

def IMX477_REG_FRAME_LENGTH : Nat := 0x0340
def IMX477_FRAME_LENGTH_MAX : Nat := 0xffdc

def IMX477_REG_LINE_LENGTH : Nat := 0x0342
def IMX477_LINE_LENGTH_MAX : Nat := 0xfff0

def IMX477_LONG_EXP_SHIFT_MAX : Nat := 7
def IMX477_LONG_EXP_SHIFT_REG : Nat := 0x3100

def IMX477_REG_EXPOSURE : Nat := 0x0202
def IMX477_EXPOSURE_OFFSET : Nat := 22
def IMX477_EXPOSURE_MIN : Nat := 4
def IMX477_EXPOSURE_STEP : Nat := 1
def IMX477_EXPOSURE_DEFAULT : Nat := 0x640
def IMX477_EXPOSURE_MAX : Nat := IMX477_FRAME_LENGTH_MAX - IMX477_EXPOSURE_OFFSET

def IMX477_REG_ANALOG_GAIN : Nat := 0x0204
def IMX477_REG_DIGITAL_GAIN : Nat := 0x020e

def IMX477_REG_TEST_PATTERN : Nat := 0x0600
def IMX477_TEST_PATTERN_DISABLE : Int := 0
def IMX477_TEST_PATTERN_SOLID_COLOR : Int := 1
def IMX477_TEST_PATTERN_COLOR_BARS : Int := 2
def IMX477_TEST_PATTERN_GREY_COLOR : Int := 3
def IMX477_TEST_PATTERN_PN9 : Int := 4

def IMX477_REG_TEST_PATTERN_R : Nat := 0x0602
def IMX477_REG_TEST_PATTERN_GR : Nat := 0x0604
def IMX477_REG_TEST_PATTERN_B : Nat := 0x0606
def IMX477_REG_TEST_PATTERN_GB : Nat := 0x0608

def IMX477_REG_MC_MODE : Nat := 0x3f0b
def IMX477_REG_MS_SEL : Nat := 0x3041
def IMX477_REG_XVS_IO_CTRL : Nat := 0x3040
def IMX477_REG_EXTOUT_EN : Nat := 0x4b81

def IMX477_X_START_REG : Nat := 0x0344
def IMX477_Y_START_REG : Nat := 0x0346
def IMX477_X_END_REG : Nat := 0x0348
def IMX477_Y_END_REG : Nat := 0x034a
def IMX477_X_SIZE_REG : Nat := 0x034c
def IMX477_Y_SIZE_REG : Nat := 0x034e
def IMX477_X_DIG_CROP_SIZE_REG : Nat := 0x040c
def IMX477_Y_DIG_CROP_SIZE_REG : Nat := 0x040e

def IMX477_EMBEDDED_LINE_WIDTH : Nat := 16384
def IMX477_NUM_EMBEDDED_LINES : Nat := 1

def IMAGE_PAD : Nat := 0
def METADATA_PAD : Nat := 1
def NUM_PADS : Nat := 2

def IMX477_NATIVE_WIDTH : Nat := 4072
def IMX477_NATIVE_HEIGHT : Nat := 3176
def IMX477_PIXEL_ARRAY_LEFT : Nat := 8
def IMX477_PIXEL_ARRAY_TOP : Nat := 16
def IMX477_PIXEL_ARRAY_WIDTH : Nat := 4056
def IMX477_PIXEL_ARRAY_HEIGHT : Nat := 3040

/-! ### Control identifiers

The standard identifiers are constants of the V4L2 user-space headers, which this file includes
and does not define; their numeric values are those of videodev2.h / v4l2-controls.h. -/

def V4L2_CID_BASE : Nat := 0x00980900
def V4L2_CID_HFLIP : Nat := V4L2_CID_BASE + 20
def V4L2_CID_VFLIP : Nat := V4L2_CID_BASE + 21
def V4L2_CID_EXPOSURE : Nat := V4L2_CID_BASE + 17
def V4L2_CID_USER_S2255_BASE : Nat := V4L2_CID_BASE + 0x1030
def V4L2_CID_IMAGE_SOURCE_CLASS_BASE : Nat := 0x009e0900
def V4L2_CID_VBLANK : Nat := V4L2_CID_IMAGE_SOURCE_CLASS_BASE + 1
def V4L2_CID_HBLANK : Nat := V4L2_CID_IMAGE_SOURCE_CLASS_BASE + 2
def V4L2_CID_ANALOGUE_GAIN : Nat := V4L2_CID_IMAGE_SOURCE_CLASS_BASE + 3
def V4L2_CID_TEST_PATTERN_RED : Nat := V4L2_CID_IMAGE_SOURCE_CLASS_BASE + 4
def V4L2_CID_TEST_PATTERN_GREENR : Nat := V4L2_CID_IMAGE_SOURCE_CLASS_BASE + 5
def V4L2_CID_TEST_PATTERN_BLUE : Nat := V4L2_CID_IMAGE_SOURCE_CLASS_BASE + 6
def V4L2_CID_TEST_PATTERN_GREENB : Nat := V4L2_CID_IMAGE_SOURCE_CLASS_BASE + 7
def V4L2_CID_IMAGE_PROC_CLASS_BASE : Nat := 0x009f0900
def V4L2_CID_TEST_PATTERN : Nat := V4L2_CID_IMAGE_PROC_CLASS_BASE + 3
def V4L2_CID_DIGITAL_GAIN : Nat := V4L2_CID_IMAGE_PROC_CLASS_BASE + 5

def V4L2_CID_I2C_8B : Nat := V4L2_CID_USER_S2255_BASE + 1
def V4L2_CID_I2C_16B : Nat := V4L2_CID_USER_S2255_BASE + 2
def V4L2_CID_I2C_8B_GENERIC : Nat := V4L2_CID_USER_S2255_BASE + 3
def V4L2_CID_POWER_ON : Nat := V4L2_CID_USER_S2255_BASE + 4
def V4L2_CID_I2C_8B_READ : Nat := V4L2_CID_USER_S2255_BASE + 5
def V4L2_CID_I2C_16B_READ : Nat := V4L2_CID_USER_S2255_BASE + 6
def V4L2_CID_I2C_SET_GENERIC_ID : Nat := V4L2_CID_USER_S2255_BASE + 7
def V4L2_CID_I2C_SET_READ_ADDR : Nat := V4L2_CID_USER_S2255_BASE + 8
def V4L2_CID_I2C_8B_GENERIC_READ : Nat := V4L2_CID_USER_S2255_BASE + 9
def V4L2_CID_ROI_START_X : Nat := V4L2_CID_USER_S2255_BASE + 10
def V4L2_CID_ROI_START_Y : Nat := V4L2_CID_USER_S2255_BASE + 11
def V4L2_CID_FORCE_TRIGGER : Nat := V4L2_CID_USER_S2255_BASE + 12
def V4L2_CID_BINNING : Nat := V4L2_CID_USER_S2255_BASE + 13

/-! ### Media bus pixel codes

Constants of media-bus-format.h, used and not defined by this file. -/

def MEDIA_BUS_FMT_SRGGB12_1X12 : Nat := 0x3012
def MEDIA_BUS_FMT_SGRBG12_1X12 : Nat := 0x3011
def MEDIA_BUS_FMT_SGBRG12_1X12 : Nat := 0x3010
def MEDIA_BUS_FMT_SBGGR12_1X12 : Nat := 0x3008
def MEDIA_BUS_FMT_SRGGB10_1X10 : Nat := 0x300f
def MEDIA_BUS_FMT_SGRBG10_1X10 : Nat := 0x300a
def MEDIA_BUS_FMT_SGBRG10_1X10 : Nat := 0x300e
def MEDIA_BUS_FMT_SBGGR10_1X10 : Nat := 0x3007
def MEDIA_BUS_FMT_SRGGB8_1X8 : Nat := 0x3014
def MEDIA_BUS_FMT_SGRBG8_1X8 : Nat := 0x3002
def MEDIA_BUS_FMT_SGBRG8_1X8 : Nat := 0x3013
def MEDIA_BUS_FMT_SBGGR8_1X8 : Nat := 0x3001
def MEDIA_BUS_FMT_Y8_1X8 : Nat := 0x2001
def MEDIA_BUS_FMT_SENSOR_DATA : Nat := 0x7002

def V4L2_FIELD_NONE : Nat := 1
def V4L2_SUBDEV_FORMAT_TRY : Nat := 0
def V4L2_SUBDEV_FORMAT_ACTIVE : Nat := 1

/-! ## Data model -/

/-- One entry of a register recipe: a 16-bit address and an 8-bit value. -/
structure imx477_reg where
  address : Nat
  val : Nat
deriving DecidableEq, Repr

structure v4l2_rect where
  left : Int
  top : Int
  width : Nat
  height : Nat
deriving DecidableEq, Repr

structure v4l2_fract where
  numerator : Nat
  denominator : Nat
deriving DecidableEq, Repr

/-- Mode : resolution and related config and values.  The C reg_list (count plus pointer) is the
list of its entries. -/
structure imx477_mode where
  orig_width : Nat
  orig_height : Nat
  line_length_pix : Nat
  min_hblank : Nat
  min_vblank : Nat
  crop : v4l2_rect
  timeperframe_min : v4l2_fract
  timeperframe_default : v4l2_fract
  reg_list : List imx477_reg
deriving DecidableEq, Repr

/-- Register recipe written once per power cycle (309 entries). -/
def mode_common_regs : List imx477_reg :=
  [ imx477_reg.mk 0x0136 0x18, imx477_reg.mk 0x0137 0x00, imx477_reg.mk 0x0138 0x01, imx477_reg.mk 0xe000 0x00, imx477_reg.mk 0xe07a 0x01,
    imx477_reg.mk 0x0808 0x02, imx477_reg.mk 0x4ae9 0x18, imx477_reg.mk 0x4aea 0x08, imx477_reg.mk 0xf61c 0x04, imx477_reg.mk 0xf61e 0x04,
    imx477_reg.mk 0x4ae9 0x21, imx477_reg.mk 0x4aea 0x80, imx477_reg.mk 0x38a8 0x1f, imx477_reg.mk 0x38a9 0xff, imx477_reg.mk 0x38aa 0x1f,
    imx477_reg.mk 0x38ab 0xff, imx477_reg.mk 0x55d4 0x00, imx477_reg.mk 0x55d5 0x00, imx477_reg.mk 0x55d6 0x07, imx477_reg.mk 0x55d7 0xff,
    imx477_reg.mk 0x55e8 0x07, imx477_reg.mk 0x55e9 0xff, imx477_reg.mk 0x55ea 0x00, imx477_reg.mk 0x55eb 0x00, imx477_reg.mk 0x574c 0x07,
    imx477_reg.mk 0x574d 0xff, imx477_reg.mk 0x574e 0x00, imx477_reg.mk 0x574f 0x00, imx477_reg.mk 0x5754 0x00, imx477_reg.mk 0x5755 0x00,
    imx477_reg.mk 0x5756 0x07, imx477_reg.mk 0x5757 0xff, imx477_reg.mk 0x5973 0x04, imx477_reg.mk 0x5974 0x01, imx477_reg.mk 0x5d13 0xc3,
    imx477_reg.mk 0x5d14 0x58, imx477_reg.mk 0x5d15 0xa3, imx477_reg.mk 0x5d16 0x1d, imx477_reg.mk 0x5d17 0x65, imx477_reg.mk 0x5d18 0x8c,
    imx477_reg.mk 0x5d1a 0x06, imx477_reg.mk 0x5d1b 0xa9, imx477_reg.mk 0x5d1c 0x45, imx477_reg.mk 0x5d1d 0x3a, imx477_reg.mk 0x5d1e 0xab,
    imx477_reg.mk 0x5d1f 0x15, imx477_reg.mk 0x5d21 0x0e, imx477_reg.mk 0x5d22 0x52, imx477_reg.mk 0x5d23 0xaa, imx477_reg.mk 0x5d24 0x7d,
    imx477_reg.mk 0x5d25 0x57, imx477_reg.mk 0x5d26 0xa8, imx477_reg.mk 0x5d37 0x5a, imx477_reg.mk 0x5d38 0x5a, imx477_reg.mk 0x5d77 0x7f,
    imx477_reg.mk 0x7b75 0x0e, imx477_reg.mk 0x7b76 0x0b, imx477_reg.mk 0x7b77 0x08, imx477_reg.mk 0x7b78 0x0a, imx477_reg.mk 0x7b79 0x47,
    imx477_reg.mk 0x7b7c 0x00, imx477_reg.mk 0x7b7d 0x00, imx477_reg.mk 0x8d1f 0x00, imx477_reg.mk 0x8d27 0x00, imx477_reg.mk 0x9004 0x03,
    imx477_reg.mk 0x9200 0x50, imx477_reg.mk 0x9201 0x6c, imx477_reg.mk 0x9202 0x71, imx477_reg.mk 0x9203 0x00, imx477_reg.mk 0x9204 0x71,
    imx477_reg.mk 0x9205 0x01, imx477_reg.mk 0x9371 0x6a, imx477_reg.mk 0x9373 0x6a, imx477_reg.mk 0x9375 0x64, imx477_reg.mk 0x991a 0x00,
    imx477_reg.mk 0x996b 0x8c, imx477_reg.mk 0x996c 0x64, imx477_reg.mk 0x996d 0x50, imx477_reg.mk 0x9a4c 0x0d, imx477_reg.mk 0x9a4d 0x0d,
    imx477_reg.mk 0xa001 0x0a, imx477_reg.mk 0xa003 0x0a, imx477_reg.mk 0xa005 0x0a, imx477_reg.mk 0xa006 0x01, imx477_reg.mk 0xa007 0xc0,
    imx477_reg.mk 0xa009 0xc0, imx477_reg.mk 0x3d8a 0x01, imx477_reg.mk 0x4421 0x04, imx477_reg.mk 0x7b3b 0x01, imx477_reg.mk 0x7b4c 0x00,
    imx477_reg.mk 0x9905 0x00, imx477_reg.mk 0x9907 0x00, imx477_reg.mk 0x9909 0x00, imx477_reg.mk 0x990b 0x00, imx477_reg.mk 0x9944 0x3c,
    imx477_reg.mk 0x9947 0x3c, imx477_reg.mk 0x994a 0x8c, imx477_reg.mk 0x994b 0x50, imx477_reg.mk 0x994c 0x1b, imx477_reg.mk 0x994d 0x8c,
    imx477_reg.mk 0x994e 0x50, imx477_reg.mk 0x994f 0x1b, imx477_reg.mk 0x9950 0x8c, imx477_reg.mk 0x9951 0x1b, imx477_reg.mk 0x9952 0x0a,
    imx477_reg.mk 0x9953 0x8c, imx477_reg.mk 0x9954 0x1b, imx477_reg.mk 0x9955 0x0a, imx477_reg.mk 0x9a13 0x04, imx477_reg.mk 0x9a14 0x04,
    imx477_reg.mk 0x9a19 0x00, imx477_reg.mk 0x9a1c 0x04, imx477_reg.mk 0x9a1d 0x04, imx477_reg.mk 0x9a26 0x05, imx477_reg.mk 0x9a27 0x05,
    imx477_reg.mk 0x9a2c 0x01, imx477_reg.mk 0x9a2d 0x03, imx477_reg.mk 0x9a2f 0x05, imx477_reg.mk 0x9a30 0x05, imx477_reg.mk 0x9a41 0x00,
    imx477_reg.mk 0x9a46 0x00, imx477_reg.mk 0x9a47 0x00, imx477_reg.mk 0x9c17 0x35, imx477_reg.mk 0x9c1d 0x31, imx477_reg.mk 0x9c29 0x50,
    imx477_reg.mk 0x9c3b 0x2f, imx477_reg.mk 0x9c41 0x6b, imx477_reg.mk 0x9c47 0x2d, imx477_reg.mk 0x9c4d 0x40, imx477_reg.mk 0x9c6b 0x00,
    imx477_reg.mk 0x9c71 0xc8, imx477_reg.mk 0x9c73 0x32, imx477_reg.mk 0x9c75 0x04, imx477_reg.mk 0x9c7d 0x2d, imx477_reg.mk 0x9c83 0x40,
    imx477_reg.mk 0x9c94 0x3f, imx477_reg.mk 0x9c95 0x3f, imx477_reg.mk 0x9c96 0x3f, imx477_reg.mk 0x9c97 0x00, imx477_reg.mk 0x9c98 0x00,
    imx477_reg.mk 0x9c99 0x00, imx477_reg.mk 0x9c9a 0x3f, imx477_reg.mk 0x9c9b 0x3f, imx477_reg.mk 0x9c9c 0x3f, imx477_reg.mk 0x9ca0 0x0f,
    imx477_reg.mk 0x9ca1 0x0f, imx477_reg.mk 0x9ca2 0x0f, imx477_reg.mk 0x9ca3 0x00, imx477_reg.mk 0x9ca4 0x00, imx477_reg.mk 0x9ca5 0x00,
    imx477_reg.mk 0x9ca6 0x1e, imx477_reg.mk 0x9ca7 0x1e, imx477_reg.mk 0x9ca8 0x1e, imx477_reg.mk 0x9ca9 0x00, imx477_reg.mk 0x9caa 0x00,
    imx477_reg.mk 0x9cab 0x00, imx477_reg.mk 0x9cac 0x09, imx477_reg.mk 0x9cad 0x09, imx477_reg.mk 0x9cae 0x09, imx477_reg.mk 0x9cbd 0x50,
    imx477_reg.mk 0x9cbf 0x50, imx477_reg.mk 0x9cc1 0x50, imx477_reg.mk 0x9cc3 0x40, imx477_reg.mk 0x9cc5 0x40, imx477_reg.mk 0x9cc7 0x40,
    imx477_reg.mk 0x9cc9 0x0a, imx477_reg.mk 0x9ccb 0x0a, imx477_reg.mk 0x9ccd 0x0a, imx477_reg.mk 0x9d17 0x35, imx477_reg.mk 0x9d1d 0x31,
    imx477_reg.mk 0x9d29 0x50, imx477_reg.mk 0x9d3b 0x2f, imx477_reg.mk 0x9d41 0x6b, imx477_reg.mk 0x9d47 0x42, imx477_reg.mk 0x9d4d 0x5a,
    imx477_reg.mk 0x9d6b 0x00, imx477_reg.mk 0x9d71 0xc8, imx477_reg.mk 0x9d73 0x32, imx477_reg.mk 0x9d75 0x04, imx477_reg.mk 0x9d7d 0x42,
    imx477_reg.mk 0x9d83 0x5a, imx477_reg.mk 0x9d94 0x3f, imx477_reg.mk 0x9d95 0x3f, imx477_reg.mk 0x9d96 0x3f, imx477_reg.mk 0x9d97 0x00,
    imx477_reg.mk 0x9d98 0x00, imx477_reg.mk 0x9d99 0x00, imx477_reg.mk 0x9d9a 0x3f, imx477_reg.mk 0x9d9b 0x3f, imx477_reg.mk 0x9d9c 0x3f,
    imx477_reg.mk 0x9d9d 0x1f, imx477_reg.mk 0x9d9e 0x1f, imx477_reg.mk 0x9d9f 0x1f, imx477_reg.mk 0x9da0 0x0f, imx477_reg.mk 0x9da1 0x0f,
    imx477_reg.mk 0x9da2 0x0f, imx477_reg.mk 0x9da3 0x00, imx477_reg.mk 0x9da4 0x00, imx477_reg.mk 0x9da5 0x00, imx477_reg.mk 0x9da6 0x1e,
    imx477_reg.mk 0x9da7 0x1e, imx477_reg.mk 0x9da8 0x1e, imx477_reg.mk 0x9da9 0x00, imx477_reg.mk 0x9daa 0x00, imx477_reg.mk 0x9dab 0x00,
    imx477_reg.mk 0x9dac 0x09, imx477_reg.mk 0x9dad 0x09, imx477_reg.mk 0x9dae 0x09, imx477_reg.mk 0x9dc9 0x0a, imx477_reg.mk 0x9dcb 0x0a,
    imx477_reg.mk 0x9dcd 0x0a, imx477_reg.mk 0x9e17 0x35, imx477_reg.mk 0x9e1d 0x31, imx477_reg.mk 0x9e29 0x50, imx477_reg.mk 0x9e3b 0x2f,
    imx477_reg.mk 0x9e41 0x6b, imx477_reg.mk 0x9e47 0x2d, imx477_reg.mk 0x9e4d 0x40, imx477_reg.mk 0x9e6b 0x00, imx477_reg.mk 0x9e71 0xc8,
    imx477_reg.mk 0x9e73 0x32, imx477_reg.mk 0x9e75 0x04, imx477_reg.mk 0x9e94 0x0f, imx477_reg.mk 0x9e95 0x0f, imx477_reg.mk 0x9e96 0x0f,
    imx477_reg.mk 0x9e97 0x00, imx477_reg.mk 0x9e98 0x00, imx477_reg.mk 0x9e99 0x00, imx477_reg.mk 0x9ea0 0x0f, imx477_reg.mk 0x9ea1 0x0f,
    imx477_reg.mk 0x9ea2 0x0f, imx477_reg.mk 0x9ea3 0x00, imx477_reg.mk 0x9ea4 0x00, imx477_reg.mk 0x9ea5 0x00, imx477_reg.mk 0x9ea6 0x3f,
    imx477_reg.mk 0x9ea7 0x3f, imx477_reg.mk 0x9ea8 0x3f, imx477_reg.mk 0x9ea9 0x00, imx477_reg.mk 0x9eaa 0x00, imx477_reg.mk 0x9eab 0x00,
    imx477_reg.mk 0x9eac 0x09, imx477_reg.mk 0x9ead 0x09, imx477_reg.mk 0x9eae 0x09, imx477_reg.mk 0x9ec9 0x0a, imx477_reg.mk 0x9ecb 0x0a,
    imx477_reg.mk 0x9ecd 0x0a, imx477_reg.mk 0x9f17 0x35, imx477_reg.mk 0x9f1d 0x31, imx477_reg.mk 0x9f29 0x50, imx477_reg.mk 0x9f3b 0x2f,
    imx477_reg.mk 0x9f41 0x6b, imx477_reg.mk 0x9f47 0x42, imx477_reg.mk 0x9f4d 0x5a, imx477_reg.mk 0x9f6b 0x00, imx477_reg.mk 0x9f71 0xc8,
    imx477_reg.mk 0x9f73 0x32, imx477_reg.mk 0x9f75 0x04, imx477_reg.mk 0x9f94 0x0f, imx477_reg.mk 0x9f95 0x0f, imx477_reg.mk 0x9f96 0x0f,
    imx477_reg.mk 0x9f97 0x00, imx477_reg.mk 0x9f98 0x00, imx477_reg.mk 0x9f99 0x00, imx477_reg.mk 0x9f9a 0x2f, imx477_reg.mk 0x9f9b 0x2f,
    imx477_reg.mk 0x9f9c 0x2f, imx477_reg.mk 0x9f9d 0x00, imx477_reg.mk 0x9f9e 0x00, imx477_reg.mk 0x9f9f 0x00, imx477_reg.mk 0x9fa0 0x0f,
    imx477_reg.mk 0x9fa1 0x0f, imx477_reg.mk 0x9fa2 0x0f, imx477_reg.mk 0x9fa3 0x00, imx477_reg.mk 0x9fa4 0x00, imx477_reg.mk 0x9fa5 0x00,
    imx477_reg.mk 0x9fa6 0x1e, imx477_reg.mk 0x9fa7 0x1e, imx477_reg.mk 0x9fa8 0x1e, imx477_reg.mk 0x9fa9 0x00, imx477_reg.mk 0x9faa 0x00,
    imx477_reg.mk 0x9fab 0x00, imx477_reg.mk 0x9fac 0x09, imx477_reg.mk 0x9fad 0x09, imx477_reg.mk 0x9fae 0x09, imx477_reg.mk 0x9fc9 0x0a,
    imx477_reg.mk 0x9fcb 0x0a, imx477_reg.mk 0x9fcd 0x0a, imx477_reg.mk 0xa14b 0xff, imx477_reg.mk 0xa151 0x0c, imx477_reg.mk 0xa153 0x50,
    imx477_reg.mk 0xa155 0x02, imx477_reg.mk 0xa157 0x00, imx477_reg.mk 0xa1ad 0xff, imx477_reg.mk 0xa1b3 0x0c, imx477_reg.mk 0xa1b5 0x50,
    imx477_reg.mk 0xa1b9 0x00, imx477_reg.mk 0xa24b 0xff, imx477_reg.mk 0xa257 0x00, imx477_reg.mk 0xa2ad 0xff, imx477_reg.mk 0xa2b9 0x00,
    imx477_reg.mk 0xb21f 0x04, imx477_reg.mk 0xb35c 0x00, imx477_reg.mk 0xb35e 0x08, imx477_reg.mk 0x0112 0x0c, imx477_reg.mk 0x0113 0x0c,
    imx477_reg.mk 0x0114 0x01, imx477_reg.mk 0x0350 0x01, imx477_reg.mk 0xbcf1 0x00, imx477_reg.mk 0x3ff9 0x01 ]

/-- Recipe of the 12 mpix 10fps mode. -/
def mode_4056x3040_regs : List imx477_reg :=
  [ imx477_reg.mk 0x0342 0x5d, imx477_reg.mk 0x0343 0xc0, imx477_reg.mk 0x0344 0x00, imx477_reg.mk 0x0345 0x00, imx477_reg.mk 0x0346 0x00,
    imx477_reg.mk 0x0347 0x00, imx477_reg.mk 0x0348 0x0f, imx477_reg.mk 0x0349 0xd7, imx477_reg.mk 0x034a 0x0b, imx477_reg.mk 0x034b 0xdf,
    imx477_reg.mk 0x00e3 0x00, imx477_reg.mk 0x00e4 0x00, imx477_reg.mk 0x00fc 0x0a, imx477_reg.mk 0x00fd 0x0a, imx477_reg.mk 0x00fe 0x0a,
    imx477_reg.mk 0x00ff 0x0a, imx477_reg.mk 0x0220 0x00, imx477_reg.mk 0x0221 0x11, imx477_reg.mk 0x0381 0x01, imx477_reg.mk 0x0383 0x01,
    imx477_reg.mk 0x0385 0x01, imx477_reg.mk 0x0387 0x01, imx477_reg.mk 0x0900 0x00, imx477_reg.mk 0x0901 0x11, imx477_reg.mk 0x0902 0x02,
    imx477_reg.mk 0x3140 0x02, imx477_reg.mk 0x3c00 0x00, imx477_reg.mk 0x3c01 0x03, imx477_reg.mk 0x3c02 0xa2, imx477_reg.mk 0x3f0d 0x01,
    imx477_reg.mk 0x5748 0x07, imx477_reg.mk 0x5749 0xff, imx477_reg.mk 0x574a 0x00, imx477_reg.mk 0x574b 0x00, imx477_reg.mk 0x7b75 0x0a,
    imx477_reg.mk 0x7b76 0x0c, imx477_reg.mk 0x7b77 0x07, imx477_reg.mk 0x7b78 0x06, imx477_reg.mk 0x7b79 0x3c, imx477_reg.mk 0x7b53 0x01,
    imx477_reg.mk 0x9369 0x5a, imx477_reg.mk 0x936b 0x55, imx477_reg.mk 0x936d 0x28, imx477_reg.mk 0x9304 0x00, imx477_reg.mk 0x9305 0x00,
    imx477_reg.mk 0x9e9a 0x2f, imx477_reg.mk 0x9e9b 0x2f, imx477_reg.mk 0x9e9c 0x2f, imx477_reg.mk 0x9e9d 0x00, imx477_reg.mk 0x9e9e 0x00,
    imx477_reg.mk 0x9e9f 0x00, imx477_reg.mk 0xa2a9 0x60, imx477_reg.mk 0xa2b7 0x00, imx477_reg.mk 0x0401 0x00, imx477_reg.mk 0x0404 0x00,
    imx477_reg.mk 0x0405 0x10, imx477_reg.mk 0x0408 0x00, imx477_reg.mk 0x0409 0x00, imx477_reg.mk 0x040a 0x00, imx477_reg.mk 0x040b 0x00,
    imx477_reg.mk 0x040c 0x0f, imx477_reg.mk 0x040d 0xd8, imx477_reg.mk 0x040e 0x0b, imx477_reg.mk 0x040f 0xe0, imx477_reg.mk 0x034c 0x0f,
    imx477_reg.mk 0x034d 0xd8, imx477_reg.mk 0x034e 0x0b, imx477_reg.mk 0x034f 0xe0, imx477_reg.mk 0x0301 0x05, imx477_reg.mk 0x0303 0x02,
    imx477_reg.mk 0x0305 0x04, imx477_reg.mk 0x0306 0x01, imx477_reg.mk 0x0307 0x5e, imx477_reg.mk 0x0309 0x0c, imx477_reg.mk 0x030b 0x02,
    imx477_reg.mk 0x030d 0x02, imx477_reg.mk 0x030e 0x00, imx477_reg.mk 0x030f 0x96, imx477_reg.mk 0x0310 0x01, imx477_reg.mk 0x0820 0x07,
    imx477_reg.mk 0x0821 0x08, imx477_reg.mk 0x0822 0x00, imx477_reg.mk 0x0823 0x00, imx477_reg.mk 0x080a 0x00, imx477_reg.mk 0x080b 0x7f,
    imx477_reg.mk 0x080c 0x00, imx477_reg.mk 0x080d 0x4f, imx477_reg.mk 0x080e 0x00, imx477_reg.mk 0x080f 0x77, imx477_reg.mk 0x0810 0x00,
    imx477_reg.mk 0x0811 0x5f, imx477_reg.mk 0x0812 0x00, imx477_reg.mk 0x0813 0x57, imx477_reg.mk 0x0814 0x00, imx477_reg.mk 0x0815 0x4f,
    imx477_reg.mk 0x0816 0x01, imx477_reg.mk 0x0817 0x27, imx477_reg.mk 0x0818 0x00, imx477_reg.mk 0x0819 0x3f, imx477_reg.mk 0xe04c 0x00,
    imx477_reg.mk 0xe04d 0x7f, imx477_reg.mk 0xe04e 0x00, imx477_reg.mk 0xe04f 0x1f, imx477_reg.mk 0x3e20 0x01, imx477_reg.mk 0x3e37 0x00,
    imx477_reg.mk 0x3f50 0x00, imx477_reg.mk 0x3f56 0x02, imx477_reg.mk 0x3f57 0xae ]

/-- Recipe of the 2x2 binned 40fps mode. -/
def mode_2028x1520_regs : List imx477_reg :=
  [ imx477_reg.mk 0x0342 0x31, imx477_reg.mk 0x0343 0xc4, imx477_reg.mk 0x0344 0x00, imx477_reg.mk 0x0345 0x00, imx477_reg.mk 0x0346 0x00,
    imx477_reg.mk 0x0347 0x00, imx477_reg.mk 0x0348 0x0f, imx477_reg.mk 0x0349 0xd7, imx477_reg.mk 0x034a 0x0b, imx477_reg.mk 0x034b 0xdf,
    imx477_reg.mk 0x0220 0x00, imx477_reg.mk 0x0221 0x11, imx477_reg.mk 0x0381 0x01, imx477_reg.mk 0x0383 0x01, imx477_reg.mk 0x0385 0x01,
    imx477_reg.mk 0x0387 0x01, imx477_reg.mk 0x0900 0x01, imx477_reg.mk 0x0901 0x22, imx477_reg.mk 0x0902 0x02, imx477_reg.mk 0x3140 0x02,
    imx477_reg.mk 0x3c00 0x00, imx477_reg.mk 0x3c01 0x03, imx477_reg.mk 0x3c02 0xa2, imx477_reg.mk 0x3f0d 0x01, imx477_reg.mk 0x5748 0x07,
    imx477_reg.mk 0x5749 0xff, imx477_reg.mk 0x574a 0x00, imx477_reg.mk 0x574b 0x00, imx477_reg.mk 0x7b53 0x01, imx477_reg.mk 0x9369 0x73,
    imx477_reg.mk 0x936b 0x64, imx477_reg.mk 0x936d 0x5f, imx477_reg.mk 0x9304 0x00, imx477_reg.mk 0x9305 0x00, imx477_reg.mk 0x9e9a 0x2f,
    imx477_reg.mk 0x9e9b 0x2f, imx477_reg.mk 0x9e9c 0x2f, imx477_reg.mk 0x9e9d 0x00, imx477_reg.mk 0x9e9e 0x00, imx477_reg.mk 0x9e9f 0x00,
    imx477_reg.mk 0xa2a9 0x60, imx477_reg.mk 0xa2b7 0x00, imx477_reg.mk 0x0401 0x00, imx477_reg.mk 0x0404 0x00, imx477_reg.mk 0x0405 0x20,
    imx477_reg.mk 0x0408 0x00, imx477_reg.mk 0x0409 0x00, imx477_reg.mk 0x040a 0x00, imx477_reg.mk 0x040b 0x00, imx477_reg.mk 0x040c 0x0f,
    imx477_reg.mk 0x040d 0xd8, imx477_reg.mk 0x040e 0x0b, imx477_reg.mk 0x040f 0xe0, imx477_reg.mk 0x034c 0x07, imx477_reg.mk 0x034d 0xec,
    imx477_reg.mk 0x034e 0x05, imx477_reg.mk 0x034f 0xf0, imx477_reg.mk 0x0301 0x05, imx477_reg.mk 0x0303 0x02, imx477_reg.mk 0x0305 0x04,
    imx477_reg.mk 0x0306 0x01, imx477_reg.mk 0x0307 0x5e, imx477_reg.mk 0x0309 0x0c, imx477_reg.mk 0x030b 0x02, imx477_reg.mk 0x030d 0x02,
    imx477_reg.mk 0x030e 0x00, imx477_reg.mk 0x030f 0x96, imx477_reg.mk 0x0310 0x01, imx477_reg.mk 0x0820 0x07, imx477_reg.mk 0x0821 0x08,
    imx477_reg.mk 0x0822 0x00, imx477_reg.mk 0x0823 0x00, imx477_reg.mk 0x080a 0x00, imx477_reg.mk 0x080b 0x7f, imx477_reg.mk 0x080c 0x00,
    imx477_reg.mk 0x080d 0x4f, imx477_reg.mk 0x080e 0x00, imx477_reg.mk 0x080f 0x77, imx477_reg.mk 0x0810 0x00, imx477_reg.mk 0x0811 0x5f,
    imx477_reg.mk 0x0812 0x00, imx477_reg.mk 0x0813 0x57, imx477_reg.mk 0x0814 0x00, imx477_reg.mk 0x0815 0x4f, imx477_reg.mk 0x0816 0x01,
    imx477_reg.mk 0x0817 0x27, imx477_reg.mk 0x0818 0x00, imx477_reg.mk 0x0819 0x3f, imx477_reg.mk 0xe04c 0x00, imx477_reg.mk 0xe04d 0x7f,
    imx477_reg.mk 0xe04e 0x00, imx477_reg.mk 0xe04f 0x1f, imx477_reg.mk 0x3e20 0x01, imx477_reg.mk 0x3e37 0x00, imx477_reg.mk 0x3f50 0x00,
    imx477_reg.mk 0x3f56 0x01, imx477_reg.mk 0x3f57 0x6c ]

/-- Recipe of the 1080p 50fps cropped mode. -/
def mode_2028x1080_regs : List imx477_reg :=
  [ imx477_reg.mk 0x0342 0x31, imx477_reg.mk 0x0343 0xc4, imx477_reg.mk 0x0344 0x00, imx477_reg.mk 0x0345 0x00, imx477_reg.mk 0x0346 0x01,
    imx477_reg.mk 0x0347 0xb8, imx477_reg.mk 0x0348 0x0f, imx477_reg.mk 0x0349 0xd7, imx477_reg.mk 0x034a 0x0a, imx477_reg.mk 0x034b 0x27,
    imx477_reg.mk 0x0220 0x00, imx477_reg.mk 0x0221 0x11, imx477_reg.mk 0x0381 0x01, imx477_reg.mk 0x0383 0x01, imx477_reg.mk 0x0385 0x01,
    imx477_reg.mk 0x0387 0x01, imx477_reg.mk 0x0900 0x01, imx477_reg.mk 0x0901 0x22, imx477_reg.mk 0x0902 0x02, imx477_reg.mk 0x3140 0x02,
    imx477_reg.mk 0x3c00 0x00, imx477_reg.mk 0x3c01 0x03, imx477_reg.mk 0x3c02 0xa2, imx477_reg.mk 0x3f0d 0x01, imx477_reg.mk 0x5748 0x07,
    imx477_reg.mk 0x5749 0xff, imx477_reg.mk 0x574a 0x00, imx477_reg.mk 0x574b 0x00, imx477_reg.mk 0x7b53 0x01, imx477_reg.mk 0x9369 0x73,
    imx477_reg.mk 0x936b 0x64, imx477_reg.mk 0x936d 0x5f, imx477_reg.mk 0x9304 0x00, imx477_reg.mk 0x9305 0x00, imx477_reg.mk 0x9e9a 0x2f,
    imx477_reg.mk 0x9e9b 0x2f, imx477_reg.mk 0x9e9c 0x2f, imx477_reg.mk 0x9e9d 0x00, imx477_reg.mk 0x9e9e 0x00, imx477_reg.mk 0x9e9f 0x00,
    imx477_reg.mk 0xa2a9 0x60, imx477_reg.mk 0xa2b7 0x00, imx477_reg.mk 0x0401 0x00, imx477_reg.mk 0x0404 0x00, imx477_reg.mk 0x0405 0x20,
    imx477_reg.mk 0x0408 0x00, imx477_reg.mk 0x0409 0x00, imx477_reg.mk 0x040a 0x00, imx477_reg.mk 0x040b 0x00, imx477_reg.mk 0x040c 0x0f,
    imx477_reg.mk 0x040d 0xd8, imx477_reg.mk 0x040e 0x04, imx477_reg.mk 0x040f 0x38, imx477_reg.mk 0x034c 0x07, imx477_reg.mk 0x034d 0xec,
    imx477_reg.mk 0x034e 0x04, imx477_reg.mk 0x034f 0x38, imx477_reg.mk 0x0301 0x05, imx477_reg.mk 0x0303 0x02, imx477_reg.mk 0x0305 0x04,
    imx477_reg.mk 0x0306 0x01, imx477_reg.mk 0x0307 0x5e, imx477_reg.mk 0x0309 0x0c, imx477_reg.mk 0x030b 0x02, imx477_reg.mk 0x030d 0x02,
    imx477_reg.mk 0x030e 0x00, imx477_reg.mk 0x030f 0x96, imx477_reg.mk 0x0310 0x01, imx477_reg.mk 0x0820 0x07, imx477_reg.mk 0x0821 0x08,
    imx477_reg.mk 0x0822 0x00, imx477_reg.mk 0x0823 0x00, imx477_reg.mk 0x080a 0x00, imx477_reg.mk 0x080b 0x7f, imx477_reg.mk 0x080c 0x00,
    imx477_reg.mk 0x080d 0x4f, imx477_reg.mk 0x080e 0x00, imx477_reg.mk 0x080f 0x77, imx477_reg.mk 0x0810 0x00, imx477_reg.mk 0x0811 0x5f,
    imx477_reg.mk 0x0812 0x00, imx477_reg.mk 0x0813 0x57, imx477_reg.mk 0x0814 0x00, imx477_reg.mk 0x0815 0x4f, imx477_reg.mk 0x0816 0x01,
    imx477_reg.mk 0x0817 0x27, imx477_reg.mk 0x0818 0x00, imx477_reg.mk 0x0819 0x3f, imx477_reg.mk 0xe04c 0x00, imx477_reg.mk 0xe04d 0x7f,
    imx477_reg.mk 0xe04e 0x00, imx477_reg.mk 0xe04f 0x1f, imx477_reg.mk 0x3e20 0x01, imx477_reg.mk 0x3e37 0x00, imx477_reg.mk 0x3f50 0x00,
    imx477_reg.mk 0x3f56 0x01, imx477_reg.mk 0x3f57 0x6c ]

/-- Recipe of the 120fps 2x2 binned and cropped mode. -/
def mode_1332x990_regs : List imx477_reg :=
  [ imx477_reg.mk 0x420b 0x01, imx477_reg.mk 0x990c 0x00, imx477_reg.mk 0x990d 0x08, imx477_reg.mk 0x9956 0x8c, imx477_reg.mk 0x9957 0x64,
    imx477_reg.mk 0x9958 0x50, imx477_reg.mk 0x9a48 0x06, imx477_reg.mk 0x9a49 0x06, imx477_reg.mk 0x9a4a 0x06, imx477_reg.mk 0x9a4b 0x06,
    imx477_reg.mk 0x9a4c 0x06, imx477_reg.mk 0x9a4d 0x06, imx477_reg.mk 0x0112 0x0a, imx477_reg.mk 0x0113 0x0a, imx477_reg.mk 0x0114 0x01,
    imx477_reg.mk 0x0342 0x1a, imx477_reg.mk 0x0343 0x08, imx477_reg.mk 0x0340 0x04, imx477_reg.mk 0x0341 0x1a, imx477_reg.mk 0x0344 0x00,
    imx477_reg.mk 0x0345 0x00, imx477_reg.mk 0x0346 0x02, imx477_reg.mk 0x0347 0x10, imx477_reg.mk 0x0348 0x0f, imx477_reg.mk 0x0349 0xd7,
    imx477_reg.mk 0x034a 0x09, imx477_reg.mk 0x034b 0xcf, imx477_reg.mk 0x00e3 0x00, imx477_reg.mk 0x00e4 0x00, imx477_reg.mk 0x00fc 0x0a,
    imx477_reg.mk 0x00fd 0x0a, imx477_reg.mk 0x00fe 0x0a, imx477_reg.mk 0x00ff 0x0a, imx477_reg.mk 0xe013 0x00, imx477_reg.mk 0x0220 0x00,
    imx477_reg.mk 0x0221 0x11, imx477_reg.mk 0x0381 0x01, imx477_reg.mk 0x0383 0x01, imx477_reg.mk 0x0385 0x01, imx477_reg.mk 0x0387 0x01,
    imx477_reg.mk 0x0900 0x01, imx477_reg.mk 0x0901 0x22, imx477_reg.mk 0x0902 0x02, imx477_reg.mk 0x3140 0x02, imx477_reg.mk 0x3c00 0x00,
    imx477_reg.mk 0x3c01 0x01, imx477_reg.mk 0x3c02 0x9c, imx477_reg.mk 0x3f0d 0x00, imx477_reg.mk 0x5748 0x00, imx477_reg.mk 0x5749 0x00,
    imx477_reg.mk 0x574a 0x00, imx477_reg.mk 0x574b 0xa4, imx477_reg.mk 0x7b75 0x0e, imx477_reg.mk 0x7b76 0x09, imx477_reg.mk 0x7b77 0x08,
    imx477_reg.mk 0x7b78 0x06, imx477_reg.mk 0x7b79 0x34, imx477_reg.mk 0x7b53 0x00, imx477_reg.mk 0x9369 0x73, imx477_reg.mk 0x936b 0x64,
    imx477_reg.mk 0x936d 0x5f, imx477_reg.mk 0x9304 0x03, imx477_reg.mk 0x9305 0x80, imx477_reg.mk 0x9e9a 0x2f, imx477_reg.mk 0x9e9b 0x2f,
    imx477_reg.mk 0x9e9c 0x2f, imx477_reg.mk 0x9e9d 0x00, imx477_reg.mk 0x9e9e 0x00, imx477_reg.mk 0x9e9f 0x00, imx477_reg.mk 0xa2a9 0x27,
    imx477_reg.mk 0xa2b7 0x03, imx477_reg.mk 0x0401 0x00, imx477_reg.mk 0x0404 0x00, imx477_reg.mk 0x0405 0x10, imx477_reg.mk 0x0408 0x01,
    imx477_reg.mk 0x0409 0x5c, imx477_reg.mk 0x040a 0x00, imx477_reg.mk 0x040b 0x00, imx477_reg.mk 0x040c 0x05, imx477_reg.mk 0x040d 0x34,
    imx477_reg.mk 0x040e 0x03, imx477_reg.mk 0x040f 0xde, imx477_reg.mk 0x034c 0x05, imx477_reg.mk 0x034d 0x34, imx477_reg.mk 0x034e 0x03,
    imx477_reg.mk 0x034f 0xde, imx477_reg.mk 0x0301 0x05, imx477_reg.mk 0x0303 0x02, imx477_reg.mk 0x0305 0x02, imx477_reg.mk 0x0306 0x00,
    imx477_reg.mk 0x0307 0xaf, imx477_reg.mk 0x0309 0x0a, imx477_reg.mk 0x030b 0x02, imx477_reg.mk 0x030d 0x02, imx477_reg.mk 0x030e 0x00,
    imx477_reg.mk 0x030f 0x96, imx477_reg.mk 0x0310 0x01, imx477_reg.mk 0x0820 0x07, imx477_reg.mk 0x0821 0x08, imx477_reg.mk 0x0822 0x00,
    imx477_reg.mk 0x0823 0x00, imx477_reg.mk 0x080a 0x00, imx477_reg.mk 0x080b 0x7f, imx477_reg.mk 0x080c 0x00, imx477_reg.mk 0x080d 0x4f,
    imx477_reg.mk 0x080e 0x00, imx477_reg.mk 0x080f 0x77, imx477_reg.mk 0x0810 0x00, imx477_reg.mk 0x0811 0x5f, imx477_reg.mk 0x0812 0x00,
    imx477_reg.mk 0x0813 0x57, imx477_reg.mk 0x0814 0x00, imx477_reg.mk 0x0815 0x4f, imx477_reg.mk 0x0816 0x01, imx477_reg.mk 0x0817 0x27,
    imx477_reg.mk 0x0818 0x00, imx477_reg.mk 0x0819 0x3f, imx477_reg.mk 0xe04c 0x00, imx477_reg.mk 0xe04d 0x5f, imx477_reg.mk 0xe04e 0x00,
    imx477_reg.mk 0xe04f 0x1f, imx477_reg.mk 0x3e20 0x01, imx477_reg.mk 0x3e37 0x00, imx477_reg.mk 0x3f50 0x00, imx477_reg.mk 0x3f56 0x00,
    imx477_reg.mk 0x3f57 0xbf ]

/-- Recipe of the 8-bit 1332x990 mode. -/
def mode_1332x990_regs_8bits : List imx477_reg :=
  [ imx477_reg.mk 0x420b 0x01, imx477_reg.mk 0x990c 0x00, imx477_reg.mk 0x990d 0x08, imx477_reg.mk 0x9956 0x8c, imx477_reg.mk 0x9957 0x64,
    imx477_reg.mk 0x9958 0x50, imx477_reg.mk 0x9a48 0x06, imx477_reg.mk 0x9a49 0x06, imx477_reg.mk 0x9a4a 0x06, imx477_reg.mk 0x9a4b 0x06,
    imx477_reg.mk 0x9a4c 0x06, imx477_reg.mk 0x9a4d 0x06, imx477_reg.mk 0x0112 0x08, imx477_reg.mk 0x0113 0x08, imx477_reg.mk 0x0114 0x01,
    imx477_reg.mk 0x0342 0x1a, imx477_reg.mk 0x0343 0x08, imx477_reg.mk 0x0340 0x04, imx477_reg.mk 0x0341 0x1a, imx477_reg.mk 0x0344 0x00,
    imx477_reg.mk 0x0345 0x00, imx477_reg.mk 0x0346 0x02, imx477_reg.mk 0x0347 0x10, imx477_reg.mk 0x0348 0x0f, imx477_reg.mk 0x0349 0xd7,
    imx477_reg.mk 0x034a 0x09, imx477_reg.mk 0x034b 0xcf, imx477_reg.mk 0x00e3 0x00, imx477_reg.mk 0x00e4 0x00, imx477_reg.mk 0x00fc 0x08,
    imx477_reg.mk 0x00fd 0x08, imx477_reg.mk 0x00fe 0x08, imx477_reg.mk 0x00ff 0x08, imx477_reg.mk 0xe013 0x00, imx477_reg.mk 0x0220 0x00,
    imx477_reg.mk 0x0221 0x11, imx477_reg.mk 0x0381 0x01, imx477_reg.mk 0x0383 0x01, imx477_reg.mk 0x0385 0x01, imx477_reg.mk 0x0387 0x01,
    imx477_reg.mk 0x0900 0x01, imx477_reg.mk 0x0901 0x22, imx477_reg.mk 0x0902 0x02, imx477_reg.mk 0x3140 0x02, imx477_reg.mk 0x3c00 0x00,
    imx477_reg.mk 0x3c01 0x01, imx477_reg.mk 0x3c02 0x9c, imx477_reg.mk 0x3f0d 0x00, imx477_reg.mk 0x5748 0x00, imx477_reg.mk 0x5749 0x00,
    imx477_reg.mk 0x574a 0x00, imx477_reg.mk 0x574b 0xa4, imx477_reg.mk 0x7b75 0x0e, imx477_reg.mk 0x7b76 0x09, imx477_reg.mk 0x7b77 0x08,
    imx477_reg.mk 0x7b78 0x06, imx477_reg.mk 0x7b79 0x34, imx477_reg.mk 0x7b53 0x00, imx477_reg.mk 0x9369 0x73, imx477_reg.mk 0x936b 0x64,
    imx477_reg.mk 0x936d 0x5f, imx477_reg.mk 0x9304 0x03, imx477_reg.mk 0x9305 0x80, imx477_reg.mk 0x9e9a 0x2f, imx477_reg.mk 0x9e9b 0x2f,
    imx477_reg.mk 0x9e9c 0x2f, imx477_reg.mk 0x9e9d 0x00, imx477_reg.mk 0x9e9e 0x00, imx477_reg.mk 0x9e9f 0x00, imx477_reg.mk 0xa2a9 0x27,
    imx477_reg.mk 0xa2b7 0x03, imx477_reg.mk 0x0401 0x00, imx477_reg.mk 0x0404 0x00, imx477_reg.mk 0x0405 0x10, imx477_reg.mk 0x0408 0x01,
    imx477_reg.mk 0x0409 0x5c, imx477_reg.mk 0x040a 0x00, imx477_reg.mk 0x040b 0x00, imx477_reg.mk 0x040c 0x05, imx477_reg.mk 0x040d 0x34,
    imx477_reg.mk 0x040e 0x03, imx477_reg.mk 0x040f 0xde, imx477_reg.mk 0x034c 0x05, imx477_reg.mk 0x034d 0x34, imx477_reg.mk 0x034e 0x03,
    imx477_reg.mk 0x034f 0xde, imx477_reg.mk 0x0301 0x05, imx477_reg.mk 0x0303 0x02, imx477_reg.mk 0x0305 0x02, imx477_reg.mk 0x0306 0x00,
    imx477_reg.mk 0x0307 0xaf, imx477_reg.mk 0x0309 0x08, imx477_reg.mk 0x030b 0x02, imx477_reg.mk 0x030d 0x02, imx477_reg.mk 0x030e 0x00,
    imx477_reg.mk 0x030f 0x96, imx477_reg.mk 0x0310 0x01, imx477_reg.mk 0x0820 0x07, imx477_reg.mk 0x0821 0x08, imx477_reg.mk 0x0822 0x00,
    imx477_reg.mk 0x0823 0x00, imx477_reg.mk 0x080a 0x00, imx477_reg.mk 0x080b 0x7f, imx477_reg.mk 0x080c 0x00, imx477_reg.mk 0x080d 0x4f,
    imx477_reg.mk 0x080e 0x00, imx477_reg.mk 0x080f 0x77, imx477_reg.mk 0x0810 0x00, imx477_reg.mk 0x0811 0x5f, imx477_reg.mk 0x0812 0x00,
    imx477_reg.mk 0x0813 0x57, imx477_reg.mk 0x0814 0x00, imx477_reg.mk 0x0815 0x4f, imx477_reg.mk 0x0816 0x01, imx477_reg.mk 0x0817 0x27,
    imx477_reg.mk 0x0818 0x00, imx477_reg.mk 0x0819 0x3f, imx477_reg.mk 0xe04c 0x00, imx477_reg.mk 0xe04d 0x5f, imx477_reg.mk 0xe04e 0x00,
    imx477_reg.mk 0xe04f 0x1f, imx477_reg.mk 0x3e20 0x01, imx477_reg.mk 0x3e37 0x00, imx477_reg.mk 0x3f50 0x00, imx477_reg.mk 0x3f56 0x00,
    imx477_reg.mk 0x3f57 0xbf ]

/-- Recipe of the 8-bit 1080p mode. -/
def mode_2028x1080_regs_8b : List imx477_reg :=
  [ imx477_reg.mk 0x0112 0x08, imx477_reg.mk 0x0113 0x08, imx477_reg.mk 0x0342 0x31, imx477_reg.mk 0x0343 0xc4, imx477_reg.mk 0x0344 0x00,
    imx477_reg.mk 0x0345 0x00, imx477_reg.mk 0x0346 0x01, imx477_reg.mk 0x0347 0xb8, imx477_reg.mk 0x0348 0x0f, imx477_reg.mk 0x0349 0xd7,
    imx477_reg.mk 0x034a 0x0a, imx477_reg.mk 0x034b 0x27, imx477_reg.mk 0x00e3 0x00, imx477_reg.mk 0x00e4 0x00, imx477_reg.mk 0x00fc 0x08,
    imx477_reg.mk 0x00fd 0x08, imx477_reg.mk 0x00fe 0x08, imx477_reg.mk 0x00ff 0x08, imx477_reg.mk 0x0220 0x00, imx477_reg.mk 0x0221 0x11,
    imx477_reg.mk 0x0381 0x01, imx477_reg.mk 0x0383 0x01, imx477_reg.mk 0x0385 0x01, imx477_reg.mk 0x0387 0x01, imx477_reg.mk 0x0900 0x01,
    imx477_reg.mk 0x0901 0x22, imx477_reg.mk 0x0902 0x02, imx477_reg.mk 0x3140 0x02, imx477_reg.mk 0x3c00 0x00, imx477_reg.mk 0x3c01 0x03,
    imx477_reg.mk 0x3c02 0xa2, imx477_reg.mk 0x3f0d 0x01, imx477_reg.mk 0x5748 0x07, imx477_reg.mk 0x5749 0xff, imx477_reg.mk 0x574a 0x00,
    imx477_reg.mk 0x574b 0x00, imx477_reg.mk 0x7b53 0x01, imx477_reg.mk 0x9369 0x73, imx477_reg.mk 0x936b 0x64, imx477_reg.mk 0x936d 0x5f,
    imx477_reg.mk 0x9304 0x00, imx477_reg.mk 0x9305 0x00, imx477_reg.mk 0x9e9a 0x2f, imx477_reg.mk 0x9e9b 0x2f, imx477_reg.mk 0x9e9c 0x2f,
    imx477_reg.mk 0x9e9d 0x00, imx477_reg.mk 0x9e9e 0x00, imx477_reg.mk 0x9e9f 0x00, imx477_reg.mk 0xa2a9 0x60, imx477_reg.mk 0xa2b7 0x00,
    imx477_reg.mk 0x0401 0x00, imx477_reg.mk 0x0404 0x00, imx477_reg.mk 0x0405 0x20, imx477_reg.mk 0x0408 0x00, imx477_reg.mk 0x0409 0x00,
    imx477_reg.mk 0x040a 0x00, imx477_reg.mk 0x040b 0x00, imx477_reg.mk 0x040c 0x0f, imx477_reg.mk 0x040d 0xd8, imx477_reg.mk 0x040e 0x04,
    imx477_reg.mk 0x040f 0x38, imx477_reg.mk 0x034c 0x07, imx477_reg.mk 0x034d 0xec, imx477_reg.mk 0x034e 0x04, imx477_reg.mk 0x034f 0x38,
    imx477_reg.mk 0x0301 0x05, imx477_reg.mk 0x0303 0x02, imx477_reg.mk 0x0305 0x04, imx477_reg.mk 0x0306 0x01, imx477_reg.mk 0x0307 0x5e,
    imx477_reg.mk 0x0309 0x08, imx477_reg.mk 0x030b 0x02, imx477_reg.mk 0x030d 0x02, imx477_reg.mk 0x030e 0x00, imx477_reg.mk 0x030f 0x96,
    imx477_reg.mk 0x0310 0x01, imx477_reg.mk 0x0820 0x07, imx477_reg.mk 0x0821 0x08, imx477_reg.mk 0x0822 0x00, imx477_reg.mk 0x0823 0x00,
    imx477_reg.mk 0x080a 0x00, imx477_reg.mk 0x080b 0x7f, imx477_reg.mk 0x080c 0x00, imx477_reg.mk 0x080d 0x4f, imx477_reg.mk 0x080e 0x00,
    imx477_reg.mk 0x080f 0x77, imx477_reg.mk 0x0810 0x00, imx477_reg.mk 0x0811 0x5f, imx477_reg.mk 0x0812 0x00, imx477_reg.mk 0x0813 0x57,
    imx477_reg.mk 0x0814 0x00, imx477_reg.mk 0x0815 0x4f, imx477_reg.mk 0x0816 0x01, imx477_reg.mk 0x0817 0x27, imx477_reg.mk 0x0818 0x00,
    imx477_reg.mk 0x0819 0x3f, imx477_reg.mk 0xe04c 0x00, imx477_reg.mk 0xe04d 0x7f, imx477_reg.mk 0xe04e 0x00, imx477_reg.mk 0xe04f 0x1f,
    imx477_reg.mk 0x3e20 0x01, imx477_reg.mk 0x3e37 0x00, imx477_reg.mk 0x3f50 0x00, imx477_reg.mk 0x3f56 0x01, imx477_reg.mk 0x3f57 0x6c ]

/-- Recipe of the 8-bit 640x480 cropped mode. -/
def mode_640x480_regs_8b : List imx477_reg :=
  [ imx477_reg.mk 0x0112 0x08, imx477_reg.mk 0x0113 0x08, imx477_reg.mk 0x0342 0x3e, imx477_reg.mk 0x0343 0x74, imx477_reg.mk 0x0344 0x01,
    imx477_reg.mk 0x0345 0x00, imx477_reg.mk 0x0346 0x01, imx477_reg.mk 0x0347 0xb8, imx477_reg.mk 0x0348 0x03, imx477_reg.mk 0x0349 0x7f,
    imx477_reg.mk 0x034a 0x03, imx477_reg.mk 0x034b 0x97, imx477_reg.mk 0x00e3 0x00, imx477_reg.mk 0x00e4 0x00, imx477_reg.mk 0x00fc 0x0a,
    imx477_reg.mk 0x00fd 0x0a, imx477_reg.mk 0x00fe 0x0a, imx477_reg.mk 0x00ff 0x0a, imx477_reg.mk 0x0220 0x00, imx477_reg.mk 0x0221 0x11,
    imx477_reg.mk 0x0381 0x01, imx477_reg.mk 0x0383 0x01, imx477_reg.mk 0x0385 0x01, imx477_reg.mk 0x0387 0x01, imx477_reg.mk 0x0900 0x01,
    imx477_reg.mk 0x0901 0x22, imx477_reg.mk 0x0902 0x02, imx477_reg.mk 0x3140 0x02, imx477_reg.mk 0x3c00 0x00, imx477_reg.mk 0x3c01 0x03,
    imx477_reg.mk 0x3c02 0xa2, imx477_reg.mk 0x3f0d 0x01, imx477_reg.mk 0x5748 0x07, imx477_reg.mk 0x5749 0xff, imx477_reg.mk 0x574a 0x00,
    imx477_reg.mk 0x574b 0x00, imx477_reg.mk 0x7b53 0x01, imx477_reg.mk 0x9369 0x73, imx477_reg.mk 0x936b 0x64, imx477_reg.mk 0x936d 0x5f,
    imx477_reg.mk 0x9304 0x00, imx477_reg.mk 0x9305 0x00, imx477_reg.mk 0x9e9a 0x2f, imx477_reg.mk 0x9e9b 0x2f, imx477_reg.mk 0x9e9c 0x2f,
    imx477_reg.mk 0x9e9d 0x00, imx477_reg.mk 0x9e9e 0x00, imx477_reg.mk 0x9e9f 0x00, imx477_reg.mk 0xa2a9 0x60, imx477_reg.mk 0xa2b7 0x00,
    imx477_reg.mk 0x0401 0x00, imx477_reg.mk 0x0404 0x00, imx477_reg.mk 0x0405 0x20, imx477_reg.mk 0x0408 0x00, imx477_reg.mk 0x0409 0x00,
    imx477_reg.mk 0x040a 0x00, imx477_reg.mk 0x040b 0x00, imx477_reg.mk 0x040c 0x02, imx477_reg.mk 0x040d 0x80, imx477_reg.mk 0x040e 0x01,
    imx477_reg.mk 0x040f 0xe0, imx477_reg.mk 0x034c 0x02, imx477_reg.mk 0x034d 0x80, imx477_reg.mk 0x034e 0x01, imx477_reg.mk 0x034f 0xe0,
    imx477_reg.mk 0x0301 0x05, imx477_reg.mk 0x0303 0x02, imx477_reg.mk 0x0305 0x04, imx477_reg.mk 0x0306 0x01, imx477_reg.mk 0x0307 0x5e,
    imx477_reg.mk 0x0309 0x08, imx477_reg.mk 0x030b 0x02, imx477_reg.mk 0x030d 0x02, imx477_reg.mk 0x030e 0x00, imx477_reg.mk 0x030f 0x96,
    imx477_reg.mk 0x0310 0x01, imx477_reg.mk 0x0820 0x07, imx477_reg.mk 0x0821 0x08, imx477_reg.mk 0x0822 0x00, imx477_reg.mk 0x0823 0x00,
    imx477_reg.mk 0x080a 0x00, imx477_reg.mk 0x080b 0x7f, imx477_reg.mk 0x080c 0x00, imx477_reg.mk 0x080d 0x4f, imx477_reg.mk 0x080e 0x00,
    imx477_reg.mk 0x080f 0x77, imx477_reg.mk 0x0810 0x00, imx477_reg.mk 0x0811 0x5f, imx477_reg.mk 0x0812 0x00, imx477_reg.mk 0x0813 0x57,
    imx477_reg.mk 0x0814 0x00, imx477_reg.mk 0x0815 0x4f, imx477_reg.mk 0x0816 0x01, imx477_reg.mk 0x0817 0x27, imx477_reg.mk 0x0818 0x00,
    imx477_reg.mk 0x0819 0x3f, imx477_reg.mk 0xe04c 0x00, imx477_reg.mk 0xe04d 0x7f, imx477_reg.mk 0xe04e 0x00, imx477_reg.mk 0xe04f 0x1f,
    imx477_reg.mk 0x3e20 0x01, imx477_reg.mk 0x3e37 0x00, imx477_reg.mk 0x3f50 0x00, imx477_reg.mk 0x3f56 0x01, imx477_reg.mk 0x3f57 0x6c ]

/-- Extra registers of the imx378 variant. -/
def imx378_regs : List imx477_reg :=
  [ imx477_reg.mk 0x3e35 0x01, imx477_reg.mk 0x4421 0x08, imx477_reg.mk 0x3ff9 0x00 ]

/-! ## Mode catalog -/

/-- Mode configs of the 12-bit family. -/
def supported_modes_12bit : List imx477_mode :=
  [ { orig_width := 4056, orig_height := 3040, min_hblank := 100, min_vblank := 42,
      line_length_pix := 0x5dc0,
      crop := { left := 8, top := 16, width := 4056, height := 3040 },
      timeperframe_min := { numerator := 100, denominator := 1000 },
      timeperframe_default := { numerator := 100, denominator := 1000 },
      reg_list := mode_4056x3040_regs },
    { orig_width := 2028, orig_height := 1520, min_hblank := 800, min_vblank := 32,
      line_length_pix := 0x31c4,
      crop := { left := 8, top := 16, width := 4056, height := 3040 },
      timeperframe_min := { numerator := 100, denominator := 4000 },
      timeperframe_default := { numerator := 100, denominator := 3000 },
      reg_list := mode_2028x1520_regs },
    { orig_width := 2028, orig_height := 1080, min_hblank := 800, min_vblank := 32,
      line_length_pix := 0x31c4,
      crop := { left := 8, top := 16 + 440, width := 4056, height := 2160 },
      timeperframe_min := { numerator := 100, denominator := 5000 },
      timeperframe_default := { numerator := 100, denominator := 3000 },
      reg_list := mode_2028x1080_regs } ]

/-- Mode configs of the 10-bit family. -/
def supported_modes_10bit : List imx477_mode :=
  [ { orig_width := 1332, orig_height := 990, min_hblank := 800, min_vblank := 32,
      line_length_pix := 6664,
      crop := { left := 8 + 696, top := 16 + 528, width := 2664, height := 1980 },
      timeperframe_min := { numerator := 100, denominator := 12000 },
      timeperframe_default := { numerator := 100, denominator := 12000 },
      reg_list := mode_1332x990_regs } ]

/-- Mode configs of the 8-bit family. -/
def supported_modes_8bit : List imx477_mode :=
  [ { orig_width := 1332, orig_height := 990, min_hblank := 800, min_vblank := 32,
      line_length_pix := 6664,
      crop := { left := 8 + 696, top := 16 + 528, width := 2664, height := 1980 },
      timeperframe_min := { numerator := 100, denominator := 12000 },
      timeperframe_default := { numerator := 100, denominator := 12000 },
      reg_list := mode_1332x990_regs_8bits },
    { orig_width := 2028, orig_height := 1080, min_hblank := 800, min_vblank := 32,
      line_length_pix := 0x31c4,
      crop := { left := 8, top := 16 + 440, width := 4056, height := 2160 },
      timeperframe_min := { numerator := 100, denominator := 5000 },
      timeperframe_default := { numerator := 100, denominator := 3000 },
      reg_list := mode_2028x1080_regs_8b },
    { orig_width := 640, orig_height := 480, min_hblank := 800, min_vblank := 32,
      line_length_pix := 5200,
      crop := { left := 8, top := 16 + 440, width := 640, height := 480 },
      timeperframe_min := { numerator := 100, denominator := 5000 },
      timeperframe_default := { numerator := 100, denominator := 8000 },
      reg_list := mode_640x480_regs_8b } ]

/-- The supported formats.  This table MUST contain 4 entries per format, to cover the various
flip combinations in the order: no flip, h flip, v flip, h and v flips. -/
def codes : List Nat :=
  [ MEDIA_BUS_FMT_SRGGB12_1X12, MEDIA_BUS_FMT_SGRBG12_1X12,
    MEDIA_BUS_FMT_SGBRG12_1X12, MEDIA_BUS_FMT_SBGGR12_1X12,
    MEDIA_BUS_FMT_SRGGB10_1X10, MEDIA_BUS_FMT_SGRBG10_1X10,
    MEDIA_BUS_FMT_SGBRG10_1X10, MEDIA_BUS_FMT_SBGGR10_1X10,
    MEDIA_BUS_FMT_SRGGB8_1X8, MEDIA_BUS_FMT_SGRBG8_1X8,
    MEDIA_BUS_FMT_SGBRG8_1X8, MEDIA_BUS_FMT_SBGGR8_1X8,
    MEDIA_BUS_FMT_Y8_1X8, MEDIA_BUS_FMT_Y8_1X8,
    MEDIA_BUS_FMT_Y8_1X8, MEDIA_BUS_FMT_Y8_1X8 ]

/-- Register values of the test pattern menu entries. -/
def imx477_test_pattern_val : List Int :=
  [ IMX477_TEST_PATTERN_DISABLE, IMX477_TEST_PATTERN_COLOR_BARS,
    IMX477_TEST_PATTERN_SOLID_COLOR, IMX477_TEST_PATTERN_GREY_COLOR,
    IMX477_TEST_PATTERN_PN9 ]

/-- Any extra information related to different compatible sensors. -/
structure imx477_compatible_data where
  chip_id : Nat
  extra_regs : List imx477_reg
deriving DecidableEq, Repr

def imx477_compatible : imx477_compatible_data :=
  { chip_id := IMX477_CHIP_ID, extra_regs := [] }

def imx378_compatible : imx477_compatible_data :=
  { chip_id := IMX378_CHIP_ID, extra_regs := imx378_regs }

/-! ## Controls, bus and session -/

/-- The fields of a V4L2 control that the driver reads or writes: its identifier, its value
(a C s32) and its range. -/
structure v4l2_ctrl where
  id : Nat
  val : Int
  minimum : Int
  maximum : Int
  step : Nat
  default_value : Int
  grabbed : Bool := false
  read_only : Bool := false
deriving DecidableEq, Repr

/-- A control of the handler, in the way the session reaches it: through one of the pointers of
struct imx477 that the driver dereferences, or only through the handler (held there with its
own record). -/
inductive ctrl_ref where
  | exposure
  | vflip
  | hflip
  | vblank
  | hblank
  | binning_ctrl
  | roi_start_x
  | roi_start_y
  | held (c : v4l2_ctrl)
deriving DecidableEq, Repr

/-- One call on the supplies, the clock or the reset line, as the power functions issue it. -/
inductive power_op where
  | regulator_bulk_enable
  | regulator_bulk_disable
  | clk_prepare_enable
  | clk_disable_unprepare
  | gpiod_set_value_cansleep (value : Nat)
  | usleep_range (min max : Nat)
deriving DecidableEq, Repr

/-- The supplies and the clock seen from the driver.  The argument k is the number of power
calls issued before this one; the answers are the return values of regulator_bulk_enable and
clk_prepare_enable (0 or a negative errno). -/
structure power_platform where
  regulator_bulk_enable : Nat → Int
  clk_prepare_enable : Nat → Int

/-- The module parameters of the driver. -/
structure module_params where
  dpc_enable : Int
  trigger_mode : Int
deriving DecidableEq, Repr

/-- One attempted transaction on the I2C bus, as handed to the adapter: either the buffer of an
i2c_master_send, or the two-message transfer of a register read (target address, address bytes,
number of bytes to read). -/
inductive i2c_xfer where
  | master_send (buf : List Nat)
  | transfer (addr : Nat) (reg_buf : List Nat) (rlen : Nat)
deriving DecidableEq, Repr

/-- The bus seen from the driver.  The argument k is the number of transactions attempted before
this one.  master_send answers what i2c_master_send returns for the given buffer (the count of
bytes sent, or a negative errno); transfer answers what i2c_transfer returns for a register read
(the count of messages completed, or a negative errno) together with the bytes read. -/
structure i2c_adapter where
  master_send : Nat → List Nat → Int
  transfer : Nat → Nat → List Nat → Nat → Int × List Nat

/-- Runtime power-management state of the device, as far as the driver observes it. -/
structure dev_pm where
  disabled : Bool
  active : Bool
  usage_count : Nat
deriving DecidableEq, Repr

/-- The session: struct imx477, together with the transcript of bus transactions attempted so
far, the runtime-PM state of the client device, the controls of the control handler in the
order of their creation, and the transcript of calls on the supplies, clock and reset line.  Controls that the C code dereferences
unconditionally are values; the two ROI origin controls, which the C code tests against NULL,
are optional. -/
structure imx477 where
  fmt_code : Nat
  exposure : v4l2_ctrl
  vflip : v4l2_ctrl
  hflip : v4l2_ctrl
  vblank : v4l2_ctrl
  hblank : v4l2_ctrl
  binning_ctrl : v4l2_ctrl
  roi_start_x : Option v4l2_ctrl
  roi_start_y : Option v4l2_ctrl
  mode : imx477_mode
  roi_width : Nat
  roi_height : Nat
  trigger_mode_of : Int
  streaming : Bool
  common_regs_written : Bool
  long_exp_shift : Nat
  i2c_generic_id : Nat
  i2c_read_addr : Nat
  compatible_data : imx477_compatible_data
  client_addr : Nat
  i2c_log : List i2c_xfer
  pm : dev_pm
  ctrl_handler : List ctrl_ref := []
  power_log : List power_op := []
deriving Repr

/-- Media bus frame format: the fields the driver touches. -/
structure v4l2_mbus_framefmt where
  width : Nat
  height : Nat
  code : Nat
  field : Nat
deriving DecidableEq, Repr

/-- Pad-level format request. -/
structure v4l2_subdev_format where
  which : Nat
  pad : Nat
  format : v4l2_mbus_framefmt
deriving DecidableEq, Repr

/-- The try formats kept per file handle, one per pad. -/
structure v4l2_subdev_state where
  try_fmt_image : v4l2_mbus_framefmt
  try_fmt_meta : v4l2_mbus_framefmt
deriving DecidableEq, Repr

/-- A register write as the sensor sees it: address, width in bytes and value. -/
structure reg_write where
  reg : Nat
  len : Nat
  val : Nat
deriving DecidableEq, Repr

/-! ## Helpers of the kernel that the driver calls -/

/-- Modelled from the spec: put_unaligned_be16 is a kernel helper outside the source file; it
stores a 16-bit value big-endian (section 4.1, address packed big-endian). -/
def put_unaligned_be16 (v : Nat) : List Nat := [(v >>> 8) % 256, v % 256]

/-- Modelled from the spec: put_unaligned_be32 is a kernel helper outside the source file; it
stores a 32-bit value big-endian (section 4.1). -/
def put_unaligned_be32 (v : Nat) : List Nat :=
  [(v >>> 24) % 256, (v >>> 16) % 256, (v >>> 8) % 256, v % 256]

/-- Modelled from the spec: get_unaligned_be32 is a kernel helper outside the source file; it
reads four bytes as a big-endian 32-bit value (section 4.1). -/
def get_unaligned_be32 (b : List Nat) : Nat :=
  (b.getD 0 0 <<< 24) ||| (b.getD 1 0 <<< 16) ||| (b.getD 2 0 <<< 8) ||| b.getD 3 0

/-- Modelled from the spec: i2c_master_send is the bus primitive of section 6, outside the source
file; it performs one write transaction with the given buffer and returns the adapter's answer.
The attempt is appended to the transcript whatever the answer. -/
def i2c_master_send (bus : i2c_adapter) (s : imx477) (buf : List Nat) : Int × imx477 :=
  (bus.master_send s.i2c_log.length buf,
   { s with i2c_log := s.i2c_log ++ [i2c_xfer.master_send buf] })

/-- Modelled from the spec: i2c_transfer is the bus primitive of section 6, outside the source
file; for a register read it sends the address bytes and reads rlen bytes from the same target.
Returns the adapter's answer, the bytes read and the session with the attempt recorded. -/
def i2c_transfer (bus : i2c_adapter) (s : imx477) (addr : Nat) (reg_buf : List Nat) (rlen : Nat) :
    Int × List Nat × imx477 :=
  let t := bus.transfer s.i2c_log.length addr reg_buf rlen
  (t.1, t.2, { s with i2c_log := s.i2c_log ++ [i2c_xfer.transfer addr reg_buf rlen] })

/-- Modelled from the spec: pm_runtime_get_if_in_use is a runtime-PM helper outside the source
file (the power-gated check of section 4.5).  It answers -EINVAL when runtime PM is disabled,
0 when the device is not active or not in use, and otherwise takes a reference and answers 1. -/
def pm_runtime_get_if_in_use (p : dev_pm) : Int × dev_pm :=
  if p.disabled then (-EINVAL, p)
  else if p.active && p.usage_count != 0 then (1, { p with usage_count := p.usage_count + 1 })
  else (0, p)

/-- Modelled from the spec: pm_runtime_put is a runtime-PM helper outside the source file; it
drops one reference. -/
def pm_runtime_put (p : dev_pm) : dev_pm := { p with usage_count := p.usage_count - 1 }

/-- Modelled from the spec: __v4l2_ctrl_modify_range is a control-framework helper outside the
source file; it installs a new [min,max,step,default] range (the mutable range of ControlState
in section 3) and brings the current value into the new range.  The framework's call-back into
the driver for a value changed this way is not part of this model. -/
def __v4l2_ctrl_modify_range (c : v4l2_ctrl) (min max : Int) (step : Nat) (dflt : Int) : v4l2_ctrl :=
  { c with minimum := min, maximum := max, step := step, default_value := dflt,
           val := if c.val < min then min else if max < c.val then max else c.val }

/-- Modelled from the spec: __v4l2_ctrl_s_ctrl is a control-framework helper outside the source
file; it sets the current value of a control (section 3, ControlState).  The framework's
call-back into the driver for the new value is not part of this model. -/
def __v4l2_ctrl_s_ctrl (c : v4l2_ctrl) (v : Int) : v4l2_ctrl := { c with val := v }

/-- Unsigned maximum (the kernel's umax on unsigned int). -/
def umax (a b : Int) : Nat := max (to_u32 a) (to_u32 b)

/-! ## Register I/O -/

/-- The six-byte buffer that imx477_write_reg prepares: address big-endian, then the value
shifted to the top of a 32-bit big-endian word. -/
def write_reg_buf (reg len val : Nat) : List Nat :=
  put_unaligned_be16 (reg % 65536) ++
    put_unaligned_be32 (((val % 4294967296) <<< (8 * (4 - len))) % 4294967296)

/-- Write registers up to 2 at a time.  The arguments are a u16 address, a u32 width and a u32
value.  Returns 0, -EINVAL or the I/O error, and the session with the transaction recorded. -/
def imx477_write_reg (bus : i2c_adapter) (s : imx477) (reg len val : Nat) : Int × imx477 :=
  if len > 4 then (-EINVAL, s)
  else
    let r := i2c_master_send bus s ((write_reg_buf reg len val).take (len + 2))
    if r.1 ≠ ((len + 2 : Nat) : Int) then (-EIO_err, r.2) else (0, r.2)

/-- Write a list of registers: single-byte writes in order, stopping at the first failure. -/
def imx477_write_regs (bus : i2c_adapter) (s : imx477) : List imx477_reg → Int × imx477
  | [] => (0, s)
  | r :: rs =>
    let w := imx477_write_reg bus s r.address 1 r.val
    if w.1 ≠ 0 then w else imx477_write_regs bus w.2 rs

/-- Read registers up to 2 at a time.  The third component is the value stored through the
output pointer, which keeps its previous content old when the read is refused or fails. -/
def imx477_read_reg (bus : i2c_adapter) (s : imx477) (reg len old : Nat) : Int × imx477 × Nat :=
  let addr_buf := [((reg % 65536) >>> 8) % 256, (reg % 65536) &&& 0xff]
  if len > 4 then (-EINVAL, s, old)
  else
    let t := i2c_transfer bus s s.client_addr addr_buf len
    if t.1 ≠ 2 then (-EIO_err, t.2.2, old)
    else
      let data_buf := List.replicate (4 - len) 0 ++ (t.2.1 ++ List.replicate len 0).take len
      (0, t.2.2, get_unaligned_be32 data_buf)

/-! ## Format codes and mode tables -/

/-- Mode list of a pixel code; the empty list stands for the NULL table of the default case. -/
def get_mode_table (code : Nat) : List imx477_mode :=
  if code = MEDIA_BUS_FMT_SRGGB12_1X12 ∨ code = MEDIA_BUS_FMT_SGRBG12_1X12 ∨
     code = MEDIA_BUS_FMT_SGBRG12_1X12 ∨ code = MEDIA_BUS_FMT_SBGGR12_1X12 then
    supported_modes_12bit
  else if code = MEDIA_BUS_FMT_SRGGB10_1X10 ∨ code = MEDIA_BUS_FMT_SGRBG10_1X10 ∨
     code = MEDIA_BUS_FMT_SGBRG10_1X10 ∨ code = MEDIA_BUS_FMT_SBGGR10_1X10 then
    supported_modes_10bit
  else if code = MEDIA_BUS_FMT_SRGGB8_1X8 ∨ code = MEDIA_BUS_FMT_SGRBG8_1X8 ∨
     code = MEDIA_BUS_FMT_SGBRG8_1X8 ∨ code = MEDIA_BUS_FMT_SBGGR8_1X8 ∨
     code = MEDIA_BUS_FMT_Y8_1X8 then
    supported_modes_8bit
  else []

/-- Get bayer order based on flip setting. -/
def imx477_get_format_code (s : imx477) (code : Nat) : Nat :=
  let i := codes.indexOf code
  let i := if i ≥ codes.length then 0 else i
  let i := (i &&& 0xFFFFFFFC) ||| (if s.vflip.val ≠ 0 then 2 else 0) |||
           (if s.hflip.val ≠ 0 then 1 else 0)
  codes.getD i 0

/-- Set default mode to max resolution. -/
def imx477_set_default_format (s : imx477) : imx477 :=
  { s with mode := supported_modes_12bit.headD s.mode, fmt_code := MEDIA_BUS_FMT_SRGGB12_1X12 }

/-! ## Timing and ROI engine -/

/-- Raise the vblank minimum to exposure + offset (bounded below by the mode minimum), and the
current vblank with it.  Defined in the driver; no function of the driver calls it. -/
def imx477_adjust_vblank_range_to_fit_exposure (s : imx477) : imx477 :=
  let vblank_min : Int := umax (s.exposure.val + IMX477_EXPOSURE_OFFSET) s.mode.min_vblank
  let vblank_max : Int :=
    ((1 <<< IMX477_LONG_EXP_SHIFT_MAX) * IMX477_FRAME_LENGTH_MAX : Nat) - (s.roi_height : Int)
  let s := { s with vblank := __v4l2_ctrl_modify_range s.vblank vblank_min vblank_max 1 vblank_min }
  if (to_u32 s.vblank.val : Int) < vblank_min then
    { s with vblank := __v4l2_ctrl_s_ctrl s.vblank vblank_min }
  else s

/-- Program the eight ROI registers from the ROI size, the ROI origin controls and the binning
control.  The alignment checks of the C function only print a message.  The results of the
eight writes are ignored, as in the C function. -/
def imx477_set_ROI_size (bus : i2c_adapter) (s : imx477) : imx477 :=
  let b : Int := s.binning_ctrl.val
  let x_size : Nat := s.roi_width % 65536
  let y_size : Nat := s.roi_height % 65536
  let x_start : Nat :=
    match s.roi_start_x with
    | none => 0
    | some c => (to_u32 c.val &&& 0xFFFC) % 65536
  let y_start : Nat :=
    match s.roi_start_y with
    | none => 0
    | some c => (to_u32 c.val &&& 0xFFFC) % 65536
  let x_end : Nat := to_u16 (x_start + x_size * b - 1)
  let y_end : Nat := to_u16 (y_start + y_size * b - 1)
  let s := (imx477_write_reg bus s IMX477_X_START_REG IMX477_REG_VALUE_16BIT x_start).2
  let s := (imx477_write_reg bus s IMX477_Y_START_REG IMX477_REG_VALUE_16BIT y_start).2
  let s := (imx477_write_reg bus s IMX477_X_END_REG IMX477_REG_VALUE_16BIT x_end).2
  let s := (imx477_write_reg bus s IMX477_Y_END_REG IMX477_REG_VALUE_16BIT y_end).2
  let s := (imx477_write_reg bus s IMX477_X_SIZE_REG IMX477_REG_VALUE_16BIT x_size).2
  let s := (imx477_write_reg bus s IMX477_Y_SIZE_REG IMX477_REG_VALUE_16BIT y_size).2
  let s := (imx477_write_reg bus s IMX477_X_DIG_CROP_SIZE_REG IMX477_REG_VALUE_16BIT
              (to_u32 (x_size * b))).2
  let s := (imx477_write_reg bus s IMX477_Y_DIG_CROP_SIZE_REG IMX477_REG_VALUE_16BIT
              (to_u32 (y_size * b))).2
  s

/-- The while loop of imx477_set_frame_length on the pair (val, long_exp_shift): halve val and
count up while val exceeds the register maximum.  The first argument bounds the number of
rounds; a 32-bit val needs fewer than 32. -/
def frame_length_loop : Nat → Nat → Nat → Nat × Nat
  | 0, val, shift => (val, shift)
  | fuel + 1, val, shift =>
    if val > IMX477_FRAME_LENGTH_MAX then frame_length_loop fuel (val >>> 1) (shift + 1)
    else (val, shift)

/-- Set the frame length: find the long exposure shift, write the shifted frame length and,
if that write succeeded, the shift. -/
def imx477_set_frame_length (bus : i2c_adapter) (s : imx477) (val : Nat) : Int × imx477 :=
  let s := { s with long_exp_shift := 0 }
  let l := frame_length_loop 32 (val % 4294967296) s.long_exp_shift
  let s := { s with long_exp_shift := l.2 }
  let r := imx477_write_reg bus s IMX477_REG_FRAME_LENGTH IMX477_REG_VALUE_16BIT l.1
  if r.1 ≠ 0 then r
  else imx477_write_reg bus r.2 IMX477_LONG_EXP_SHIFT_REG IMX477_REG_VALUE_08BIT
         r.2.long_exp_shift

/-! ## Control surface -/

/-- The switch of imx477_set_ctrl over the control identifier. -/
def imx477_set_ctrl_switch (bus : i2c_adapter) (s : imx477) (ctrl : v4l2_ctrl) : Int × imx477 :=
  if ctrl.id = V4L2_CID_ANALOGUE_GAIN then
    imx477_write_reg bus s IMX477_REG_ANALOG_GAIN IMX477_REG_VALUE_16BIT (to_u32 ctrl.val)
  else if ctrl.id = V4L2_CID_EXPOSURE then
    imx477_write_reg bus s IMX477_REG_EXPOSURE IMX477_REG_VALUE_16BIT
      (to_u32 (ctrl.val >>> s.long_exp_shift))
  else if ctrl.id = V4L2_CID_DIGITAL_GAIN then
    imx477_write_reg bus s IMX477_REG_DIGITAL_GAIN IMX477_REG_VALUE_16BIT (to_u32 ctrl.val)
  else if ctrl.id = V4L2_CID_TEST_PATTERN then
    imx477_write_reg bus s IMX477_REG_TEST_PATTERN IMX477_REG_VALUE_16BIT
      (to_u32 (imx477_test_pattern_val.getD ctrl.val.toNat 0))
  else if ctrl.id = V4L2_CID_TEST_PATTERN_RED then
    imx477_write_reg bus s IMX477_REG_TEST_PATTERN_R IMX477_REG_VALUE_16BIT (to_u32 ctrl.val)
  else if ctrl.id = V4L2_CID_TEST_PATTERN_GREENR then
    imx477_write_reg bus s IMX477_REG_TEST_PATTERN_GR IMX477_REG_VALUE_16BIT (to_u32 ctrl.val)
  else if ctrl.id = V4L2_CID_TEST_PATTERN_BLUE then
    imx477_write_reg bus s IMX477_REG_TEST_PATTERN_B IMX477_REG_VALUE_16BIT (to_u32 ctrl.val)
  else if ctrl.id = V4L2_CID_TEST_PATTERN_GREENB then
    imx477_write_reg bus s IMX477_REG_TEST_PATTERN_GB IMX477_REG_VALUE_16BIT (to_u32 ctrl.val)
  else if ctrl.id = V4L2_CID_HFLIP ∨ ctrl.id = V4L2_CID_VFLIP then
    let r := imx477_write_reg bus s IMX477_REG_ORIENTATION 1
      (to_u32 s.hflip.val ||| ((to_u32 s.vflip.val <<< 1) % 4294967296))
    (r.1, imx477_set_ROI_size bus r.2)
  else if ctrl.id = V4L2_CID_VBLANK then
    imx477_set_frame_length bus s (to_u32 (s.roi_height + ctrl.val))
  else if ctrl.id = V4L2_CID_HBLANK then
    imx477_write_reg bus s IMX477_REG_LINE_LENGTH 2 (to_u32 (s.roi_width + ctrl.val))
  else if ctrl.id = V4L2_CID_BINNING then
    (0, s)
  else if ctrl.id = V4L2_CID_ROI_START_X then
    (0, imx477_set_ROI_size bus s)
  else if ctrl.id = V4L2_CID_ROI_START_Y then
    (0, imx477_set_ROI_size bus s)
  else if ctrl.id = V4L2_CID_FORCE_TRIGGER then
    (0, { s with trigger_mode_of := ctrl.val })
  else if ctrl.id = V4L2_CID_I2C_8B then
    imx477_write_reg bus s ((to_u32 ctrl.val >>> 16) &&& 0xFFFF) 1 (to_u32 ctrl.val &&& 0xFF)
  else if ctrl.id = V4L2_CID_I2C_16B then
    imx477_write_reg bus s ((to_u32 ctrl.val >>> 16) &&& 0xFFFF) 2 (to_u32 ctrl.val &&& 0xFFFF)
  else if ctrl.id = V4L2_CID_I2C_8B_GENERIC then
    (0, s)
  else if ctrl.id = V4L2_CID_I2C_SET_GENERIC_ID then
    (0, { s with i2c_generic_id := to_u32 ctrl.val &&& 0xFFFF })
  else if ctrl.id = V4L2_CID_I2C_SET_READ_ADDR then
    (0, { s with i2c_read_addr := to_u32 ctrl.val &&& 0xFFFF })
  else if ctrl.id = V4L2_CID_POWER_ON then
    (0, s)
  else if ctrl.id = V4L2_CID_I2C_8B_READ then
    (0, s)
  else if ctrl.id = V4L2_CID_I2C_16B_READ then
    (0, s)
  else if ctrl.id = V4L2_CID_I2C_8B_GENERIC_READ then
    (0, s)
  else
    (-EINVAL, s)

/-- Apply a control.  The control is passed by value with its new value in val; the session's
own control records are what the C code reaches through the pointers of struct imx477. -/
def imx477_set_ctrl (bus : i2c_adapter) (s : imx477) (ctrl : v4l2_ctrl) : Int × imx477 :=
  let g := pm_runtime_get_if_in_use s.pm
  let s := { s with pm := g.2 }
  let power_off : Bool := g.1 == 0
  if power_off ∧ ctrl.id ≠ V4L2_CID_I2C_8B ∧ ctrl.id ≠ V4L2_CID_I2C_16B ∧
     ctrl.id ≠ V4L2_CID_I2C_8B_GENERIC ∧ ctrl.id ≠ V4L2_CID_I2C_SET_GENERIC_ID ∧
     ctrl.id ≠ V4L2_CID_I2C_SET_READ_ADDR then
    (0, s)
  else if (ctrl.id = V4L2_CID_I2C_8B ∨ ctrl.id = V4L2_CID_I2C_16B ∨
           ctrl.id = V4L2_CID_I2C_8B_GENERIC) ∧ ctrl.val = 0 then
    (0, s)
  else
    let r := imx477_set_ctrl_switch bus s ctrl
    (r.1, { r.2 with pm := pm_runtime_put r.2.pm })

/-! ## Format negotiation -/

/-- Recompute the blanking limits for the current mode. -/
def imx477_set_framing_limits (s : imx477) : imx477 :=
  let mode := s.mode
  let s := { s with long_exp_shift := 0 }
  let vblank_max : Int :=
    ((1 <<< IMX477_LONG_EXP_SHIFT_MAX) * IMX477_FRAME_LENGTH_MAX : Nat) - (s.roi_height : Int)
  let s := { s with vblank :=
    __v4l2_ctrl_modify_range s.vblank mode.min_vblank vblank_max 1 mode.min_vblank }
  let s := { s with vblank := __v4l2_ctrl_s_ctrl s.vblank mode.min_vblank }
  let hblank_min := mode.min_hblank
  let s := { s with hblank :=
    __v4l2_ctrl_modify_range s.hblank hblank_min IMX477_LINE_LENGTH_MAX 1 hblank_min }
  { s with hblank := __v4l2_ctrl_s_ctrl s.hblank hblank_min }

/-- Fill a format of the metadata pad. -/
def imx477_update_metadata_pad_format (fmt : v4l2_subdev_format) : v4l2_subdev_format :=
  { fmt with format := { fmt.format with width := IMX477_EMBEDDED_LINE_WIDTH,
                                         height := IMX477_NUM_EMBEDDED_LINES,
                                         code := MEDIA_BUS_FMT_SENSOR_DATA,
                                         field := V4L2_FIELD_NONE } }

/-- Set the format of a pad.  The result is none where the C function would dereference the
NULL mode table; otherwise the return value, the session, the try formats and the format
handed back to the caller.  The nearest-size lookup of the C function only feeds a message
and is left out. -/
def imx477_set_pad_format (s : imx477) (sd_state : v4l2_subdev_state)
    (fmt : v4l2_subdev_format) :
    Option (Int × imx477 × v4l2_subdev_state × v4l2_subdev_format) :=
  if fmt.pad ≥ NUM_PADS then some (-EINVAL, s, sd_state, fmt)
  else if fmt.pad = IMAGE_PAD then
    let fmt := { fmt with format :=
      { fmt.format with code := imx477_get_format_code s fmt.format.code } }
    match get_mode_table fmt.format.code with
    | [] => none
    | mode0 :: _ =>
      let s := { s with mode := mode0 }
      let s := { s with fmt_code := fmt.format.code }
      let s := { s with roi_height := fmt.format.height % 65536 }
      let s := { s with roi_width := fmt.format.width % 65536 }
      let start_x : Nat :=
        (((s.mode.orig_width + 4294967296 - s.roi_width) % 4294967296) / 2) &&& 0xFFFC
      let s := { s with roi_start_x :=
        s.roi_start_x.map fun (c : v4l2_ctrl) => { c with val := start_x } }
      let start_y : Nat :=
        (((s.mode.orig_height + 4294967296 - s.roi_height) % 4294967296) / 2) &&& 0xFFFC
      let s := { s with roi_start_y :=
        s.roi_start_y.map fun (c : v4l2_ctrl) => { c with val := start_y } }
      let s := imx477_set_framing_limits s
      if fmt.which = V4L2_SUBDEV_FORMAT_TRY then
        some (0, s, { sd_state with try_fmt_image := fmt.format }, fmt)
      else if s.fmt_code ≠ fmt.format.code then
        let s := { s with fmt_code := fmt.format.code }
        some (0, imx477_set_framing_limits s, sd_state, fmt)
      else some (0, s, sd_state, fmt)
  else
    if fmt.which = V4L2_SUBDEV_FORMAT_TRY then
      some (0, s, { sd_state with try_fmt_meta := fmt.format }, fmt)
    else some (0, s, sd_state, imx477_update_metadata_pad_format fmt)

/-! ## Control replay, streaming and power -/

/-- Errno value EACCES of the kernel headers. -/
def EACCES : Int := 13

def V4L2_CID_LINK_FREQ : Nat := V4L2_CID_IMAGE_PROC_CLASS_BASE + 1
def V4L2_CID_PIXEL_RATE : Nat := V4L2_CID_IMAGE_PROC_CLASS_BASE + 2

def IMX477_PIXEL_RATE : Nat := 840000000
def IMX477_XCLR_MIN_DELAY_US : Nat := 8000
def IMX477_XCLR_DELAY_RANGE_US : Nat := 1000

/-- The control record behind a reference of the handler. -/
def ctrl_of (s : imx477) : ctrl_ref → Option v4l2_ctrl
  | ctrl_ref.exposure => some s.exposure
  | ctrl_ref.vflip => some s.vflip
  | ctrl_ref.hflip => some s.hflip
  | ctrl_ref.vblank => some s.vblank
  | ctrl_ref.hblank => some s.hblank
  | ctrl_ref.binning_ctrl => some s.binning_ctrl
  | ctrl_ref.roi_start_x => s.roi_start_x
  | ctrl_ref.roi_start_y => s.roi_start_y
  | ctrl_ref.held c => some c

/-- The replay loop of the control handler over the remaining controls; ret carries the first
failure met so far (0 when none). -/
def replay_controls (bus : i2c_adapter) : List ctrl_ref → imx477 → Int → Int × imx477
  | [], s, ret => (ret, s)
  | r :: rs, s, ret =>
    match ctrl_of s r with
    | none => replay_controls bus rs s ret
    | some c =>
      if c.read_only then replay_controls bus rs s ret
      else
        let a := imx477_set_ctrl bus s c
        replay_controls bus rs a.2 (if ret ≠ 0 then ret else a.1)

/-- Modelled from the spec: __v4l2_ctrl_handler_setup is a control-framework helper outside the
source file.  It replays every current control value through the driver's set handler, in the
order of the handler (section 4.6), leaving out read-only controls (the capability flag of
section 3); a failing control does not keep the other controls of the batch from being applied
and is reported through the return value (sections 4.5 and 7). -/
def __v4l2_ctrl_handler_setup (bus : i2c_adapter) (s : imx477) : Int × imx477 :=
  replay_controls bus s.ctrl_handler s 0

/-- Modelled from the spec: __v4l2_ctrl_grab is a control-framework helper outside the source
file; it marks a control as not changeable while streaming. -/
def __v4l2_ctrl_grab (c : v4l2_ctrl) (grabbed : Bool) : v4l2_ctrl := { c with grabbed := grabbed }

/-- The first block of imx477_start_streaming: the common recipe and then the extra recipe of
the chip variant, unless they were written before in this power cycle.  A non-zero result is
the result of the failing recipe write. -/
def imx477_start_streaming_common (bus : i2c_adapter) (s : imx477) : Int × imx477 :=
  if ¬ s.common_regs_written then
    let r := imx477_write_regs bus s mode_common_regs
    let r := if r.1 = 0 then imx477_write_regs bus r.2 r.2.compatible_data.extra_regs else r
    if r.1 ≠ 0 then r else (0, { r.2 with common_regs_written := true })
  else (0, s)

/-- The last block of imx477_start_streaming: the vsync trigger mode (0 = standalone,
1 = source, 2 = sink) and the stream-on register.  The results of the five trigger-mode writes
are ignored, as in the C function. -/
def imx477_start_streaming_trigger (mp : module_params) (bus : i2c_adapter) (s : imx477) :
    Int × imx477 :=
  let tm : Int := if s.trigger_mode_of ≥ 0 then s.trigger_mode_of else mp.trigger_mode
  let s := (imx477_write_reg bus s 0x0350 IMX477_REG_VALUE_08BIT (if tm > 0 then 0 else 1)).2
  let s := (imx477_write_reg bus s IMX477_REG_MC_MODE IMX477_REG_VALUE_08BIT
              (if tm > 0 then 1 else 0)).2
  let s := (imx477_write_reg bus s IMX477_REG_MS_SEL IMX477_REG_VALUE_08BIT
              (if tm ≤ 1 then 1 else 0)).2
  let s := (imx477_write_reg bus s IMX477_REG_XVS_IO_CTRL IMX477_REG_VALUE_08BIT
              (if tm = 1 then 1 else 0)).2
  let s := (imx477_write_reg bus s IMX477_REG_EXTOUT_EN IMX477_REG_VALUE_08BIT
              (if tm = 1 then 1 else 0)).2
  imx477_write_reg bus s IMX477_REG_MODE_SELECT IMX477_REG_VALUE_08BIT IMX477_MODE_STREAMING

/-- Start streaming: common and extra recipes once per power cycle, the recipe of the 12-bit
mode chosen by the binning control, the ROI registers, the defect-correction registers (results
ignored), the replay of the controls, the trigger-mode registers and the stream-on register. -/
def imx477_start_streaming (mp : module_params) (bus : i2c_adapter) (s : imx477) :
    Int × imx477 :=
  let c := imx477_start_streaming_common bus s
  if c.1 ≠ 0 then c
  else
    let s := c.2
    let s := { s with mode :=
      supported_modes_12bit.getD (if s.binning_ctrl.val = 2 then 1 else 0) s.mode }
    let r := imx477_write_regs bus s s.mode.reg_list
    if r.1 ≠ 0 then r
    else
      let s := imx477_set_ROI_size bus r.2
      let dpc : Nat := if mp.dpc_enable ≠ 0 then 1 else 0
      let s := (imx477_write_reg bus s 0x0b05 IMX477_REG_VALUE_08BIT dpc).2
      let s := (imx477_write_reg bus s 0x0b06 IMX477_REG_VALUE_08BIT dpc).2
      let h := __v4l2_ctrl_handler_setup bus s
      if h.1 ≠ 0 then h
      else imx477_start_streaming_trigger mp bus h.2

/-- Stop streaming: stream-off register, then stop driving XVS out.  A failure of the first
write is only reported in the kernel log. -/
def imx477_stop_streaming (bus : i2c_adapter) (s : imx477) : imx477 :=
  let r := imx477_write_reg bus s IMX477_REG_MODE_SELECT IMX477_REG_VALUE_08BIT
             IMX477_MODE_STANDBY
  (imx477_write_reg bus r.2 IMX477_REG_EXTOUT_EN IMX477_REG_VALUE_08BIT 0).2

/-- Power on: supplies, clock, reset deasserted, settle delay; a clock failure switches the
supplies off again. -/
def imx477_power_on (plat : power_platform) (s : imx477) : Int × imx477 :=
  let ret := plat.regulator_bulk_enable s.power_log.length
  let s := { s with power_log := s.power_log ++ [power_op.regulator_bulk_enable] }
  if ret ≠ 0 then (ret, s)
  else
    let ret := plat.clk_prepare_enable s.power_log.length
    let s := { s with power_log := s.power_log ++ [power_op.clk_prepare_enable] }
    if ret ≠ 0 then
      (ret, { s with power_log := s.power_log ++ [power_op.regulator_bulk_disable] })
    else
      let s := { s with power_log := s.power_log ++ [power_op.gpiod_set_value_cansleep 1] }
      let delay := power_op.usleep_range IMX477_XCLR_MIN_DELAY_US
        (IMX477_XCLR_MIN_DELAY_US + IMX477_XCLR_DELAY_RANGE_US)
      (0, { s with power_log := s.power_log ++ [delay] })

/-- Modelled from the spec: pm_runtime_get_sync is a runtime-PM helper outside the source file.
It takes a reference and brings the device to PoweredOn before it returns (section 4.6,
StartStreaming only from PoweredOn): when the device is not active it runs the driver's
power-on sequence, whose failure it returns; it answers -EACCES when runtime PM is disabled and
1 when the device was active already. -/
def pm_runtime_get_sync (plat : power_platform) (s : imx477) : Int × imx477 :=
  let s := { s with pm := { s.pm with usage_count := s.pm.usage_count + 1 } }
  if s.pm.disabled then (-EACCES, s)
  else if s.pm.active then (1, s)
  else
    let r := imx477_power_on plat s
    if r.1 ≠ 0 then r else (0, { r.2 with pm := { r.2.pm with active := true } })

/-- Modelled from the spec: pm_runtime_put_noidle is a runtime-PM helper outside the source
file; it drops one reference without any further action. -/
def pm_runtime_put_noidle (p : dev_pm) : dev_pm := { p with usage_count := p.usage_count - 1 }

/-- Start or stop streaming.  The argument enable is the C int; the streaming flag is compared
with it as an int. -/
def imx477_set_stream (mp : module_params) (plat : power_platform) (bus : i2c_adapter)
    (s : imx477) (enable : Int) : Int × imx477 :=
  if (if s.streaming then (1 : Int) else 0) = enable then (0, s)
  else
    let r : Int × imx477 × Bool :=
      if enable ≠ 0 then
        let g := pm_runtime_get_sync plat s
        if g.1 < 0 then (g.1, { g.2 with pm := pm_runtime_put_noidle g.2.pm }, false)
        else
          let st := imx477_start_streaming mp bus g.2
          if st.1 ≠ 0 then (st.1, { st.2 with pm := pm_runtime_put st.2.pm }, false)
          else (st.1, st.2, true)
      else
        let s := imx477_stop_streaming bus s
        (0, { s with pm := pm_runtime_put s.pm }, true)
    if r.2.2 then
      let s := r.2.1
      let s := { s with streaming := decide (enable ≠ 0) }
      let s := { s with vflip := __v4l2_ctrl_grab s.vflip (decide (enable ≠ 0)) }
      let s := { s with hflip := __v4l2_ctrl_grab s.hflip (decide (enable ≠ 0)) }
      (r.1, s)
    else (r.1, r.2.1)

/-- Suspend: the stream is stopped when the session is streaming; the streaming flag is kept
for the resume. -/
def imx477_suspend (bus : i2c_adapter) (s : imx477) : Int × imx477 :=
  if s.streaming then (0, imx477_stop_streaming bus s) else (0, s)

/-- Resume: the stream is started again when the session was streaming; when that fails the
stream is stopped, the streaming flag cleared and the error returned. -/
def imx477_resume (mp : module_params) (bus : i2c_adapter) (s : imx477) : Int × imx477 :=
  if s.streaming then
    let r := imx477_start_streaming mp bus s
    if r.1 ≠ 0 then
      let s := imx477_stop_streaming bus r.2
      (r.1, { s with streaming := false })
    else (0, r.2)
  else (0, s)

/-! ## Sequences of power-off and stream start -/

/-- Big-endian value of a list of bytes. -/
def be_value (bytes : List Nat) : Nat := bytes.foldl (fun acc b => acc * 256 + b) 0

/-- The register write carried by a transaction: the first two bytes are the address, the rest
the value, most significant byte first.  A read transfer carries none. -/
def decode_write : i2c_xfer → Option reg_write
  | i2c_xfer.master_send (a1 :: a0 :: data) =>
      some { reg := a1 * 256 + a0, len := data.length, val := be_value data }
  | _ => none

/-- The register writes attempted between two transcripts, oldest first. -/
def writes_after (before after : List i2c_xfer) : List (Option reg_write) :=
  (after.drop before.length).map decode_write

/-- The eight transactions that imx477_set_ROI_size issues for a session; they do not depend on
the answers of the bus. -/
def roi_xfers (s : imx477) : List i2c_xfer :=
  (imx477_set_ROI_size
    { master_send := fun _ _ => 0, transfer := fun _ _ _ _ => (0, []) }
    { s with i2c_log := [] }).i2c_log

/-- The transactions of a recipe: one single-byte register write per entry, in list order. -/
def recipe_xfers (regs : List imx477_reg) : List i2c_xfer :=
  regs.map fun e => i2c_xfer.master_send ((write_reg_buf e.address 1 e.val).take 3)

/-- The low len bytes of a value, most significant byte first. -/
def low_bytes_be : Nat → Nat → List Nat
  | 0, _ => []
  | len + 1, val => (val >>> (8 * len)) % 256 :: low_bytes_be len val

/-! ## Sample sessions and buses -/

/-- A control record with the given identifier, value and range. -/
def new_ctrl (id : Nat) (min max : Int) (step : Nat) (dflt : Int) : v4l2_ctrl :=
  { id := id, val := dflt, minimum := min, maximum := max, step := step, default_value := dflt }

/-- The controls of the handler in the order in which imx477_init_controls creates them, with
the defaults and ranges given there (pixel rate and link frequency and the read controls are
read-only). -/
def imx477_ctrl_list : List ctrl_ref :=
  [ ctrl_ref.held { new_ctrl V4L2_CID_PIXEL_RATE IMX477_PIXEL_RATE IMX477_PIXEL_RATE 1
                      IMX477_PIXEL_RATE with read_only := true },
    ctrl_ref.held { new_ctrl V4L2_CID_LINK_FREQ 0 0 1 0 with read_only := true },
    ctrl_ref.vblank,
    ctrl_ref.hblank,
    ctrl_ref.exposure,
    ctrl_ref.held (new_ctrl V4L2_CID_ANALOGUE_GAIN 0 978 1 0),
    ctrl_ref.held (new_ctrl V4L2_CID_DIGITAL_GAIN 0x0100 0xffff 1 0x0100),
    ctrl_ref.hflip,
    ctrl_ref.vflip,
    ctrl_ref.held (new_ctrl V4L2_CID_TEST_PATTERN 0 4 1 0),
    ctrl_ref.held (new_ctrl V4L2_CID_TEST_PATTERN_RED 0 0x0fff 1 0x0fff),
    ctrl_ref.held (new_ctrl V4L2_CID_TEST_PATTERN_GREENR 0 0x0fff 1 0x0fff),
    ctrl_ref.held (new_ctrl V4L2_CID_TEST_PATTERN_BLUE 0 0x0fff 1 0x0fff),
    ctrl_ref.held (new_ctrl V4L2_CID_TEST_PATTERN_GREENB 0 0x0fff 1 0x0fff),
    ctrl_ref.held (new_ctrl V4L2_CID_I2C_8B (-0x7FFFFFFF) 0x7FFFFFFF 1 0),
    ctrl_ref.held (new_ctrl V4L2_CID_I2C_16B (-0x7FFFFFFF) 0x7FFFFFFF 1 0),
    ctrl_ref.held (new_ctrl V4L2_CID_I2C_8B_GENERIC (-0x7FFFFFFF) 0x7FFFFFFF 1 0),
    ctrl_ref.held { (new_ctrl V4L2_CID_I2C_8B_GENERIC_READ (-0x7FFFFFFF) 0x7FFFFFFF 1 0)
                      with read_only := true },
    ctrl_ref.held (new_ctrl V4L2_CID_I2C_SET_GENERIC_ID 0 0xFFF 1 0),
    ctrl_ref.held (new_ctrl V4L2_CID_I2C_SET_READ_ADDR 0 0xFFFF 1 0),
    ctrl_ref.held (new_ctrl V4L2_CID_POWER_ON 0 1 1 0),
    ctrl_ref.held { (new_ctrl V4L2_CID_I2C_8B_READ (-0x7FFFFFFF) 0x7FFFFFFF 1 0)
                      with read_only := true },
    ctrl_ref.held { (new_ctrl V4L2_CID_I2C_16B_READ (-0x7FFFFFFF) 0x7FFFFFFF 1 0)
                      with read_only := true },
    ctrl_ref.roi_start_x,
    ctrl_ref.roi_start_y,
    ctrl_ref.held (new_ctrl V4L2_CID_FORCE_TRIGGER 0 2 1 0),
    ctrl_ref.binning_ctrl ]

/-- The session of an imx477 after a successful probe: default format, controls at their
defaults with the framing limits of the default mode, ROI size not yet set, nothing sent on the
bus yet in this transcript, device idle. -/
def probed_session : imx477 :=
  { fmt_code := MEDIA_BUS_FMT_SRGGB12_1X12,
    exposure := new_ctrl V4L2_CID_EXPOSURE 4 65478 1 0x640,
    vflip := new_ctrl V4L2_CID_VFLIP 0 1 1 0,
    hflip := new_ctrl V4L2_CID_HFLIP 0 1 1 0,
    vblank := new_ctrl V4L2_CID_VBLANK 42 8384000 1 42,
    hblank := new_ctrl V4L2_CID_HBLANK 100 0xfff0 1 100,
    binning_ctrl := new_ctrl V4L2_CID_BINNING 1 2 1 1,
    roi_start_x := some (new_ctrl V4L2_CID_ROI_START_X 0 0xFFFF 4 0),
    roi_start_y := some (new_ctrl V4L2_CID_ROI_START_Y 0 0xFFFF 4 0),
    mode := supported_modes_12bit.headD
      { orig_width := 0, orig_height := 0, line_length_pix := 0, min_hblank := 0,
        min_vblank := 0, crop := { left := 0, top := 0, width := 0, height := 0 },
        timeperframe_min := { numerator := 0, denominator := 0 },
        timeperframe_default := { numerator := 0, denominator := 0 }, reg_list := [] },
    roi_width := 0,
    roi_height := 0,
    trigger_mode_of := -1,
    streaming := false,
    common_regs_written := false,
    long_exp_shift := 0,
    i2c_generic_id := 0,
    i2c_read_addr := 0,
    compatible_data := imx477_compatible,
    client_addr := 0x1a,
    i2c_log := [],
    pm := { disabled := false, active := false, usage_count := 0 },
    ctrl_handler := imx477_ctrl_list }

/-- The probed session while the device is powered and in use (as during streaming). -/
def powered_session : imx477 :=
  { probed_session with pm := { disabled := false, active := true, usage_count := 1 } }

/-- A bus on which every transaction completes. -/
def good_bus : i2c_adapter :=
  { master_send := fun _ buf => (buf.length : Int),
    transfer := fun _ _ _ rlen => (2, List.replicate rlen 0) }

/-- A bus on which no transaction is acknowledged (every call answers -EREMOTEIO, -121). -/
def dead_bus : i2c_adapter :=
  { master_send := fun _ _ => -121,
    transfer := fun _ _ _ _ => (-121, []) }

/-- Try formats of a file handle that has not negotiated anything yet. -/
def empty_subdev_state : v4l2_subdev_state :=
  { try_fmt_image := { width := 0, height := 0, code := 0, field := 0 },
    try_fmt_meta := { width := 0, height := 0, code := 0, field := 0 } }

/-- A request to set the active format of the image pad. -/
def image_pad_request (code width height : Nat) : v4l2_subdev_format :=
  { which := V4L2_SUBDEV_FORMAT_ACTIVE, pad := IMAGE_PAD,
    format := { width := width, height := height, code := code, field := V4L2_FIELD_NONE } }

/-- The default module parameters: on-sensor DPC enabled, no trigger mode. -/
def default_params : module_params := { dpc_enable := 1, trigger_mode := 0 }

/-- A platform on which supplies and clock always come up. -/
def good_platform : power_platform :=
  { regulator_bulk_enable := fun _ => 0, clk_prepare_enable := fun _ => 0 }

/-- A bus that completes every transaction except the one with the given index, which is not
acknowledged. -/
def bus_failing_at (k : Nat) : i2c_adapter :=
  { master_send := fun i buf => if i = k then -121 else (buf.length : Int),
    transfer := fun i _ _ rlen => if i = k then (-121, []) else (2, List.replicate rlen 0) }

/-- A platform on which the supplies come up and the clock does not (-EINVAL). -/
def platform_without_clock : power_platform :=
  { regulator_bulk_enable := fun _ => 0, clk_prepare_enable := fun _ => -22 }

/-- A platform on which the supplies do not come up (-ENODEV, -19). -/
def platform_without_supplies : power_platform :=
  { regulator_bulk_enable := fun _ => -19, clk_prepare_enable := fun _ => 0 }

/-! ## Lemmas about machine integers and register writes -/

theorem to_u32_natCast (n : Nat) : to_u32 (n : Int) = n % 4294967296 := by
  unfold to_u32
  omega

theorem to_u16_natCast (n : Nat) : to_u16 (n : Int) = n % 65536 := by
  unfold to_u16
  omega

theorem write_reg_state (bus : i2c_adapter) (s : imx477) (reg len val : Nat) (h : len ≤ 4) :
    (imx477_write_reg bus s reg len val).2 =
      { s with i2c_log := s.i2c_log ++
          [i2c_xfer.master_send ((write_reg_buf reg len val).take (len + 2))] } := by
  unfold imx477_write_reg i2c_master_send
  rw [if_neg (by omega)]
  dsimp only
  split <;> rfl

theorem write_reg_ret (bus : i2c_adapter) (s : imx477) (reg len val : Nat) (h : len ≤ 4) :
    (imx477_write_reg bus s reg len val).1 =
      if bus.master_send s.i2c_log.length ((write_reg_buf reg len val).take (len + 2))
          = ((len + 2 : Nat) : Int) then 0 else -EIO_err := by
  unfold imx477_write_reg i2c_master_send
  rw [if_neg (by omega)]
  dsimp only
  split <;> simp_all

theorem write_reg_buf16 (reg val : Nat) :
    (write_reg_buf reg 2 val).take 4 =
      [(reg % 65536) / 256, reg % 256, (val % 65536) / 256, val % 256] := by
  unfold write_reg_buf put_unaligned_be16 put_unaligned_be32
  simp only [Nat.shiftLeft_eq, Nat.shiftRight_eq_div_pow, List.cons_append, List.nil_append,
    List.take_succ_cons, List.take_zero]
  congr 1
  · omega
  congr 1
  · omega
  congr 1
  · omega
  congr 1
  omega

theorem write_reg_buf8 (reg val : Nat) :
    (write_reg_buf reg 1 val).take 3 = [(reg % 65536) / 256, reg % 256, val % 256] := by
  unfold write_reg_buf put_unaligned_be16 put_unaligned_be32
  simp only [Nat.shiftLeft_eq, Nat.shiftRight_eq_div_pow, List.cons_append, List.nil_append,
    List.take_succ_cons, List.take_zero]
  congr 1
  · omega
  congr 1
  · omega
  congr 1
  omega

theorem decode_write16 (reg val : Nat) (hr : reg < 65536) :
    decode_write (i2c_xfer.master_send ((write_reg_buf reg 2 val).take 4)) =
      some { reg := reg, len := 2, val := val % 65536 } := by
  rw [write_reg_buf16]
  simp only [decode_write, be_value, List.foldl, List.length]
  congr 2 <;> omega

theorem decode_write8 (reg val : Nat) (hr : reg < 65536) :
    decode_write (i2c_xfer.master_send ((write_reg_buf reg 1 val).take 3)) =
      some { reg := reg, len := 1, val := val % 256 } := by
  rw [write_reg_buf8]
  simp only [decode_write, be_value, List.foldl, List.length]
  congr 2 <;> omega

theorem writes_after_append (l new : List i2c_xfer) :
    writes_after l (l ++ new) = new.map decode_write := by
  simp [writes_after]

/-! ## Frame length and long exposure shift -/

theorem frame_length_loop_spec (fuel : Nat) :
    ∀ val shift, val < 2 ^ fuel →
      ∃ k, frame_length_loop fuel val shift = (val >>> k, shift + k) ∧
        val >>> k ≤ 0xFFDC ∧ ∀ j, j < k → 0xFFDC < val >>> j := by
  induction fuel with
  | zero =>
    intro val shift h
    refine ⟨0, ?_, ?_, ?_⟩
    · simp [frame_length_loop]
    · simp at h; simp [h]
    · intro j hj; omega
  | succ n ih =>
    intro val shift h
    by_cases hv : val > IMX477_FRAME_LENGTH_MAX
    · have h2 : val >>> 1 < 2 ^ n := by
        rw [Nat.shiftRight_eq_div_pow]
        rw [pow_succ] at h
        omega
      obtain ⟨k, hk, hle, hmin⟩ := ih (val >>> 1) (shift + 1) h2
      refine ⟨k + 1, ?_, ?_, ?_⟩
      · rw [frame_length_loop, if_pos hv, hk]
        have : val >>> (1 + k) = (val >>> 1) >>> k := Nat.shiftRight_add val 1 k
        rw [Nat.add_comm k 1, this]
        congr 1
        omega
      · have : val >>> (1 + k) = (val >>> 1) >>> k := Nat.shiftRight_add val 1 k
        rw [Nat.add_comm k 1, this]
        exact hle
      · intro j hj
        cases j with
        | zero => simpa [IMX477_FRAME_LENGTH_MAX] using hv
        | succ j' =>
          have : val >>> (1 + j') = (val >>> 1) >>> j' := Nat.shiftRight_add val 1 j'
          rw [Nat.add_comm j' 1, this]
          exact hmin j' (by omega)
    · refine ⟨0, ?_, ?_, ?_⟩
      · rw [frame_length_loop, if_neg hv]; simp
      · simp [IMX477_FRAME_LENGTH_MAX] at hv; simpa using hv
      · intro j hj; omega

theorem write_reg16_eq (bus : i2c_adapter) (s : imx477) (reg val : Nat) :
    imx477_write_reg bus s reg 2 val =
      (if bus.master_send s.i2c_log.length ((write_reg_buf reg 2 val).take 4) = 4
         then 0 else -EIO_err,
       { s with i2c_log := s.i2c_log ++
           [i2c_xfer.master_send ((write_reg_buf reg 2 val).take 4)] }) := by
  apply Prod.ext
  · rw [write_reg_ret _ _ _ _ _ (by decide)]; rfl
  · rw [write_reg_state _ _ _ _ _ (by decide)]

theorem write_reg8_eq (bus : i2c_adapter) (s : imx477) (reg val : Nat) :
    imx477_write_reg bus s reg 1 val =
      (if bus.master_send s.i2c_log.length ((write_reg_buf reg 1 val).take 3) = 3
         then 0 else -EIO_err,
       { s with i2c_log := s.i2c_log ++
           [i2c_xfer.master_send ((write_reg_buf reg 1 val).take 3)] }) := by
  apply Prod.ext
  · rw [write_reg_ret _ _ _ _ _ (by decide)]; rfl
  · rw [write_reg_state _ _ _ _ _ (by decide)]

theorem set_frame_length_unfold (bus : i2c_adapter) (s : imx477) (total : Nat) :
    imx477_set_frame_length bus s total =
      (let l := frame_length_loop 32 (total % 4294967296) 0
       let s1 : imx477 := { s with long_exp_shift := l.2 }
       let b16 := i2c_xfer.master_send ((write_reg_buf 0x0340 2 l.1).take 4)
       let b8 := i2c_xfer.master_send ((write_reg_buf 0x3100 1 l.2).take 3)
       if bus.master_send s.i2c_log.length ((write_reg_buf 0x0340 2 l.1).take 4) = 4 then
         (if bus.master_send (s.i2c_log.length + 1) ((write_reg_buf 0x3100 1 l.2).take 3) = 3
            then 0 else -EIO_err,
          { s1 with i2c_log := s.i2c_log ++ [b16, b8] })
       else (-EIO_err, { s1 with i2c_log := s.i2c_log ++ [b16] })) := by
  unfold imx477_set_frame_length
  simp only [IMX477_REG_FRAME_LENGTH, IMX477_REG_VALUE_16BIT, IMX477_LONG_EXP_SHIFT_REG,
    IMX477_REG_VALUE_08BIT, write_reg16_eq, write_reg8_eq]
  split <;> simp_all [EIO_err]

theorem set_frame_length_cases (bus : i2c_adapter) (s : imx477) (total : Nat)
    (h : total < 4294967296) :
    ∃ k, (total >>> k ≤ 0xFFDC ∧ ∀ j, j < k → 0xFFDC < total >>> j) ∧ k ≤ 17 ∧
      (imx477_set_frame_length bus s total).2.long_exp_shift = k ∧
      ((bus.master_send s.i2c_log.length [0x03, 0x40, (total >>> k) / 256, (total >>> k) % 256]
          = 4 ∧
        (imx477_set_frame_length bus s total).2.i2c_log = s.i2c_log ++
          [i2c_xfer.master_send ((write_reg_buf 0x0340 2 (total >>> k)).take 4),
           i2c_xfer.master_send ((write_reg_buf 0x3100 1 k).take 3)]) ∨
       (bus.master_send s.i2c_log.length [0x03, 0x40, (total >>> k) / 256, (total >>> k) % 256]
          ≠ 4 ∧
        (imx477_set_frame_length bus s total).1 = -EIO_err ∧
        (imx477_set_frame_length bus s total).2.i2c_log = s.i2c_log ++
          [i2c_xfer.master_send ((write_reg_buf 0x0340 2 (total >>> k)).take 4)])) := by
  obtain ⟨k, hk, hle, hmin⟩ :=
    frame_length_loop_spec 32 (total % 4294967296) 0 (Nat.mod_lt _ (by norm_num))
  rw [Nat.mod_eq_of_lt h] at hk hle hmin
  have hk17 : k ≤ 17 := by
    by_contra hc
    have := hmin 17 (by omega)
    rw [Nat.shiftRight_eq_div_pow] at this
    omega
  refine ⟨k, ⟨hle, hmin⟩, hk17, ?_⟩
  rw [set_frame_length_unfold, Nat.mod_eq_of_lt h, hk]
  have hbuf : (write_reg_buf 0x0340 2 (total >>> k)).take 4 =
      [0x03, 0x40, (total >>> k) / 256, (total >>> k) % 256] := by
    rw [write_reg_buf16]
    have : total >>> k % 65536 = total >>> k := Nat.mod_eq_of_lt (by omega)
    rw [this]
  simp only [Nat.zero_add]
  rw [hbuf]
  by_cases hb : bus.master_send s.i2c_log.length
      [0x03, 0x40, (total >>> k) / 256, (total >>> k) % 256] = 4
  · rw [if_pos hb]
    exact ⟨rfl, Or.inl ⟨hb, rfl⟩⟩
  · rw [if_neg hb]
    exact ⟨rfl, Or.inr ⟨hb, rfl, rfl⟩⟩

/-- C1 (as amended): for every unsigned 32-bit frame-length total, imx477_set_frame_length
stores in long_exp_shift the smallest s with (total >> s) <= 0xFFDC and issues the 16-bit write
of total >> s to register 0x0340; the 8-bit write of s to register 0x3100 follows when the bus
accepted the first write, and otherwise the function returns the I/O error with 0x3100 not
written.  For total <= 0xFFDC the shift is 0 and the register value is total; for total 73040
(roi_height 3040, vblank 70000) the shift is 1 and the register value 36520. -/
theorem set_frame_length_minimal_shift (bus : i2c_adapter) (s : imx477) (total : Nat)
    (h : total < 4294967296) :
    let r := imx477_set_frame_length bus s total
    let sh := r.2.long_exp_shift
    let accepted :=
      bus.master_send s.i2c_log.length [0x03, 0x40, (total >>> sh) / 256, (total >>> sh) % 256] = 4
    (total >>> sh ≤ 0xFFDC ∧ ∀ j, j < sh → 0xFFDC < total >>> j) ∧
    (total ≤ 0xFFDC → sh = 0 ∧ total >>> sh = total) ∧
    (total = 73040 → sh = 1 ∧ total >>> sh = 36520) ∧
    s.i2c_log <+: r.2.i2c_log ∧
    (accepted → writes_after s.i2c_log r.2.i2c_log =
        [some { reg := 0x0340, len := 2, val := total >>> sh },
         some { reg := 0x3100, len := 1, val := sh }]) ∧
    (¬ accepted → r.1 = -EIO_err ∧ writes_after s.i2c_log r.2.i2c_log =
        [some { reg := 0x0340, len := 2, val := total >>> sh }]) := by
  intro r sh accepted
  obtain ⟨k, ⟨hle, hmin⟩, hk17, hsh, hcases⟩ := set_frame_length_cases bus s total h
  have hshk : sh = k := hsh
  have hzero : total ≤ 0xFFDC → k = 0 := by
    intro ht
    by_contra hc
    have := hmin 0 (by omega)
    simp at this
    omega
  have hd16 : decode_write (i2c_xfer.master_send ((write_reg_buf 0x0340 2 (total >>> k)).take 4))
      = some { reg := 0x0340, len := 2, val := total >>> k } := by
    rw [decode_write16 _ _ (by norm_num)]
    have : total >>> k % 65536 = total >>> k := Nat.mod_eq_of_lt (by omega)
    rw [this]
  have hd8 : decode_write (i2c_xfer.master_send ((write_reg_buf 0x3100 1 k).take 3))
      = some { reg := 0x3100, len := 1, val := k } := by
    rw [decode_write8 _ _ (by norm_num)]
    have : k % 256 = k := Nat.mod_eq_of_lt (by omega)
    rw [this]
  have hacc_iff : accepted ↔ bus.master_send s.i2c_log.length
      [0x03, 0x40, (total >>> k) / 256, (total >>> k) % 256] = 4 := by
    show (bus.master_send _ _ = 4) ↔ _
    rw [hshk]
  refine ⟨?_, ?_, ?_, ?_, ?_, ?_⟩
  · rw [hshk]; exact ⟨hle, hmin⟩
  · intro ht
    rw [hshk, hzero ht]
    simp
  · intro ht
    subst ht
    have h1 : k ≤ 1 := by
      by_contra hc
      have := hmin 1 (by omega)
      simp at this
    have h0 : k ≠ 0 := by
      intro hc
      rw [hc] at hle
      simp at hle
    have hk1 : k = 1 := by omega
    rw [hshk, hk1]
    simp
  · rcases hcases with ⟨_, hlog⟩ | ⟨_, _, hlog⟩
    · exact ⟨_, hlog.symm⟩
    · exact ⟨_, hlog.symm⟩
  · intro hacc
    rcases hcases with ⟨_, hlog⟩ | ⟨hb, _, _⟩
    · show writes_after s.i2c_log (imx477_set_frame_length bus s total).2.i2c_log = _
      rw [hlog, writes_after_append, hshk]
      simp only [List.map, hd16, hd8]
    · exact absurd (hacc_iff.mp hacc) hb
  · intro hacc
    rcases hcases with ⟨hb, _⟩ | ⟨_, hret, hlog⟩
    · exact absurd (hacc_iff.mpr hb) hacc
    · refine ⟨hret, ?_⟩
      show writes_after s.i2c_log (imx477_set_frame_length bus s total).2.i2c_log = _
      rw [hlog, writes_after_append, hshk]
      simp only [List.map, hd16]

/-- Witness of C1 on a working bus: total 73040 gives shift 1, frame length 36520 and both
register writes. -/
theorem set_frame_length_minimal_shift_witness :
    (imx477_set_frame_length good_bus probed_session 73040).2.long_exp_shift = 1 ∧
    writes_after probed_session.i2c_log
        (imx477_set_frame_length good_bus probed_session 73040).2.i2c_log =
      [some { reg := 0x0340, len := 2, val := 36520 },
       some { reg := 0x3100, len := 1, val := 1 }] := by
  have h := set_frame_length_minimal_shift good_bus probed_session 73040 (by decide)
  have h1 := (h.2.2.1 rfl).1
  refine ⟨h1, ?_⟩
  have h2 := h.2.2.2.2.1
  simp only [h1] at h2
  exact h2 (by decide)

/-- C1 (counterexample): on a bus that rejects the frame-length write, imx477_set_frame_length
with total 100 returns the I/O error after the single write to 0x0340; register 0x3100 is not
written. -/
theorem set_frame_length_skips_shift_write :
    (imx477_set_frame_length dead_bus probed_session 100).1 = -EIO_err ∧
    writes_after probed_session.i2c_log
        (imx477_set_frame_length dead_bus probed_session 100).2.i2c_log =
      [some { reg := 0x0340, len := 2, val := 100 }] := by
  decide

/-- C2 (as amended): imx477_set_frame_length does not clamp the long-exposure shift.  For an
unsigned 32-bit total the resulting shift is at most 7 exactly when total >> 7 <= 0xFFDC, that
is exactly when total <= 128 * 0xFFDC + 127 = 8384127, which covers every total up to
128 * 0xFFDC (the bound the vblank range enforces); for totals of 8384128 or more the shift
exceeds 7, and it never exceeds 17. -/
theorem set_frame_length_shift_bound (bus : i2c_adapter) (s : imx477) (total : Nat)
    (h : total < 4294967296) :
    ((imx477_set_frame_length bus s total).2.long_exp_shift ≤ 7 ↔ total >>> 7 ≤ 0xFFDC) ∧
    (total ≤ 128 * 0xFFDC → (imx477_set_frame_length bus s total).2.long_exp_shift ≤ 7) ∧
    (imx477_set_frame_length bus s total).2.long_exp_shift ≤ 17 ∧
    ((imx477_set_frame_length bus s total).2.long_exp_shift ≤ 7 ↔ total ≤ 8384127) ∧
    (8384128 ≤ total → 7 < (imx477_set_frame_length bus s total).2.long_exp_shift) := by
  obtain ⟨k, ⟨hle, hmin⟩, hk17, hsh, _⟩ := set_frame_length_cases bus s total h
  rw [hsh]
  have hiff : k ≤ 7 ↔ total >>> 7 ≤ 0xFFDC := by
    constructor
    · intro hk
      have h1 : total >>> 7 ≤ total >>> k := by
        rw [Nat.shiftRight_eq_div_pow, Nat.shiftRight_eq_div_pow]
        exact Nat.div_le_div_left (Nat.pow_le_pow_right (by norm_num) hk) (by positivity)
      omega
    · intro ht
      by_contra hc
      have := hmin 7 (by omega)
      omega
  have hsh7 : total >>> 7 ≤ 0xFFDC ↔ total ≤ 8384127 := by
    rw [Nat.shiftRight_eq_div_pow]
    omega
  refine ⟨hiff, ?_, hk17, hiff.trans hsh7, ?_⟩
  · intro ht
    apply hiff.mpr
    rw [Nat.shiftRight_eq_div_pow]
    omega
  · intro ht
    by_contra hc
    have := (hiff.trans hsh7).mp (by omega)
    omega

/-- Witness of C2: the largest total the vblank range allows, 128 * 0xFFDC, gives a shift of at
most 7. -/
theorem set_frame_length_shift_bound_witness :
    (imx477_set_frame_length good_bus probed_session 8384000).2.long_exp_shift ≤ 7 :=
  (set_frame_length_shift_bound good_bus probed_session 8384000 (by decide)).2.1 (by decide)

/-- C2 (counterexample): total 8384128 = 128 * 0xFFDC + 128 leaves a long-exposure shift of 8,
and the largest 32-bit total a shift of 17: the shift is not clamped to 7. -/
theorem set_frame_length_shift_exceeds_7 :
    (imx477_set_frame_length good_bus probed_session 8384128).2.long_exp_shift = 8 ∧
    (imx477_set_frame_length good_bus probed_session 4294967295).2.long_exp_shift = 17 := by
  decide

/-! ## Exposure -/

theorem set_ctrl_switch_exposure (bus : i2c_adapter) (s : imx477) (ctrl : v4l2_ctrl)
    (hid : ctrl.id = V4L2_CID_EXPOSURE) :
    imx477_set_ctrl_switch bus s ctrl =
      imx477_write_reg bus s 0x0202 2 (to_u32 (ctrl.val >>> s.long_exp_shift)) := by
  unfold imx477_set_ctrl_switch
  rw [if_neg (by rw [hid]; decide), if_pos hid]
  rfl

theorem set_ctrl_powered (bus : i2c_adapter) (s : imx477) (ctrl : v4l2_ctrl)
    (hpow : (pm_runtime_get_if_in_use s.pm).1 ≠ 0)
    (hraw : ¬ ((ctrl.id = V4L2_CID_I2C_8B ∨ ctrl.id = V4L2_CID_I2C_16B ∨
           ctrl.id = V4L2_CID_I2C_8B_GENERIC) ∧ ctrl.val = 0)) :
    imx477_set_ctrl bus s ctrl =
      (let r := imx477_set_ctrl_switch bus { s with pm := (pm_runtime_get_if_in_use s.pm).2 } ctrl
       (r.1, { r.2 with pm := pm_runtime_put r.2.pm })) := by
  unfold imx477_set_ctrl
  have hp : ((pm_runtime_get_if_in_use s.pm).1 == 0) = false := by simpa using hpow
  simp only [hp]
  rw [if_neg (by simp), if_neg hraw]

theorem set_ctrl_exposure_eq (bus : i2c_adapter) (s : imx477) (ctrl : v4l2_ctrl) (v : Nat)
    (hid : ctrl.id = V4L2_CID_EXPOSURE) (hpow : (pm_runtime_get_if_in_use s.pm).1 ≠ 0)
    (hval : ctrl.val = (v : Int)) (hv : v < 65536) :
    (imx477_set_ctrl bus s ctrl).2.i2c_log = s.i2c_log ++
        [i2c_xfer.master_send ((write_reg_buf 0x0202 2 (v >>> s.long_exp_shift)).take 4)] ∧
    writes_after s.i2c_log (imx477_set_ctrl bus s ctrl).2.i2c_log =
        [some { reg := 0x0202, len := 2, val := v >>> s.long_exp_shift }] := by
  have hlt : v >>> s.long_exp_shift < 65536 := by
    have : v >>> s.long_exp_shift ≤ v := by
      rw [Nat.shiftRight_eq_div_pow]; exact Nat.div_le_self _ _
    omega
  have hshift : to_u32 (ctrl.val >>> s.long_exp_shift) = v >>> s.long_exp_shift := by
    rw [hval]
    have : ((v : Int) >>> s.long_exp_shift) = ((v >>> s.long_exp_shift : Nat) : Int) := rfl
    rw [this, to_u32_natCast]
    exact Nat.mod_eq_of_lt (lt_trans hlt (by norm_num))
  have hraw : ¬ ((ctrl.id = V4L2_CID_I2C_8B ∨ ctrl.id = V4L2_CID_I2C_16B ∨
           ctrl.id = V4L2_CID_I2C_8B_GENERIC) ∧ ctrl.val = 0) := by
    rw [hid]
    exact fun h => absurd h.1 (by decide)
  have hlog : (imx477_set_ctrl bus s ctrl).2.i2c_log = s.i2c_log ++
        [i2c_xfer.master_send ((write_reg_buf 0x0202 2 (v >>> s.long_exp_shift)).take 4)] := by
    rw [set_ctrl_powered bus s ctrl hpow hraw, set_ctrl_switch_exposure bus _ ctrl hid,
      write_reg16_eq]
    simp only [hshift]
  refine ⟨hlog, ?_⟩
  rw [hlog, writes_after_append]
  simp only [List.map]
  rw [decode_write16 _ _ (by norm_num), Nat.mod_eq_of_lt hlt]

/-- C3: when the device is powered, setting the exposure control to a value v (a 16-bit value,
as every value of the control's range [4, 0xFFDC - 22] is) with current long-exposure shift s
makes imx477_set_ctrl issue exactly one bus transaction, the 16-bit write of v >> s to the
exposure register 0x0202. -/
theorem set_ctrl_exposure_single_write (bus : i2c_adapter) (s : imx477) (ctrl : v4l2_ctrl)
    (v : Nat) (hid : ctrl.id = V4L2_CID_EXPOSURE)
    (hpow : (pm_runtime_get_if_in_use s.pm).1 ≠ 0)
    (hval : ctrl.val = (v : Int)) (hv : v < 65536) :
    (∃ t, (imx477_set_ctrl bus s ctrl).2.i2c_log = s.i2c_log ++ [t]) ∧
    writes_after s.i2c_log (imx477_set_ctrl bus s ctrl).2.i2c_log =
      [some { reg := 0x0202, len := 2, val := v >>> s.long_exp_shift }] :=
  ⟨⟨_, (set_ctrl_exposure_eq bus s ctrl v hid hpow hval hv).1⟩,
   (set_ctrl_exposure_eq bus s ctrl v hid hpow hval hv).2⟩

/-- Witness of C3: exposure 1600 under shift 1 on the powered session writes 800 to 0x0202. -/
theorem set_ctrl_exposure_single_write_witness :
    writes_after powered_session.i2c_log
      (imx477_set_ctrl good_bus { powered_session with long_exp_shift := 1 }
        powered_session.exposure).2.i2c_log =
      [some { reg := 0x0202, len := 2, val := 800 }] :=
  (set_ctrl_exposure_single_write good_bus { powered_session with long_exp_shift := 1 }
    powered_session.exposure 1600 rfl (by decide) rfl (by decide)).2

/-- C4 (as amended): for every exposure control value v in its declared range
[4, 0xFFDC - 22] and every long-exposure shift s (those in [0,7] included), the value written
to the exposure register is v >> s without any clamp: it is at most 0xFFDC - 22, and it is at
least 4 exactly when v >= 4 * 2^s. -/
theorem set_ctrl_exposure_value_range (bus : i2c_adapter) (s : imx477) (ctrl : v4l2_ctrl)
    (v : Nat) (hid : ctrl.id = V4L2_CID_EXPOSURE)
    (hpow : (pm_runtime_get_if_in_use s.pm).1 ≠ 0)
    (hval : ctrl.val = (v : Int)) (hmin : 4 ≤ v) (hmax : v ≤ 0xFFDC - 22) :
    writes_after s.i2c_log (imx477_set_ctrl bus s ctrl).2.i2c_log =
      [some { reg := 0x0202, len := 2, val := v >>> s.long_exp_shift }] ∧
    v >>> s.long_exp_shift ≤ 0xFFDC - 22 ∧
    (4 ≤ v >>> s.long_exp_shift ↔ 4 * 2 ^ s.long_exp_shift ≤ v) := by
  refine ⟨(set_ctrl_exposure_eq bus s ctrl v hid hpow hval (by omega)).2, ?_, ?_⟩
  · have : v >>> s.long_exp_shift ≤ v := by
      rw [Nat.shiftRight_eq_div_pow]; exact Nat.div_le_self _ _
    omega
  · rw [Nat.shiftRight_eq_div_pow]
    exact Nat.le_div_iff_mul_le (by positivity)

/-- Witness of C4: exposure 1600 under shift 7 writes 12, inside [4, 0xFFDC - 22]. -/
theorem set_ctrl_exposure_value_range_witness :
    writes_after powered_session.i2c_log
      (imx477_set_ctrl good_bus { powered_session with long_exp_shift := 7 }
        powered_session.exposure).2.i2c_log =
      [some { reg := 0x0202, len := 2, val := 12 }] :=
  (set_ctrl_exposure_value_range good_bus { powered_session with long_exp_shift := 7 }
    powered_session.exposure 1600 rfl (by decide) rfl (by decide) (by decide)).1

/-- C4 (counterexample): exposure value 4 (the minimum of the range) under long-exposure shift 1
writes 2 to the exposure register, below the claimed lower bound 4. -/
theorem set_ctrl_exposure_below_min :
    writes_after powered_session.i2c_log
      (imx477_set_ctrl good_bus { powered_session with long_exp_shift := 1 }
        { powered_session.exposure with val := 4 }).2.i2c_log =
      [some { reg := 0x0202, len := 2, val := 2 }] := by
  decide

theorem shiftRight_eq_of_lt (v a b : Nat) (hab : a < b) :
    v >>> a = v >>> b ↔ v >>> a = 0 := by
  have hb : v >>> b = (v >>> a) >>> (b - a) := by
    rw [← Nat.shiftRight_add]
    congr 1
    omega
  rw [hb, Nat.shiftRight_eq_div_pow (v >>> a)]
  generalize v >>> a = x
  have h2 : 2 ≤ 2 ^ (b - a) := by
    calc 2 = 2 ^ 1 := by norm_num
    _ ≤ 2 ^ (b - a) := Nat.pow_le_pow_right (by norm_num) (by omega)
  have hle : x / 2 ^ (b - a) ≤ x / 2 :=
    Nat.div_le_div_left h2 (by norm_num)
  constructor
  · intro h
    omega
  · intro h
    rw [h]
    simp

/-- C5 (as amended): for a fixed exposure control value v in [4, 0xFFDC - 22] and two different
long-exposure shifts s1, s2 (the smaller one at most 7, as for shifts in [0,7]), the exposure
register values written under s1 and under s2 differ exactly when v >> min(s1, s2) is not zero;
in particular they differ for every v >= 128. -/
theorem set_ctrl_exposure_shift_distinct (bus : i2c_adapter) (s : imx477) (ctrl : v4l2_ctrl)
    (v s1 s2 : Nat) (hid : ctrl.id = V4L2_CID_EXPOSURE)
    (hpow : (pm_runtime_get_if_in_use s.pm).1 ≠ 0)
    (hval : ctrl.val = (v : Int)) (hmin : 4 ≤ v) (hmax : v ≤ 0xFFDC - 22)
    (hs : min s1 s2 ≤ 7) (hne : s1 ≠ s2) :
    (writes_after s.i2c_log
        (imx477_set_ctrl bus { s with long_exp_shift := s1 } ctrl).2.i2c_log ≠
      writes_after s.i2c_log
        (imx477_set_ctrl bus { s with long_exp_shift := s2 } ctrl).2.i2c_log
      ↔ v >>> min s1 s2 ≠ 0) ∧
    (128 ≤ v →
      writes_after s.i2c_log
        (imx477_set_ctrl bus { s with long_exp_shift := s1 } ctrl).2.i2c_log ≠
      writes_after s.i2c_log
        (imx477_set_ctrl bus { s with long_exp_shift := s2 } ctrl).2.i2c_log) := by
  have e1 := (set_ctrl_exposure_eq bus { s with long_exp_shift := s1 } ctrl v hid hpow hval
    (by omega)).2
  have e2 := (set_ctrl_exposure_eq bus { s with long_exp_shift := s2 } ctrl v hid hpow hval
    (by omega)).2
  simp only at e1 e2
  rw [e1, e2]
  have hiff : ([some ({ reg := 0x0202, len := 2, val := v >>> s1 } : reg_write)] ≠
      [some ({ reg := 0x0202, len := 2, val := v >>> s2 } : reg_write)])
      ↔ v >>> min s1 s2 ≠ 0 := by
    have hsimp : ([some ({ reg := 0x0202, len := 2, val := v >>> s1 } : reg_write)] =
      [some ({ reg := 0x0202, len := 2, val := v >>> s2 } : reg_write)]) ↔
        v >>> s1 = v >>> s2 := by
      simp
    rw [Ne, hsimp]
    rcases Nat.lt_or_gt_of_ne hne with hlt | hgt
    · rw [Nat.min_eq_left (le_of_lt hlt), shiftRight_eq_of_lt v s1 s2 hlt]
    · rw [Nat.min_eq_right (le_of_lt hgt), eq_comm, shiftRight_eq_of_lt v s2 s1 hgt]
  refine ⟨hiff, ?_⟩
  intro hv
  apply hiff.mpr
  have hm : min s1 s2 ≤ 7 := hs
  rw [Nat.shiftRight_eq_div_pow]
  have hp : 2 ^ min s1 s2 ≤ 2 ^ 7 := Nat.pow_le_pow_right (by norm_num) hm
  have : 0 < v / 2 ^ min s1 s2 := Nat.div_pos (by omega) (by positivity)
  omega

/-- Witness of C5: exposure 1600 under shifts 0 and 7 writes 1600 and 12, two different
values. -/
theorem set_ctrl_exposure_shift_distinct_witness :
    writes_after powered_session.i2c_log
        (imx477_set_ctrl good_bus { powered_session with long_exp_shift := 0 }
          powered_session.exposure).2.i2c_log ≠
      writes_after powered_session.i2c_log
        (imx477_set_ctrl good_bus { powered_session with long_exp_shift := 7 }
          powered_session.exposure).2.i2c_log :=
  (set_ctrl_exposure_shift_distinct good_bus powered_session powered_session.exposure
    1600 0 7 rfl (by decide) rfl (by decide) (by decide) (by decide)
    (by decide)).2 (by decide)

/-- C5 (counterexample): exposure value 4 under the two different long-exposure shifts 3 and 4
writes the same register value, 0. -/
theorem set_ctrl_exposure_same_value :
    writes_after powered_session.i2c_log
        (imx477_set_ctrl good_bus { powered_session with long_exp_shift := 3 }
          { powered_session.exposure with val := 4 }).2.i2c_log =
      [some { reg := 0x0202, len := 2, val := 0 }] ∧
    writes_after powered_session.i2c_log
        (imx477_set_ctrl good_bus { powered_session with long_exp_shift := 4 }
          { powered_session.exposure with val := 4 }).2.i2c_log =
      [some { reg := 0x0202, len := 2, val := 0 }] := by
  decide

/-! ## Format codes and format negotiation -/

theorem mode_table_flip (i : Nat) (hi : i < 16) (a b : Bool) :
    get_mode_table (codes.getD ((i &&& 0xFFFFFFFC) ||| (if a then 2 else 0) |||
        (if b then 1 else 0)) 0) = get_mode_table (codes.getD i 0) := by
  interval_cases i <;> cases a <;> cases b <;> rfl

theorem get_format_code_eq (s : imx477) (code : Nat) :
    imx477_get_format_code s code =
      codes.getD (((if codes.indexOf code ≥ 16 then 0 else codes.indexOf code) &&& 0xFFFFFFFC) |||
        (if decide (s.vflip.val ≠ 0) then 2 else 0) |||
        (if decide (s.hflip.val ≠ 0) then 1 else 0)) 0 := by
  unfold imx477_get_format_code
  have hl : codes.length = 16 := rfl
  simp only [hl, decide_eq_true_eq]

theorem get_format_code_family (s : imx477) (code : Nat) (h : code ∈ codes) :
    get_mode_table (imx477_get_format_code s code) = get_mode_table code := by
  have hlt : codes.indexOf code < codes.length := List.indexOf_lt_length.mpr h
  have hl : codes.length = 16 := rfl
  have hget : codes.getD (codes.indexOf code) 0 = code := by
    rw [List.getD_eq_getElem _ _ hlt]
    exact List.indexOf_get hlt
  rw [get_format_code_eq, if_neg (by omega), mode_table_flip _ (by omega), hget]

theorem get_format_code_unrecognised (s : imx477) (code : Nat) (h : code ∉ codes) :
    imx477_get_format_code s code =
      codes.getD ((if decide (s.vflip.val ≠ 0) then 2 else 0) |||
        (if decide (s.hflip.val ≠ 0) then 1 else 0)) 0 ∧
    get_mode_table (imx477_get_format_code s code) = supported_modes_12bit := by
  have hidx : codes.indexOf code = 16 := List.indexOf_eq_length.mpr h
  constructor
  · rw [get_format_code_eq, hidx, if_pos (le_refl _)]
    simp
  · rw [get_format_code_eq, hidx, if_pos (le_refl _), mode_table_flip 0 (by norm_num)]
    rfl

theorem get_mode_table_format_code_ne_nil (s : imx477) (code : Nat) :
    get_mode_table (imx477_get_format_code s code) ≠ [] := by
  by_cases h : code ∈ codes
  · rw [get_format_code_family s code h]
    have hlt' : codes.indexOf code < codes.length := List.indexOf_lt_length.mpr h
    have hlt : codes.indexOf code < 16 := hlt'
    have hget : codes.getD (codes.indexOf code) 0 = code := by
      rw [List.getD_eq_getElem _ _ hlt']
      exact List.indexOf_get hlt'
    rw [← hget]
    clear hget hlt'
    generalize codes.indexOf code = i at hlt
    interval_cases i <;> exact List.cons_ne_nil _ _
  · rw [(get_format_code_unrecognised s code h).2]
    exact List.cons_ne_nil _ _

theorem set_pad_format_image_eq (s : imx477) (st : v4l2_subdev_state) (fmt : v4l2_subdev_format)
    (m0 : imx477_mode) (rest : List imx477_mode) (hpad : fmt.pad = IMAGE_PAD)
    (hm : get_mode_table (imx477_get_format_code s fmt.format.code) = m0 :: rest) :
    imx477_set_pad_format s st fmt = some (0,
      imx477_set_framing_limits
        { s with
          mode := m0,
          fmt_code := imx477_get_format_code s fmt.format.code,
          roi_height := fmt.format.height % 65536,
          roi_width := fmt.format.width % 65536,
          roi_start_x := s.roi_start_x.map fun (c : v4l2_ctrl) =>
            { c with val := ((((m0.orig_width + 4294967296 - fmt.format.width % 65536)
                % 4294967296) / 2 &&& 0xFFFC : Nat) : Int) },
          roi_start_y := s.roi_start_y.map fun (c : v4l2_ctrl) =>
            { c with val := ((((m0.orig_height + 4294967296 - fmt.format.height % 65536)
                % 4294967296) / 2 &&& 0xFFFC : Nat) : Int) } },
      if fmt.which = V4L2_SUBDEV_FORMAT_TRY then
        { st with try_fmt_image :=
            { fmt.format with code := imx477_get_format_code s fmt.format.code } }
      else st,
      { fmt with format :=
          { fmt.format with code := imx477_get_format_code s fmt.format.code } }) := by
  unfold imx477_set_pad_format
  rw [if_neg (by rw [hpad]; decide), if_pos hpad]
  simp only [hm]
  by_cases hw : fmt.which = V4L2_SUBDEV_FORMAT_TRY
  · simp only [hw, if_true]
  · simp only [hw, if_false]
    rw [if_neg (by simp [imx477_set_framing_limits])]

/-! ## Alignment mask -/

theorem and_0xFFFC (n : Nat) : n &&& 0xFFFC = 4 * ((n % 65536) / 4) := by
  apply Nat.eq_of_testBit_eq
  intro i
  have hmask : (0xFFFC : Nat) = (2 ^ 14 - 1) <<< 2 := by decide
  have hrhs : 4 * ((n % 65536) / 4) = ((n % 2 ^ 16) >>> 2) <<< 2 := by
    rw [Nat.shiftLeft_eq, Nat.shiftRight_eq_div_pow]
    norm_num
    ring
  rw [hrhs, Nat.testBit_and, hmask, Nat.testBit_shiftLeft, Nat.testBit_shiftLeft,
    Nat.testBit_two_pow_sub_one, Nat.testBit_shiftRight, Nat.testBit_mod_two_pow]
  by_cases h2 : i ≥ 2
  · have e : 2 + (i - 2) = i := by omega
    rw [e]
    by_cases h16 : i < 16
    · have h14 : i - 2 < 14 := by omega
      simp [h2, h16, h14]
    · have h14 : ¬ i - 2 < 14 := by omega
      simp [h2, h16, h14]
  · simp [h2]

theorem and_0xFFFC_lt (n : Nat) (h : n < 65536) : n &&& 0xFFFC = 4 * (n / 4) := by
  rw [and_0xFFFC, Nat.mod_eq_of_lt h]

/-! ## ROI registers -/

theorem set_ROI_size_log (bus : i2c_adapter) (s : imx477) :
    (imx477_set_ROI_size bus s).i2c_log = s.i2c_log ++
      [i2c_xfer.master_send ((write_reg_buf 0x0344 2
          (match s.roi_start_x with
           | none => 0
           | some c => (to_u32 c.val &&& 0xFFFC) % 65536)).take 4),
       i2c_xfer.master_send ((write_reg_buf 0x0346 2
          (match s.roi_start_y with
           | none => 0
           | some c => (to_u32 c.val &&& 0xFFFC) % 65536)).take 4),
       i2c_xfer.master_send ((write_reg_buf 0x0348 2
          (to_u16 (((match s.roi_start_x with
                     | none => 0
                     | some c => (to_u32 c.val &&& 0xFFFC) % 65536 : Nat) : Int)
                   + ((s.roi_width % 65536 : Nat) : Int) * s.binning_ctrl.val - 1))).take 4),
       i2c_xfer.master_send ((write_reg_buf 0x034a 2
          (to_u16 (((match s.roi_start_y with
                     | none => 0
                     | some c => (to_u32 c.val &&& 0xFFFC) % 65536 : Nat) : Int)
                   + ((s.roi_height % 65536 : Nat) : Int) * s.binning_ctrl.val - 1))).take 4),
       i2c_xfer.master_send ((write_reg_buf 0x034c 2 (s.roi_width % 65536)).take 4),
       i2c_xfer.master_send ((write_reg_buf 0x034e 2 (s.roi_height % 65536)).take 4),
       i2c_xfer.master_send ((write_reg_buf 0x040c 2
          (to_u32 (((s.roi_width % 65536 : Nat) : Int) * s.binning_ctrl.val))).take 4),
       i2c_xfer.master_send ((write_reg_buf 0x040e 2
          (to_u32 (((s.roi_height % 65536 : Nat) : Int) * s.binning_ctrl.val))).take 4)] := by
  unfold imx477_set_ROI_size
  simp only [IMX477_X_START_REG, IMX477_Y_START_REG, IMX477_X_END_REG, IMX477_Y_END_REG,
    IMX477_X_SIZE_REG, IMX477_Y_SIZE_REG, IMX477_X_DIG_CROP_SIZE_REG,
    IMX477_Y_DIG_CROP_SIZE_REG, IMX477_REG_VALUE_16BIT, write_reg16_eq, List.append_assoc,
    List.cons_append, List.nil_append]

theorem set_ROI_size_aligned (bus : i2c_adapter) (s : imx477) (cx cy : v4l2_ctrl)
    (w h sx sy b : Nat)
    (hw : s.roi_width = w) (hh : s.roi_height = h)
    (hx : s.roi_start_x = some cx) (hy : s.roi_start_y = some cy)
    (hsx : cx.val = (sx : Int)) (hsy : cy.val = (sy : Int))
    (hsxr : sx ≤ 0xFFFF) (hsyr : sy ≤ 0xFFFF)
    (hb : s.binning_ctrl.val = (b : Int)) (hb12 : b = 1 ∨ b = 2)
    (hxe : 1 ≤ 4 * (sx / 4) + w * b ∧ 4 * (sx / 4) + w * b - 1 < 65536)
    (hye : 1 ≤ 4 * (sy / 4) + h * b ∧ 4 * (sy / 4) + h * b - 1 < 65536)
    (hxc : w * b < 65536) (hyc : h * b < 65536) :
    s.i2c_log <+: (imx477_set_ROI_size bus s).i2c_log ∧
    writes_after s.i2c_log (imx477_set_ROI_size bus s).i2c_log =
      [some { reg := 0x0344, len := 2, val := 4 * (sx / 4) },
       some { reg := 0x0346, len := 2, val := 4 * (sy / 4) },
       some { reg := 0x0348, len := 2, val := 4 * (sx / 4) + w * b - 1 },
       some { reg := 0x034a, len := 2, val := 4 * (sy / 4) + h * b - 1 },
       some { reg := 0x034c, len := 2, val := w },
       some { reg := 0x034e, len := 2, val := h },
       some { reg := 0x040c, len := 2, val := w * b },
       some { reg := 0x040e, len := 2, val := h * b }] := by
  have hwlt : w < 65536 := by rcases hb12 with rfl | rfl <;> omega
  have hhlt : h < 65536 := by rcases hb12 with rfl | rfl <;> omega
  have hxs : (to_u32 cx.val &&& 0xFFFC) % 65536 = 4 * (sx / 4) := by
    have h1 : sx % 4294967296 = sx := Nat.mod_eq_of_lt (by omega)
    rw [hsx, to_u32_natCast, h1, and_0xFFFC_lt sx (by omega)]
    exact Nat.mod_eq_of_lt (by omega)
  have hys : (to_u32 cy.val &&& 0xFFFC) % 65536 = 4 * (sy / 4) := by
    have h1 : sy % 4294967296 = sy := Nat.mod_eq_of_lt (by omega)
    rw [hsy, to_u32_natCast, h1, and_0xFFFC_lt sy (by omega)]
    exact Nat.mod_eq_of_lt (by omega)
  have hxend : to_u16 (((4 * (sx / 4) : Nat) : Int) + ((w : Nat) : Int) * (b : Int) - 1)
      = 4 * (sx / 4) + w * b - 1 := by
    have e : (((4 * (sx / 4) : Nat) : Int) + ((w : Nat) : Int) * (b : Int) - 1)
        = ((4 * (sx / 4) + w * b - 1 : Nat) : Int) := by
      rw [Nat.cast_sub hxe.1]; push_cast; ring
    rw [e, to_u16_natCast]
    exact Nat.mod_eq_of_lt hxe.2
  have hyend : to_u16 (((4 * (sy / 4) : Nat) : Int) + ((h : Nat) : Int) * (b : Int) - 1)
      = 4 * (sy / 4) + h * b - 1 := by
    have e : (((4 * (sy / 4) : Nat) : Int) + ((h : Nat) : Int) * (b : Int) - 1)
        = ((4 * (sy / 4) + h * b - 1 : Nat) : Int) := by
      rw [Nat.cast_sub hye.1]; push_cast; ring
    rw [e, to_u16_natCast]
    exact Nat.mod_eq_of_lt hye.2
  have hxcrop : to_u32 (((w : Nat) : Int) * (b : Int)) = w * b := by
    have e : (((w : Nat) : Int) * (b : Int)) = ((w * b : Nat) : Int) := by push_cast; ring
    rw [e, to_u32_natCast]
    exact Nat.mod_eq_of_lt (by omega)
  have hycrop : to_u32 (((h : Nat) : Int) * (b : Int)) = h * b := by
    have e : (((h : Nat) : Int) * (b : Int)) = ((h * b : Nat) : Int) := by push_cast; ring
    rw [e, to_u32_natCast]
    exact Nat.mod_eq_of_lt (by omega)
  have hlog := set_ROI_size_log bus s
  simp only [hx, hy, hw, hh, hb, hxs, hys, Nat.mod_eq_of_lt hwlt, Nat.mod_eq_of_lt hhlt,
    hxend, hyend, hxcrop, hycrop] at hlog
  refine ⟨⟨_, hlog.symm⟩, ?_⟩
  rw [hlog, writes_after_append]
  simp only [List.map, decode_write16 _ _ (show (0x0344 : Nat) < 65536 by norm_num),
    decode_write16 _ _ (show (0x0346 : Nat) < 65536 by norm_num),
    decode_write16 _ _ (show (0x0348 : Nat) < 65536 by norm_num),
    decode_write16 _ _ (show (0x034a : Nat) < 65536 by norm_num),
    decode_write16 _ _ (show (0x034c : Nat) < 65536 by norm_num),
    decode_write16 _ _ (show (0x034e : Nat) < 65536 by norm_num),
    decode_write16 _ _ (show (0x040c : Nat) < 65536 by norm_num),
    decode_write16 _ _ (show (0x040e : Nat) < 65536 by norm_num)]
  rw [Nat.mod_eq_of_lt (show 4 * (sx / 4) < 65536 by omega),
    Nat.mod_eq_of_lt (show 4 * (sy / 4) < 65536 by omega),
    Nat.mod_eq_of_lt hxe.2, Nat.mod_eq_of_lt hye.2, Nat.mod_eq_of_lt hwlt,
    Nat.mod_eq_of_lt hhlt, Nat.mod_eq_of_lt hxc, Nat.mod_eq_of_lt hyc]

/-! ## Claims on the vblank minimum, the ROI registers and format resolution -/

/-- C6 (as amended): after the timing limits are recomputed for a mode
(imx477_set_framing_limits, run by every image-pad format set), the minimum allowed value of
the vertical-blank control equals mode.min_vblank, whatever the current exposure value.  The
value max(current exposure + 22, mode.min_vblank) is what the helper
imx477_adjust_vblank_range_to_fit_exposure installs, and no function of the driver calls it. -/
theorem set_framing_limits_vblank_minimum (s : imx477) (st : v4l2_subdev_state)
    (fmt : v4l2_subdev_format) (e : Nat) :
    (imx477_set_framing_limits s).vblank.minimum = s.mode.min_vblank ∧
    (∀ c : v4l2_ctrl,
      (imx477_set_framing_limits { s with exposure := c }).vblank.minimum = s.mode.min_vblank) ∧
    (fmt.pad = IMAGE_PAD → ∃ r, imx477_set_pad_format s st fmt = some r ∧
      r.2.1.vblank.minimum = r.2.1.mode.min_vblank) ∧
    (s.exposure.val = (e : Int) → e + 22 < 4294967296 → s.mode.min_vblank < 4294967296 →
      (imx477_adjust_vblank_range_to_fit_exposure s).vblank.minimum =
        ((max (e + 22) s.mode.min_vblank : Nat) : Int)) := by
  refine ⟨rfl, fun _ => rfl, ?_, ?_⟩
  · intro hpad
    cases hm : get_mode_table (imx477_get_format_code s fmt.format.code) with
    | nil => exact absurd hm (get_mode_table_format_code_ne_nil s fmt.format.code)
    | cons m0 rest =>
      exact ⟨_, set_pad_format_image_eq s st fmt m0 rest hpad hm, rfl⟩
  · intro he h1 h2
    have hu : umax (s.exposure.val + IMX477_EXPOSURE_OFFSET) s.mode.min_vblank =
        max (e + 22) s.mode.min_vblank := by
      unfold umax
      have e1 : s.exposure.val + (IMX477_EXPOSURE_OFFSET : Int) = ((e + 22 : Nat) : Int) := by
        rw [he]; simp [IMX477_EXPOSURE_OFFSET]
      rw [e1, to_u32_natCast, to_u32_natCast, Nat.mod_eq_of_lt h1, Nat.mod_eq_of_lt h2]
    unfold imx477_adjust_vblank_range_to_fit_exposure
    simp only [hu]
    split <;> rfl

/-- Witness of C6: on the probed session (exposure 1600) a format set of the image pad leaves
the vblank minimum at the mode minimum. -/
theorem set_framing_limits_vblank_minimum_witness :
    ∃ r, imx477_set_pad_format probed_session empty_subdev_state
        (image_pad_request MEDIA_BUS_FMT_SRGGB12_1X12 1920 1080) = some r ∧
      r.2.1.vblank.minimum = r.2.1.mode.min_vblank :=
  (set_framing_limits_vblank_minimum probed_session empty_subdev_state
    (image_pad_request MEDIA_BUS_FMT_SRGGB12_1X12 1920 1080) 1600).2.2.1 rfl

/-- C6 (counterexample): with the default exposure 1600 and the 4056x3040 mode (min_vblank 42),
imx477_set_framing_limits leaves the vblank minimum at 42, not at
max(1600 + 22, 42) = 1622. -/
theorem set_framing_limits_ignores_exposure :
    probed_session.exposure.val = 1600 ∧ probed_session.mode.min_vblank = 42 ∧
    (imx477_set_framing_limits probed_session).vblank.minimum = 42 ∧
    max (1600 + 22) 42 = 1622 := by
  decide

/-- C7 (as amended): for every ROI width w, height h, start controls sx, sy in [0, 0xFFFF] and
binning b in {1,2} such that the end values (sx & ~3) + w*b - 1 and (sy & ~3) + h*b - 1 lie in
[0, 65535] and the digital crop sizes w*b and h*b are below 65536, imx477_set_ROI_size issues
exactly these eight 16-bit writes in this order: X_START(0x0344) = sx & ~3,
Y_START(0x0346) = sy & ~3, X_END(0x0348) = X_START + w*b - 1, Y_END(0x034a) = Y_START + h*b - 1,
X_SIZE(0x034c) = w, Y_SIZE(0x034e) = h, X_DIG_CROP(0x040c) = w*b, Y_DIG_CROP(0x040e) = h*b;
there is no condition on w or h being a multiple of 16.  Here sx & ~3 is 4 * (sx / 4). -/
theorem set_ROI_size_eight_writes (bus : i2c_adapter) (s : imx477) (cx cy : v4l2_ctrl)
    (w h sx sy b : Nat)
    (hw : s.roi_width = w) (hh : s.roi_height = h)
    (hx : s.roi_start_x = some cx) (hy : s.roi_start_y = some cy)
    (hsx : cx.val = (sx : Int)) (hsy : cy.val = (sy : Int))
    (hsxr : sx ≤ 0xFFFF) (hsyr : sy ≤ 0xFFFF)
    (hb : s.binning_ctrl.val = (b : Int)) (hb12 : b = 1 ∨ b = 2)
    (hxe : 1 ≤ 4 * (sx / 4) + w * b ∧ 4 * (sx / 4) + w * b - 1 < 65536)
    (hye : 1 ≤ 4 * (sy / 4) + h * b ∧ 4 * (sy / 4) + h * b - 1 < 65536)
    (hxc : w * b < 65536) (hyc : h * b < 65536) :
    s.i2c_log <+: (imx477_set_ROI_size bus s).i2c_log ∧
    writes_after s.i2c_log (imx477_set_ROI_size bus s).i2c_log =
      [some { reg := 0x0344, len := 2, val := 4 * (sx / 4) },
       some { reg := 0x0346, len := 2, val := 4 * (sy / 4) },
       some { reg := 0x0348, len := 2, val := 4 * (sx / 4) + w * b - 1 },
       some { reg := 0x034a, len := 2, val := 4 * (sy / 4) + h * b - 1 },
       some { reg := 0x034c, len := 2, val := w },
       some { reg := 0x034e, len := 2, val := h },
       some { reg := 0x040c, len := 2, val := w * b },
       some { reg := 0x040e, len := 2, val := h * b }] :=
  set_ROI_size_aligned bus s cx cy w h sx sy b hw hh hx hy hsx hsy hsxr hsyr hb hb12
    hxe hye hxc hyc

/-- Witness of C7: a 1001 x 999 ROI (neither a multiple of 16) at origin (1070, 982) with
binning 2 is programmed with start (1068, 980), end (3069, 2977), size (1001, 999) and digital
crop (2002, 1998). -/
theorem set_ROI_size_eight_writes_witness :
    writes_after probed_session.i2c_log
      (imx477_set_ROI_size good_bus
        { probed_session with
          roi_width := 1001, roi_height := 999,
          roi_start_x := some (new_ctrl V4L2_CID_ROI_START_X 0 0xFFFF 4 1070),
          roi_start_y := some (new_ctrl V4L2_CID_ROI_START_Y 0 0xFFFF 4 982),
          binning_ctrl := new_ctrl V4L2_CID_BINNING 1 2 1 2 }).i2c_log =
      [some { reg := 0x0344, len := 2, val := 1068 },
       some { reg := 0x0346, len := 2, val := 980 },
       some { reg := 0x0348, len := 2, val := 3069 },
       some { reg := 0x034a, len := 2, val := 2977 },
       some { reg := 0x034c, len := 2, val := 1001 },
       some { reg := 0x034e, len := 2, val := 999 },
       some { reg := 0x040c, len := 2, val := 2002 },
       some { reg := 0x040e, len := 2, val := 1998 }] :=
  (set_ROI_size_eight_writes good_bus
    { probed_session with
      roi_width := 1001, roi_height := 999,
      roi_start_x := some (new_ctrl V4L2_CID_ROI_START_X 0 0xFFFF 4 1070),
      roi_start_y := some (new_ctrl V4L2_CID_ROI_START_Y 0 0xFFFF 4 982),
      binning_ctrl := new_ctrl V4L2_CID_BINNING 1 2 1 2 }
    (new_ctrl V4L2_CID_ROI_START_X 0 0xFFFF 4 1070)
    (new_ctrl V4L2_CID_ROI_START_Y 0 0xFFFF 4 982)
    1001 999 1070 982 2 rfl rfl rfl rfl rfl rfl (by decide) (by decide) rfl (by decide)
    (by decide) (by decide) (by decide) (by decide)).2

/-- C7 (counterexample): width 32768 with binning 2 at origin 0 satisfies the claim's
condition ((0 & ~3) + 32768*2 - 1 = 65535 is below 65536), yet the value written to
X_DIG_CROP (0x040c) is 0 and not w*b = 65536, which does not fit the 16-bit register. -/
theorem set_ROI_size_crop_wraps :
    (0 + 32768 * 2 - 1 < 65536) ∧ (0 + 16 * 2 - 1 < 65536) ∧
    writes_after probed_session.i2c_log
      (imx477_set_ROI_size good_bus
        { probed_session with
          roi_width := 32768, roi_height := 16,
          binning_ctrl := new_ctrl V4L2_CID_BINNING 1 2 1 2 }).i2c_log =
      [some { reg := 0x0344, len := 2, val := 0 },
       some { reg := 0x0346, len := 2, val := 0 },
       some { reg := 0x0348, len := 2, val := 65535 },
       some { reg := 0x034a, len := 2, val := 31 },
       some { reg := 0x034c, len := 2, val := 32768 },
       some { reg := 0x034e, len := 2, val := 16 },
       some { reg := 0x040c, len := 2, val := 0 },
       some { reg := 0x040e, len := 2, val := 32 }] := by
  decide

theorem first_mode_dims (code : Nat) (m0 : imx477_mode) (rest : List imx477_mode)
    (hm : get_mode_table code = m0 :: rest) :
    (m0.orig_width = 4056 ∧ m0.orig_height = 3040) ∨
    (m0.orig_width = 1332 ∧ m0.orig_height = 990) := by
  unfold get_mode_table at hm
  split at hm
  · have := (List.cons.inj hm).1
    subst this
    exact Or.inl ⟨rfl, rfl⟩
  · split at hm
    · have := (List.cons.inj hm).1
      subst this
      exact Or.inr ⟨rfl, rfl⟩
    · split at hm
      · have := (List.cons.inj hm).1
        subst this
        exact Or.inr ⟨rfl, rfl⟩
      · exact absurd hm (by simp)

theorem centred_start (W w : Nat) (hW : W < 65536) (hw : w ≤ W) :
    ((W + 4294967296 - w % 65536) % 4294967296) / 2 &&& 0xFFFC = 4 * (((W - w) / 2) / 4) := by
  have h1 : w % 65536 = w := Nat.mod_eq_of_lt (by omega)
  have h2 : (W + 4294967296 - w) % 4294967296 = W - w := by omega
  rw [h1, h2, and_0xFFFC_lt _ (by omega)]

theorem set_pad_format_result (s : imx477) (st : v4l2_subdev_state) (fmt : v4l2_subdev_format)
    (cx cy : v4l2_ctrl) (m0 : imx477_mode) (rest : List imx477_mode)
    (hpad : fmt.pad = IMAGE_PAD) (hcode : fmt.format.code ∈ codes)
    (hm : get_mode_table fmt.format.code = m0 :: rest)
    (hx : s.roi_start_x = some cx) (hy : s.roi_start_y = some cy)
    (hw : fmt.format.width ≤ m0.orig_width) (hh : fmt.format.height ≤ m0.orig_height) :
    ∃ r, imx477_set_pad_format s st fmt = some r ∧ r.1 = 0 ∧
      r.2.1.mode = m0 ∧
      r.2.1.roi_width = fmt.format.width ∧ r.2.1.roi_height = fmt.format.height ∧
      r.2.1.roi_start_x = some { cx with val :=
        ((4 * (((m0.orig_width - fmt.format.width) / 2) / 4) : Nat) : Int) } ∧
      r.2.1.roi_start_y = some { cy with val :=
        ((4 * (((m0.orig_height - fmt.format.height) / 2) / 4) : Nat) : Int) } ∧
      r.2.1.binning_ctrl = s.binning_ctrl ∧ r.2.1.i2c_log = s.i2c_log := by
  have hm' : get_mode_table (imx477_get_format_code s fmt.format.code) = m0 :: rest := by
    rw [get_format_code_family s _ hcode, hm]
  have hdims := first_mode_dims _ m0 rest hm
  have hW : m0.orig_width < 65536 := by rcases hdims with ⟨h1, _⟩ | ⟨h1, _⟩ <;> omega
  have hH : m0.orig_height < 65536 := by rcases hdims with ⟨_, h1⟩ | ⟨_, h1⟩ <;> omega
  refine ⟨_, set_pad_format_image_eq s st fmt m0 rest hpad hm', rfl, rfl, ?_, ?_, ?_, ?_, rfl,
    rfl⟩
  · show fmt.format.width % 65536 = fmt.format.width
    exact Nat.mod_eq_of_lt (by omega)
  · show fmt.format.height % 65536 = fmt.format.height
    exact Nat.mod_eq_of_lt (by omega)
  · show s.roi_start_x.map _ = _
    rw [hx, Option.map_some', centred_start _ _ hW hw]
  · show s.roi_start_y.map _ = _
    rw [hy, Option.map_some', centred_start _ _ hH hh]

/-- C8 (as amended): format resolution (imx477_set_pad_format on the image pad) for a
recognised code and a requested width and height that do not exceed the dimensions of the
first catalog entry of the code's bit-depth family succeeds, sets the current mode to that
entry, sets the ROI size to the requested width and height, and sets the ROI start to
((mode.width - width)/2) & ~3 and ((mode.height - height)/2) & ~3 (x & ~3 is 4 * (x / 4)).
The mode, ROI size and ROI start are the same from every session: they depend only on
(code, width, height), not on the previous ROI origin.  For a 12-bit code and 1920x1080 the
mode is 4056x3040 with start_x = 1068 and start_y = 980. -/
theorem set_pad_format_centres_roi (s s2 : imx477) (st st2 : v4l2_subdev_state)
    (fmt : v4l2_subdev_format) (cx cy cx2 cy2 : v4l2_ctrl) (m0 : imx477_mode)
    (rest : List imx477_mode)
    (hpad : fmt.pad = IMAGE_PAD) (hcode : fmt.format.code ∈ codes)
    (hm : get_mode_table fmt.format.code = m0 :: rest)
    (hx : s.roi_start_x = some cx) (hy : s.roi_start_y = some cy)
    (hx2 : s2.roi_start_x = some cx2) (hy2 : s2.roi_start_y = some cy2)
    (hw : fmt.format.width ≤ m0.orig_width) (hh : fmt.format.height ≤ m0.orig_height) :
    ∃ r r2, imx477_set_pad_format s st fmt = some r ∧
      imx477_set_pad_format s2 st2 fmt = some r2 ∧ r.1 = 0 ∧
      r.2.1.mode = m0 ∧
      r.2.1.roi_width = fmt.format.width ∧ r.2.1.roi_height = fmt.format.height ∧
      r.2.1.roi_start_x.map v4l2_ctrl.val =
        some ((4 * (((m0.orig_width - fmt.format.width) / 2) / 4) : Nat) : Int) ∧
      r.2.1.roi_start_y.map v4l2_ctrl.val =
        some ((4 * (((m0.orig_height - fmt.format.height) / 2) / 4) : Nat) : Int) ∧
      r2.2.1.mode = r.2.1.mode ∧
      r2.2.1.roi_width = r.2.1.roi_width ∧ r2.2.1.roi_height = r.2.1.roi_height ∧
      r2.2.1.roi_start_x.map v4l2_ctrl.val = r.2.1.roi_start_x.map v4l2_ctrl.val ∧
      r2.2.1.roi_start_y.map v4l2_ctrl.val = r.2.1.roi_start_y.map v4l2_ctrl.val ∧
      (get_mode_table fmt.format.code = supported_modes_12bit →
        fmt.format.width = 1920 → fmt.format.height = 1080 →
        r.2.1.mode.orig_width = 4056 ∧ r.2.1.mode.orig_height = 3040 ∧
        r.2.1.roi_start_x.map v4l2_ctrl.val = some 1068 ∧
        r.2.1.roi_start_y.map v4l2_ctrl.val = some 980) := by
  obtain ⟨r, hr, h0, hmode, hrw, hrh, hsx, hsy, _, _⟩ :=
    set_pad_format_result s st fmt cx cy m0 rest hpad hcode hm hx hy hw hh
  obtain ⟨r2, hr2, _, hmode2, hrw2, hrh2, hsx2, hsy2, _, _⟩ :=
    set_pad_format_result s2 st2 fmt cx2 cy2 m0 rest hpad hcode hm hx2 hy2 hw hh
  refine ⟨r, r2, hr, hr2, h0, hmode, hrw, hrh, ?_, ?_, ?_, ?_, ?_, ?_, ?_, ?_⟩
  · rw [hsx]; rfl
  · rw [hsy]; rfl
  · rw [hmode, hmode2]
  · rw [hrw, hrw2]
  · rw [hrh, hrh2]
  · rw [hsx, hsx2]; rfl
  · rw [hsy, hsy2]; rfl
  · intro h12 hw1920 hh1080
    have hm0 : m0 :: rest = supported_modes_12bit := by rw [← hm, h12]
    have hm0' := (List.cons.inj hm0).1
    subst hm0'
    rw [hmode, hsx, hsy, hw1920, hh1080]
    exact ⟨rfl, rfl, rfl, rfl⟩

/-- Witness of C8: a 12-bit 1920x1080 request resolves to the 4056x3040 mode with the ROI
start (1068, 980), from the probed session. -/
theorem set_pad_format_centres_roi_witness :
    ∃ r, imx477_set_pad_format probed_session empty_subdev_state
        (image_pad_request MEDIA_BUS_FMT_SRGGB12_1X12 1920 1080) = some r ∧
      r.2.1.mode.orig_width = 4056 ∧ r.2.1.mode.orig_height = 3040 ∧
      r.2.1.roi_start_x.map v4l2_ctrl.val = some 1068 ∧
      r.2.1.roi_start_y.map v4l2_ctrl.val = some 980 := by
  obtain ⟨r, _, hr, _, _, _, _, _, _, _, _, _, _, _, _, hex⟩ :=
    set_pad_format_centres_roi probed_session probed_session empty_subdev_state
      empty_subdev_state (image_pad_request MEDIA_BUS_FMT_SRGGB12_1X12 1920 1080)
      (new_ctrl V4L2_CID_ROI_START_X 0 0xFFFF 4 0) (new_ctrl V4L2_CID_ROI_START_Y 0 0xFFFF 4 0)
      (new_ctrl V4L2_CID_ROI_START_X 0 0xFFFF 4 0) (new_ctrl V4L2_CID_ROI_START_Y 0 0xFFFF 4 0)
      (supported_modes_12bit.headD probed_session.mode) supported_modes_12bit.tail
      rfl (by decide) rfl rfl rfl rfl rfl (by decide) (by decide)
  exact ⟨r, hr, hex rfl rfl rfl⟩

/-- C8 (counterexample): a 12-bit request of width 70000 is accepted, and the ROI width is set
to 4464 (70000 truncated to 16 bits), not to the requested width. -/
theorem set_pad_format_truncates_width :
    (imx477_set_pad_format probed_session empty_subdev_state
        (image_pad_request MEDIA_BUS_FMT_SRGGB12_1X12 70000 1080)).map
      (fun r => (r.1, r.2.1.roi_width, r.2.1.roi_height)) = some (0, 4464, 1080) := by
  decide

/-- C9 (as amended): for a requested pixel code that is not one of the recognised 12-bit,
10-bit or 8-bit codes, imx477_set_pad_format on the image pad does not fail: it returns 0,
replaces the code by the 12-bit code of the current flip setting and selects the first 12-bit
mode (4056x3040). -/
theorem set_pad_format_unrecognised_code (s : imx477) (st : v4l2_subdev_state)
    (fmt : v4l2_subdev_format) (hpad : fmt.pad = IMAGE_PAD)
    (hcode : fmt.format.code ∉ codes) :
    ∃ r, imx477_set_pad_format s st fmt = some r ∧ r.1 = 0 ∧
      some r.2.1.mode = supported_modes_12bit.head? ∧
      r.2.1.mode.orig_width = 4056 ∧ r.2.1.mode.orig_height = 3040 ∧
      r.2.1.fmt_code = codes.getD ((if decide (s.vflip.val ≠ 0) then 2 else 0) |||
        (if decide (s.hflip.val ≠ 0) then 1 else 0)) 0 ∧
      r.2.2.2.format.code = r.2.1.fmt_code ∧
      get_mode_table r.2.1.fmt_code = supported_modes_12bit := by
  obtain ⟨hc, ht⟩ := get_format_code_unrecognised s fmt.format.code hcode
  have hm : get_mode_table (imx477_get_format_code s fmt.format.code) =
      supported_modes_12bit.headD s.mode :: supported_modes_12bit.tail := by
    rw [ht]; rfl
  refine ⟨_, set_pad_format_image_eq s st fmt _ _ hpad hm, rfl, rfl, rfl, rfl, hc, rfl, ht⟩

/-- Witness of C9: the unknown code 0 resolves to the 4056x3040 mode with return value 0. -/
theorem set_pad_format_unrecognised_code_witness :
    ∃ r, imx477_set_pad_format probed_session empty_subdev_state
        (image_pad_request 0 1920 1080) = some r ∧ r.1 = 0 ∧
      r.2.1.mode.orig_width = 4056 ∧ r.2.1.mode.orig_height = 3040 := by
  obtain ⟨r, hr, h0, _, hw, hh, _⟩ :=
    set_pad_format_unrecognised_code probed_session empty_subdev_state
      (image_pad_request 0 1920 1080) rfl (by decide)
  exact ⟨r, hr, h0, hw, hh⟩

/-- C9 (counterexample): the pixel code 0, which is none of the recognised codes, is not
rejected: imx477_set_pad_format returns 0 and selects the 4056x3040 mode with the code
MEDIA_BUS_FMT_SRGGB12_1X12. -/
theorem set_pad_format_accepts_unknown_code :
    (0 : Nat) ∉ codes ∧
    (imx477_set_pad_format probed_session empty_subdev_state
        (image_pad_request 0 1920 1080)).map
      (fun r => (r.1, r.2.1.mode.orig_width, r.2.1.mode.orig_height, r.2.1.fmt_code))
      = some (0, 4056, 3040, MEDIA_BUS_FMT_SRGGB12_1X12) := by
  decide

/-- C10 (as amended): after an image-pad format set with a recognised code, binning b in {1,2}
and a requested size with (2b - 1) * width <= mode.width and (2b - 1) * height <= mode.height
(that is width <= mode.width for binning 1 and 3 * width <= mode.width for binning 2), the ROI
that imx477_set_ROI_size then programs satisfies x_end = x_start + width*b - 1 <= mode.width - 1
and y_end = y_start + height*b - 1 <= mode.height - 1.  The format set itself does not check
the requested size, and outside this condition the end can exceed the array. -/
theorem set_pad_format_roi_within_mode (bus : i2c_adapter) (s : imx477)
    (st : v4l2_subdev_state) (fmt : v4l2_subdev_format) (cx cy : v4l2_ctrl) (m0 : imx477_mode)
    (rest : List imx477_mode) (b : Nat)
    (hpad : fmt.pad = IMAGE_PAD) (hcode : fmt.format.code ∈ codes)
    (hm : get_mode_table fmt.format.code = m0 :: rest)
    (hx : s.roi_start_x = some cx) (hy : s.roi_start_y = some cy)
    (hb : s.binning_ctrl.val = (b : Int)) (hb12 : b = 1 ∨ b = 2)
    (hw : (2 * b - 1) * fmt.format.width ≤ m0.orig_width)
    (hh : (2 * b - 1) * fmt.format.height ≤ m0.orig_height) :
    ∃ r x_start y_start, imx477_set_pad_format s st fmt = some r ∧ r.2.1.mode = m0 ∧
      writes_after r.2.1.i2c_log (imx477_set_ROI_size bus r.2.1).i2c_log =
        [some { reg := 0x0344, len := 2, val := x_start },
         some { reg := 0x0346, len := 2, val := y_start },
         some { reg := 0x0348, len := 2, val := x_start + fmt.format.width * b - 1 },
         some { reg := 0x034a, len := 2, val := y_start + fmt.format.height * b - 1 },
         some { reg := 0x034c, len := 2, val := fmt.format.width },
         some { reg := 0x034e, len := 2, val := fmt.format.height },
         some { reg := 0x040c, len := 2, val := fmt.format.width * b },
         some { reg := 0x040e, len := 2, val := fmt.format.height * b }] ∧
      1 ≤ x_start + fmt.format.width * b ∧ 1 ≤ y_start + fmt.format.height * b ∧
      x_start + fmt.format.width * b - 1 ≤ m0.orig_width - 1 ∧
      y_start + fmt.format.height * b - 1 ≤ m0.orig_height - 1 := by
  have hdims := first_mode_dims _ m0 rest hm
  have hw' : fmt.format.width ≤ m0.orig_width := by
    rcases hb12 with rfl | rfl <;> omega
  have hh' : fmt.format.height ≤ m0.orig_height := by
    rcases hb12 with rfl | rfl <;> omega
  obtain ⟨r, hr, _, hmode, hrw, hrh, hsx, hsy, hbin, _⟩ :=
    set_pad_format_result s st fmt cx cy m0 rest hpad hcode hm hx hy hw' hh'
  have hxb : 4 * (((m0.orig_width - fmt.format.width) / 2) / 4) + fmt.format.width * b
      ≤ m0.orig_width := by
    rcases hb12 with rfl | rfl <;> omega
  have hyb : 4 * (((m0.orig_height - fmt.format.height) / 2) / 4) + fmt.format.height * b
      ≤ m0.orig_height := by
    rcases hb12 with rfl | rfl <;> omega
  have hxp : 1 ≤ 4 * (((m0.orig_width - fmt.format.width) / 2) / 4) + fmt.format.width * b := by
    rcases hb12 with rfl | rfl <;> rcases hdims with ⟨h1, _⟩ | ⟨h1, _⟩ <;> omega
  have hyp : 1 ≤ 4 * (((m0.orig_height - fmt.format.height) / 2) / 4)
      + fmt.format.height * b := by
    rcases hb12 with rfl | rfl <;> rcases hdims with ⟨_, h1⟩ | ⟨_, h1⟩ <;> omega
  have hW : m0.orig_width < 65536 := by rcases hdims with ⟨h1, _⟩ | ⟨h1, _⟩ <;> omega
  have hH : m0.orig_height < 65536 := by rcases hdims with ⟨_, h1⟩ | ⟨_, h1⟩ <;> omega
  have e4x : 4 * (4 * (((m0.orig_width - fmt.format.width) / 2) / 4) / 4)
      = 4 * (((m0.orig_width - fmt.format.width) / 2) / 4) := by omega
  have e4y : 4 * (4 * (((m0.orig_height - fmt.format.height) / 2) / 4) / 4)
      = 4 * (((m0.orig_height - fmt.format.height) / 2) / 4) := by omega
  have hroi := set_ROI_size_aligned bus r.2.1 _ _ fmt.format.width fmt.format.height
    (4 * (((m0.orig_width - fmt.format.width) / 2) / 4))
    (4 * (((m0.orig_height - fmt.format.height) / 2) / 4)) b hrw hrh hsx hsy rfl rfl
    (by omega) (by omega) (by rw [hbin]; exact hb) hb12
    (by rw [e4x]; exact ⟨hxp, by omega⟩) (by rw [e4y]; exact ⟨hyp, by omega⟩)
    (by omega) (by omega)
  rw [e4x, e4y] at hroi
  exact ⟨r, _, _, hr, hmode, hroi.2, hxp, hyp, by omega, by omega⟩

/-- Witness of C10: a 12-bit 1920x1080 request with binning 1 programs X_END = 2987 and
Y_END = 2059, inside the 4056x3040 array. -/
theorem set_pad_format_roi_within_mode_witness :
    ∃ r x_start y_start, imx477_set_pad_format probed_session empty_subdev_state
        (image_pad_request MEDIA_BUS_FMT_SRGGB12_1X12 1920 1080) = some r ∧
      x_start + 1920 * 1 - 1 ≤ 4056 - 1 ∧ y_start + 1080 * 1 - 1 ≤ 3040 - 1 ∧
      writes_after r.2.1.i2c_log (imx477_set_ROI_size good_bus r.2.1).i2c_log =
        [some { reg := 0x0344, len := 2, val := x_start },
         some { reg := 0x0346, len := 2, val := y_start },
         some { reg := 0x0348, len := 2, val := x_start + 1920 * 1 - 1 },
         some { reg := 0x034a, len := 2, val := y_start + 1080 * 1 - 1 },
         some { reg := 0x034c, len := 2, val := 1920 },
         some { reg := 0x034e, len := 2, val := 1080 },
         some { reg := 0x040c, len := 2, val := 1920 * 1 },
         some { reg := 0x040e, len := 2, val := 1080 * 1 }] := by
  obtain ⟨r, xs, ys, hr, _, hwr, _, _, hxe, hye⟩ :=
    set_pad_format_roi_within_mode good_bus probed_session empty_subdev_state
      (image_pad_request MEDIA_BUS_FMT_SRGGB12_1X12 1920 1080)
      (new_ctrl V4L2_CID_ROI_START_X 0 0xFFFF 4 0) (new_ctrl V4L2_CID_ROI_START_Y 0 0xFFFF 4 0)
      (supported_modes_12bit.headD probed_session.mode) supported_modes_12bit.tail 1
      rfl (by decide) rfl rfl rfl rfl (by decide) (by decide) (by decide)
  exact ⟨r, xs, ys, hr, hxe, hye, hwr⟩

/-- C10 (counterexample): with binning 2, a 12-bit format set of the full 4056x3040 size is
accepted and the ROI then programmed has X_END = 8111 and Y_END = 6079, beyond
mode.width - 1 = 4055 and mode.height - 1 = 3039. -/
theorem set_pad_format_roi_exceeds_mode :
    (imx477_set_pad_format
        { probed_session with binning_ctrl := new_ctrl V4L2_CID_BINNING 1 2 1 2 }
        empty_subdev_state (image_pad_request MEDIA_BUS_FMT_SRGGB12_1X12 4056 3040)).map
      (fun r => (r.2.1.mode.orig_width, r.2.1.mode.orig_height,
        writes_after r.2.1.i2c_log (imx477_set_ROI_size good_bus r.2.1).i2c_log)) =
      some (4056, 3040,
        [some { reg := 0x0344, len := 2, val := 0 },
         some { reg := 0x0346, len := 2, val := 0 },
         some { reg := 0x0348, len := 2, val := 8111 },
         some { reg := 0x034a, len := 2, val := 6079 },
         some { reg := 0x034c, len := 2, val := 4056 },
         some { reg := 0x034e, len := 2, val := 3040 },
         some { reg := 0x040c, len := 2, val := 8112 },
         some { reg := 0x040e, len := 2, val := 6080 }]) ∧
    ¬ (8111 ≤ 4056 - 1) ∧ ¬ (6079 ≤ 3040 - 1) := by
  decide

/-! ## Flip independence of the ROI registers -/

theorem set_ROI_size_regs (bus : i2c_adapter) (s : imx477) :
    (writes_after s.i2c_log (imx477_set_ROI_size bus s).i2c_log).map (Option.map reg_write.reg) =
      [some 0x0344, some 0x0346, some 0x0348, some 0x034a, some 0x034c, some 0x034e,
       some 0x040c, some 0x040e] ∧
    (writes_after s.i2c_log (imx477_set_ROI_size bus s).i2c_log).map (Option.map reg_write.len) =
      [some 2, some 2, some 2, some 2, some 2, some 2, some 2, some 2] := by
  rw [set_ROI_size_log, writes_after_append]
  simp only [List.map, decode_write16 _ _ (show (0x0344 : Nat) < 65536 by norm_num),
    decode_write16 _ _ (show (0x0346 : Nat) < 65536 by norm_num),
    decode_write16 _ _ (show (0x0348 : Nat) < 65536 by norm_num),
    decode_write16 _ _ (show (0x034a : Nat) < 65536 by norm_num),
    decode_write16 _ _ (show (0x034c : Nat) < 65536 by norm_num),
    decode_write16 _ _ (show (0x034e : Nat) < 65536 by norm_num),
    decode_write16 _ _ (show (0x040c : Nat) < 65536 by norm_num),
    decode_write16 _ _ (show (0x040e : Nat) < 65536 by norm_num), Option.map_some']
  trivial

/-- C11: the eight register values written by imx477_set_ROI_size are independent of the
horizontal and vertical flip controls: two runs that differ only in hflip/vflip issue the same
transactions, in the fixed register order X_START, Y_START, X_END, Y_END, X_SIZE, Y_SIZE,
X_DIG_CROP, Y_DIG_CROP (start and end are never swapped). -/
theorem set_ROI_size_flip_independent (bus : i2c_adapter) (s : imx477) (hf vf : v4l2_ctrl) :
    (imx477_set_ROI_size bus { s with hflip := hf, vflip := vf }).i2c_log =
      (imx477_set_ROI_size bus s).i2c_log ∧
    writes_after s.i2c_log (imx477_set_ROI_size bus { s with hflip := hf, vflip := vf }).i2c_log =
      writes_after s.i2c_log (imx477_set_ROI_size bus s).i2c_log ∧
    (writes_after s.i2c_log
        (imx477_set_ROI_size bus { s with hflip := hf, vflip := vf }).i2c_log).map
      (Option.map reg_write.reg) =
      [some 0x0344, some 0x0346, some 0x0348, some 0x034a, some 0x034c, some 0x034e,
       some 0x040c, some 0x040e] := by
  have h : (imx477_set_ROI_size bus { s with hflip := hf, vflip := vf }).i2c_log =
      (imx477_set_ROI_size bus s).i2c_log := by
    rw [set_ROI_size_log, set_ROI_size_log]
  refine ⟨h, by rw [h], ?_⟩
  rw [h]
  exact (set_ROI_size_regs bus s).1

/-! ## Register write and recipe write -/

theorem write_reg_bytes (reg len val : Nat) (hr : reg < 65536) (hl1 : 1 ≤ len) (hl4 : len ≤ 4)
    (hv : val < 4294967296) :
    (write_reg_buf reg len val).take (len + 2) =
      (reg >>> 8) :: (reg &&& 0xFF) :: low_bytes_be len val := by
  have hand : reg &&& 0xFF = reg % 256 := Nat.and_pow_two_sub_one_eq_mod reg 8
  rw [hand]
  unfold write_reg_buf put_unaligned_be16 put_unaligned_be32
  interval_cases len <;>
    simp only [low_bytes_be, Nat.shiftLeft_eq, Nat.shiftRight_eq_div_pow, List.cons_append,
      List.nil_append, List.take_succ_cons, List.take_zero] <;>
    (refine List.cons_eq_cons.mpr ⟨by omega, ?_⟩
     refine List.cons_eq_cons.mpr ⟨by omega, ?_⟩
     repeat (first | rfl | refine List.cons_eq_cons.mpr ⟨by omega, ?_⟩))

theorem low_bytes_be_length (len val : Nat) : (low_bytes_be len val).length = len := by
  induction len with
  | zero => rfl
  | succ n ih => simp [low_bytes_be, ih]

theorem be_value_low_bytes (len val : Nat) (hl4 : len ≤ 4) :
    be_value (low_bytes_be len val) = val % 2 ^ (8 * len) := by
  interval_cases len <;>
    simp only [low_bytes_be, be_value, List.foldl, Nat.shiftRight_eq_div_pow] <;> omega

/-- C12: for every 16-bit address reg, width len in 1..4 and 32-bit value val, imx477_write_reg
submits a single bus write of exactly len + 2 bytes: reg >> 8, reg & 0xFF, followed by the low
len bytes of val in big-endian order (val truncated to len bytes); it returns 0 iff the bus
reports len + 2 bytes sent and -EIO otherwise.  Nothing else of the session changes. -/
theorem write_reg_single_transaction (bus : i2c_adapter) (s : imx477) (reg len val : Nat)
    (hr : reg < 65536) (hl1 : 1 ≤ len) (hl4 : len ≤ 4) (hv : val < 4294967296) :
    (imx477_write_reg bus s reg len val).2 =
      { s with i2c_log := s.i2c_log ++
          [i2c_xfer.master_send ((reg >>> 8) :: (reg &&& 0xFF) :: low_bytes_be len val)] } ∧
    ((reg >>> 8) :: (reg &&& 0xFF) :: low_bytes_be len val).length = len + 2 ∧
    be_value (low_bytes_be len val) = val % 2 ^ (8 * len) ∧
    ((imx477_write_reg bus s reg len val).1 = 0 ↔
      bus.master_send s.i2c_log.length ((reg >>> 8) :: (reg &&& 0xFF) :: low_bytes_be len val)
        = ((len + 2 : Nat) : Int)) ∧
    ((imx477_write_reg bus s reg len val).1 ≠ 0 →
      (imx477_write_reg bus s reg len val).1 = -EIO_err) := by
  have hb := write_reg_bytes reg len val hr hl1 hl4 hv
  refine ⟨?_, ?_, be_value_low_bytes len val hl4, ?_, ?_⟩
  · rw [write_reg_state bus s reg len val hl4, hb]
  · simp [low_bytes_be_length]
  · rw [write_reg_ret bus s reg len val hl4, hb]
    by_cases h : bus.master_send s.i2c_log.length
        ((reg >>> 8) :: (reg &&& 0xFF) :: low_bytes_be len val) = ((len + 2 : Nat) : Int)
    · simp [h]
    · simp [h, EIO_err]
  · rw [write_reg_ret bus s reg len val hl4]
    intro h
    split at h
    · exact absurd rfl h
    · rw [if_neg (by assumption)]

/-- Witness of C12: the 16-bit write of 0x12345678 to register 0x0202 sends the four bytes
02 02 56 78 and returns 0 on a working bus. -/
theorem write_reg_single_transaction_witness :
    (imx477_write_reg good_bus probed_session 0x0202 2 0x12345678).2.i2c_log =
      [i2c_xfer.master_send [0x02, 0x02, 0x56, 0x78]] ∧
    (imx477_write_reg good_bus probed_session 0x0202 2 0x12345678).1 = 0 := by
  have h := write_reg_single_transaction good_bus probed_session 0x0202 2 0x12345678
    (by decide) (by decide) (by decide) (by decide)
  refine ⟨?_, h.2.2.2.1.mpr (by decide)⟩
  rw [h.1]
  decide

theorem session_log_self (s : imx477) : { s with i2c_log := s.i2c_log ++ [] } = s := by
  cases s
  simp

theorem write_regs_cases (bus : i2c_adapter) :
    ∀ (regs : List imx477_reg) (s : imx477),
      ∃ n, n ≤ regs.length ∧
        (imx477_write_regs bus s regs).2 =
          { s with i2c_log := s.i2c_log ++ recipe_xfers (regs.take n) } ∧
        (((imx477_write_regs bus s regs).1 = 0 ∧ n = regs.length ∧
            ∀ i e, regs[i]? = some e →
              bus.master_send (s.i2c_log.length + i)
                ((write_reg_buf e.address 1 e.val).take 3) = 3) ∨
         ((imx477_write_regs bus s regs).1 = -EIO_err ∧ 1 ≤ n ∧
            (∀ i e, i + 1 < n → regs[i]? = some e →
              bus.master_send (s.i2c_log.length + i)
                ((write_reg_buf e.address 1 e.val).take 3) = 3) ∧
            ∀ e, regs[n - 1]? = some e →
              bus.master_send (s.i2c_log.length + (n - 1))
                ((write_reg_buf e.address 1 e.val).take 3) ≠ 3)) := by
  intro regs
  induction regs with
  | nil =>
    intro s
    refine ⟨0, le_refl _, ?_, Or.inl ⟨rfl, rfl, ?_⟩⟩
    · simp only [imx477_write_regs, List.take_nil, recipe_xfers, List.map_nil]
      exact (session_log_self s).symm
    · intro i e h
      simp at h
  | cons r rs ih =>
    intro s
    by_cases hacc : bus.master_send s.i2c_log.length
        ((write_reg_buf r.address 1 r.val).take 3) = 3
    · obtain ⟨n, hn, hst, hcase⟩ := ih
        { s with i2c_log := s.i2c_log ++
            [i2c_xfer.master_send ((write_reg_buf r.address 1 r.val).take 3)] }
      have hstep : imx477_write_regs bus s (r :: rs) =
          imx477_write_regs bus
            { s with i2c_log := s.i2c_log ++
                [i2c_xfer.master_send ((write_reg_buf r.address 1 r.val).take 3)] } rs := by
        rw [imx477_write_regs]
        simp only [write_reg8_eq, hacc, if_true, ne_eq, not_true_eq_false, if_false]
      refine ⟨n + 1, by simpa using hn, ?_, ?_⟩
      · rw [hstep, hst]
        simp [recipe_xfers]
      · rw [hstep]
        simp only [List.length_append, List.length_singleton] at hcase
        rcases hcase with ⟨h0, hlen, hall⟩ | ⟨he, h1, hbefore, hlast⟩
        · refine Or.inl ⟨h0, by simp [hlen], ?_⟩
          intro i e hi
          cases i with
          | zero =>
            simp at hi
            subst hi
            simpa using hacc
          | succ j =>
            simp at hi
            have := hall j e hi
            rw [show s.i2c_log.length + (j + 1) = s.i2c_log.length + 1 + j by omega]
            exact this
        · refine Or.inr ⟨he, by omega, ?_, ?_⟩
          · intro i e hlt hi
            cases i with
            | zero =>
              simp at hi
              subst hi
              simpa using hacc
            | succ j =>
              simp at hi
              have := hbefore j e (by omega) hi
              rw [show s.i2c_log.length + (j + 1) = s.i2c_log.length + 1 + j by omega]
              exact this
          · intro e hi
            have hn1 : n + 1 - 1 = (n - 1) + 1 := by omega
            rw [hn1] at hi ⊢
            simp at hi
            have := hlast e hi
            rw [show s.i2c_log.length + (n - 1 + 1) = s.i2c_log.length + 1 + (n - 1) by omega]
            exact this
    · have hstep : imx477_write_regs bus s (r :: rs) =
          (-EIO_err, { s with i2c_log := s.i2c_log ++
                [i2c_xfer.master_send ((write_reg_buf r.address 1 r.val).take 3)] }) := by
        rw [imx477_write_regs]
        simp only [write_reg8_eq, hacc, if_false]
        rw [if_pos (by simp [EIO_err])]
      refine ⟨1, by simp, ?_, Or.inr ⟨?_, le_refl _, ?_, ?_⟩⟩
      · rw [hstep]
        simp [recipe_xfers]
      · rw [hstep]
      · intro i e hlt
        omega
      · intro e hi
        simp at hi
        subst hi
        simpa using hacc

theorem decode_recipe_xfers (regs : List imx477_reg)
    (h : ∀ e ∈ regs, e.address < 65536 ∧ e.val < 256) :
    (recipe_xfers regs).map decode_write =
      regs.map fun e => some { reg := e.address, len := 1, val := e.val } := by
  induction regs with
  | nil => rfl
  | cons r rs ih =>
    have hr := h r (List.mem_cons_self _ _)
    have := ih (fun e he => h e (List.mem_cons_of_mem _ he))
    simp only [recipe_xfers, List.map_cons, List.map_map] at this ⊢
    rw [decode_write8 _ _ hr.1, Nat.mod_eq_of_lt hr.2]
    simp only [List.cons.injEq, true_and]
    exact this

/-- C13: for every recipe (list of address/value pairs) and every bus failure pattern,
imx477_write_regs performs single-byte writes in list order, stops at the first write that fails
and returns that write's error (-EIO) without attempting any later entry; it returns 0 iff every
entry was written, and entries written before a failure stay written: the transactions issued
are exactly those of the first n entries, n - 1 being the index of the failing entry, and
nothing else of the session changes. -/
theorem write_regs_stops_at_first_failure (bus : i2c_adapter) (s : imx477)
    (regs : List imx477_reg) (hwf : ∀ e ∈ regs, e.address < 65536 ∧ e.val < 256) :
    ∃ n, n ≤ regs.length ∧
      (imx477_write_regs bus s regs).2 =
        { s with i2c_log := s.i2c_log ++ recipe_xfers (regs.take n) } ∧
      writes_after s.i2c_log (imx477_write_regs bus s regs).2.i2c_log =
        (regs.take n).map (fun e => some { reg := e.address, len := 1, val := e.val }) ∧
      ((imx477_write_regs bus s regs).1 = 0 ↔
        ∀ i e, regs[i]? = some e →
          bus.master_send (s.i2c_log.length + i)
            ((write_reg_buf e.address 1 e.val).take 3) = 3) ∧
      ((imx477_write_regs bus s regs).1 = 0 → n = regs.length) ∧
      ((imx477_write_regs bus s regs).1 ≠ 0 →
        (imx477_write_regs bus s regs).1 = -EIO_err ∧ 1 ≤ n ∧
        (∀ i e, i + 1 < n → regs[i]? = some e →
          bus.master_send (s.i2c_log.length + i)
            ((write_reg_buf e.address 1 e.val).take 3) = 3) ∧
        ∀ e, regs[n - 1]? = some e →
          bus.master_send (s.i2c_log.length + (n - 1))
            ((write_reg_buf e.address 1 e.val).take 3) ≠ 3) := by
  obtain ⟨n, hn, hst, hcase⟩ := write_regs_cases bus regs s
  have hwf' : ∀ e ∈ regs.take n, e.address < 65536 ∧ e.val < 256 :=
    fun e he => hwf e (List.mem_of_mem_take he)
  refine ⟨n, hn, hst, ?_, ?_, ?_, ?_⟩
  · rw [hst]
    show writes_after s.i2c_log (s.i2c_log ++ recipe_xfers (regs.take n)) = _
    rw [writes_after_append, decode_recipe_xfers _ hwf']
  · rcases hcase with ⟨h0, _, hall⟩ | ⟨he, h1, _, hlast⟩
    · exact ⟨fun _ => hall, fun _ => h0⟩
    · constructor
      · intro h0
        rw [he] at h0
        simp [EIO_err] at h0
      · intro hall
        have hlt : n - 1 < regs.length := by omega
        have hget : regs[n - 1]? = some (regs[n - 1]) := List.getElem?_eq_getElem hlt
        exact absurd (hall _ _ hget) (hlast _ hget)
  · rcases hcase with ⟨_, hlen, _⟩ | ⟨he, _, _, _⟩
    · exact fun _ => hlen
    · intro h0
      rw [he] at h0
      simp [EIO_err] at h0
  · rcases hcase with ⟨h0, _, _⟩ | ⟨he, h1, hbefore, hlast⟩
    · exact fun hne => absurd h0 hne
    · exact fun _ => ⟨he, h1, hbefore, hlast⟩

/-- Witness of C13: on a bus that fails the third transaction, the four-entry recipe
0x0136=0x18, 0x0137=0x00, 0x0138=0x01, 0xe000=0x00 is written up to its third entry, the fourth
is not attempted and the I/O error is returned. -/
theorem write_regs_stops_at_first_failure_witness :
    ∃ n, n ≤ 4 ∧
      writes_after probed_session.i2c_log
        (imx477_write_regs (bus_failing_at 2) probed_session (mode_common_regs.take 4)).2.i2c_log
        = ((mode_common_regs.take 4).take n).map
            (fun e => some { reg := e.address, len := 1, val := e.val }) ∧
      ((imx477_write_regs (bus_failing_at 2) probed_session (mode_common_regs.take 4)).1 = 0 →
        n = 4) ∧
      (imx477_write_regs (bus_failing_at 2) probed_session (mode_common_regs.take 4)).1
        = -EIO_err ∧
      writes_after probed_session.i2c_log
        (imx477_write_regs (bus_failing_at 2) probed_session (mode_common_regs.take 4)).2.i2c_log
        = [some { reg := 0x0136, len := 1, val := 0x18 },
           some { reg := 0x0137, len := 1, val := 0x00 },
           some { reg := 0x0138, len := 1, val := 0x01 }] := by
  obtain ⟨n, hn, _, hw, _, hlen, _⟩ :=
    write_regs_stops_at_first_failure (bus_failing_at 2) probed_session
      (mode_common_regs.take 4) (by decide)
  exact ⟨n, hn, hw, hlen, by decide, by decide⟩

/-! ## Power gating and raw passthrough controls -/

theorem set_ctrl_applies (bus : i2c_adapter) (s : imx477) (ctrl : v4l2_ctrl)
    (hgate : (pm_runtime_get_if_in_use s.pm).1 ≠ 0 ∨ ctrl.id = V4L2_CID_I2C_8B ∨
      ctrl.id = V4L2_CID_I2C_16B ∨ ctrl.id = V4L2_CID_I2C_8B_GENERIC ∨
      ctrl.id = V4L2_CID_I2C_SET_GENERIC_ID ∨ ctrl.id = V4L2_CID_I2C_SET_READ_ADDR)
    (hraw : ¬ ((ctrl.id = V4L2_CID_I2C_8B ∨ ctrl.id = V4L2_CID_I2C_16B ∨
           ctrl.id = V4L2_CID_I2C_8B_GENERIC) ∧ ctrl.val = 0)) :
    imx477_set_ctrl bus s ctrl =
      (let r := imx477_set_ctrl_switch bus { s with pm := (pm_runtime_get_if_in_use s.pm).2 } ctrl
       (r.1, { r.2 with pm := pm_runtime_put r.2.pm })) := by
  unfold imx477_set_ctrl
  simp only
  rw [if_neg, if_neg hraw]
  intro h
  rcases hgate with h1 | h1 | h1 | h1 | h1 | h1
  · exact h1 (by simpa using h.1)
  · exact h.2.1 h1
  · exact h.2.2.1 h1
  · exact h.2.2.2.1 h1
  · exact h.2.2.2.2.1 h1
  · exact h.2.2.2.2.2 h1

theorem set_ctrl_raw_zero (bus : i2c_adapter) (s : imx477) (ctrl : v4l2_ctrl)
    (hid : ctrl.id = V4L2_CID_I2C_8B ∨ ctrl.id = V4L2_CID_I2C_16B ∨
      ctrl.id = V4L2_CID_I2C_8B_GENERIC) (hval : ctrl.val = 0) :
    imx477_set_ctrl bus s ctrl = (0, { s with pm := (pm_runtime_get_if_in_use s.pm).2 }) := by
  unfold imx477_set_ctrl
  simp only
  rw [if_neg, if_pos ⟨hid, hval⟩]
  intro h
  rcases hid with h1 | h1 | h1
  · exact h.2.1 h1
  · exact h.2.2.1 h1
  · exact h.2.2.2.1 h1

theorem set_ctrl_switch_i2c_8b (bus : i2c_adapter) (s : imx477) (ctrl : v4l2_ctrl)
    (hid : ctrl.id = V4L2_CID_I2C_8B) :
    imx477_set_ctrl_switch bus s ctrl =
      imx477_write_reg bus s ((to_u32 ctrl.val >>> 16) &&& 0xFFFF) 1
        (to_u32 ctrl.val &&& 0xFF) := by
  unfold imx477_set_ctrl_switch
  simp only [hid]
  repeat (rw [if_neg (by decide)])
  rw [if_pos trivial]

theorem set_ctrl_switch_i2c_16b (bus : i2c_adapter) (s : imx477) (ctrl : v4l2_ctrl)
    (hid : ctrl.id = V4L2_CID_I2C_16B) :
    imx477_set_ctrl_switch bus s ctrl =
      imx477_write_reg bus s ((to_u32 ctrl.val >>> 16) &&& 0xFFFF) 2
        (to_u32 ctrl.val &&& 0xFFFF) := by
  unfold imx477_set_ctrl_switch
  simp only [hid]
  repeat (rw [if_neg (by decide)])
  rw [if_pos trivial]

theorem and_0xFFFF_lt (n : Nat) : n &&& 0xFFFF < 65536 := by
  have : n &&& 0xFFFF = n % 65536 := Nat.and_pow_two_sub_one_eq_mod n 16
  omega

theorem and_0xFF_lt (n : Nat) : n &&& 0xFF < 256 := by
  have : n &&& 0xFF = n % 256 := Nat.and_pow_two_sub_one_eq_mod n 8
  omega

/-- C15: for each raw passthrough write control (I2C_8B, I2C_16B, I2C_8B_GENERIC), in every
power state, imx477_set_ctrl with value 0 returns success and performs no bus transaction; with
a non-zero value v the I2C_8B control issues the single-byte write of v & 0xFF, and the I2C_16B
control the 16-bit write of v & 0xFFFF, to register address (v >> 16) & 0xFFFF (v taken as its
32-bit two's complement pattern). -/
theorem set_ctrl_raw_write (bus : i2c_adapter) (s : imx477) (ctrl : v4l2_ctrl) :
    ((ctrl.id = V4L2_CID_I2C_8B ∨ ctrl.id = V4L2_CID_I2C_16B ∨
        ctrl.id = V4L2_CID_I2C_8B_GENERIC) → ctrl.val = 0 →
      (imx477_set_ctrl bus s ctrl).1 = 0 ∧
      (imx477_set_ctrl bus s ctrl).2.i2c_log = s.i2c_log) ∧
    (ctrl.id = V4L2_CID_I2C_8B → ctrl.val ≠ 0 →
      (∃ t, (imx477_set_ctrl bus s ctrl).2.i2c_log = s.i2c_log ++ [t]) ∧
      writes_after s.i2c_log (imx477_set_ctrl bus s ctrl).2.i2c_log =
        [some { reg := (to_u32 ctrl.val >>> 16) &&& 0xFFFF, len := 1,
                val := to_u32 ctrl.val &&& 0xFF }]) ∧
    (ctrl.id = V4L2_CID_I2C_16B → ctrl.val ≠ 0 →
      (∃ t, (imx477_set_ctrl bus s ctrl).2.i2c_log = s.i2c_log ++ [t]) ∧
      writes_after s.i2c_log (imx477_set_ctrl bus s ctrl).2.i2c_log =
        [some { reg := (to_u32 ctrl.val >>> 16) &&& 0xFFFF, len := 2,
                val := to_u32 ctrl.val &&& 0xFFFF }]) := by
  refine ⟨?_, ?_, ?_⟩
  · intro hid hval
    rw [set_ctrl_raw_zero bus s ctrl hid hval]
    exact ⟨rfl, rfl⟩
  · intro hid hval
    have hlog : (imx477_set_ctrl bus s ctrl).2.i2c_log = s.i2c_log ++
        [i2c_xfer.master_send ((write_reg_buf ((to_u32 ctrl.val >>> 16) &&& 0xFFFF) 1
          (to_u32 ctrl.val &&& 0xFF)).take 3)] := by
      rw [set_ctrl_applies bus s ctrl (Or.inr (Or.inl hid)) (fun h => hval h.2),
        set_ctrl_switch_i2c_8b bus _ ctrl hid, write_reg8_eq]
    refine ⟨⟨_, hlog⟩, ?_⟩
    rw [hlog, writes_after_append]
    simp only [List.map]
    rw [decode_write8 _ _ (and_0xFFFF_lt _), Nat.mod_eq_of_lt (and_0xFF_lt _)]
  · intro hid hval
    have hlog : (imx477_set_ctrl bus s ctrl).2.i2c_log = s.i2c_log ++
        [i2c_xfer.master_send ((write_reg_buf ((to_u32 ctrl.val >>> 16) &&& 0xFFFF) 2
          (to_u32 ctrl.val &&& 0xFFFF)).take 4)] := by
      rw [set_ctrl_applies bus s ctrl (Or.inr (Or.inr (Or.inl hid))) (fun h => hval h.2),
        set_ctrl_switch_i2c_16b bus _ ctrl hid, write_reg16_eq]
    refine ⟨⟨_, hlog⟩, ?_⟩
    rw [hlog, writes_after_append]
    simp only [List.map]
    rw [decode_write16 _ _ (and_0xFFFF_lt _), Nat.mod_eq_of_lt (and_0xFFFF_lt _)]

/-- Witness of C15: on the idle session the I2C_16B control with value 0x02021234 writes 0x1234
to register 0x0202, and with value 0 it writes nothing. -/
theorem set_ctrl_raw_write_witness :
    writes_after probed_session.i2c_log
      (imx477_set_ctrl good_bus probed_session
        (new_ctrl V4L2_CID_I2C_16B (-0x7FFFFFFF) 0x7FFFFFFF 1 0x02021234)).2.i2c_log =
      [some { reg := 0x0202, len := 2, val := 0x1234 }] ∧
    (imx477_set_ctrl good_bus probed_session
        (new_ctrl V4L2_CID_I2C_16B (-0x7FFFFFFF) 0x7FFFFFFF 1 0)).2.i2c_log = [] := by
  have h := set_ctrl_raw_write good_bus probed_session
    (new_ctrl V4L2_CID_I2C_16B (-0x7FFFFFFF) 0x7FFFFFFF 1 0x02021234)
  have h0 := set_ctrl_raw_write good_bus probed_session
    (new_ctrl V4L2_CID_I2C_16B (-0x7FFFFFFF) 0x7FFFFFFF 1 0)
  exact ⟨(h.2.2 rfl (by decide)).2, (h0.1 (Or.inr (Or.inl rfl)) rfl).2⟩

/-! ## Stream requests that change nothing -/

/-- C16: requesting stream start while the session is already streaming (imx477_set_stream with
enable equal to the current streaming flag) returns success, issues no bus transaction and
changes no session state; the same holds for a stop request while not streaming. -/
theorem set_stream_same_state (mp : module_params) (plat : power_platform) (bus : i2c_adapter)
    (s : imx477) (enable : Int) (h : (if s.streaming then (1 : Int) else 0) = enable) :
    imx477_set_stream mp plat bus s enable = (0, s) ∧
    (s.streaming = true → imx477_set_stream mp plat bus s 1 = (0, s)) ∧
    (s.streaming = false → imx477_set_stream mp plat bus s 0 = (0, s)) := by
  refine ⟨?_, ?_, ?_⟩
  · unfold imx477_set_stream
    rw [if_pos h]
  · intro hs
    unfold imx477_set_stream
    rw [if_pos (by simp [hs])]
  · intro hs
    unfold imx477_set_stream
    rw [if_pos (by simp [hs])]

/-- Witness of C16: a start request on a session that is streaming, and a stop request on the
probed session, both return 0 and leave the session as it was, even on a dead bus. -/
theorem set_stream_same_state_witness :
    imx477_set_stream default_params good_platform dead_bus
        { powered_session with streaming := true } 1
      = (0, { powered_session with streaming := true }) ∧
    imx477_set_stream default_params good_platform dead_bus probed_session 0
      = (0, probed_session) :=
  ⟨(set_stream_same_state default_params good_platform dead_bus
      { powered_session with streaming := true } 1 rfl).1,
   (set_stream_same_state default_params good_platform dead_bus probed_session 0 rfl).1⟩

/-! ## Stream start -/

theorem write_regs_ok (bus : i2c_adapter) (s : imx477) (regs : List imx477_reg)
    (h : (imx477_write_regs bus s regs).1 = 0) :
    (imx477_write_regs bus s regs).2 =
      { s with i2c_log := s.i2c_log ++ recipe_xfers regs } := by
  obtain ⟨n, hn, hst, hcase⟩ := write_regs_cases bus regs s
  rcases hcase with ⟨_, hlen, _⟩ | ⟨he, _, _, _⟩
  · rw [hst, hlen, List.take_length]
  · rw [he] at h
    simp [EIO_err] at h

theorem write_regs_fail (bus : i2c_adapter) (s : imx477) (regs : List imx477_reg)
    (h : (imx477_write_regs bus s regs).1 ≠ 0) :
    (imx477_write_regs bus s regs).1 = -EIO_err ∧
    ∃ n, 1 ≤ n ∧ n ≤ regs.length ∧ (imx477_write_regs bus s regs).2 =
      { s with i2c_log := s.i2c_log ++ recipe_xfers (regs.take n) } := by
  obtain ⟨n, hn, hst, hcase⟩ := write_regs_cases bus regs s
  rcases hcase with ⟨h0, _, _⟩ | ⟨he, h1, _, _⟩
  · exact absurd h0 h
  · exact ⟨he, n, h1, hn, hst⟩

theorem set_ROI_size_eq (bus : i2c_adapter) (s : imx477) :
    imx477_set_ROI_size bus s = { s with i2c_log := (imx477_set_ROI_size bus s).i2c_log } := by
  unfold imx477_set_ROI_size
  simp only [IMX477_X_START_REG, IMX477_Y_START_REG, IMX477_X_END_REG, IMX477_Y_END_REG,
    IMX477_X_SIZE_REG, IMX477_Y_SIZE_REG, IMX477_X_DIG_CROP_SIZE_REG,
    IMX477_Y_DIG_CROP_SIZE_REG, IMX477_REG_VALUE_16BIT, write_reg16_eq]

theorem log_grows_ite {c : Prop} [Decidable c] {l : List i2c_xfer} {a b : Int × imx477}
    (ha : l <+: a.2.i2c_log) (hb : l <+: b.2.i2c_log) :
    l <+: (if c then a else b).2.i2c_log := by
  split <;> assumption

theorem set_ctrl_switch_log_grows (bus : i2c_adapter) (s : imx477) (ctrl : v4l2_ctrl) :
    s.i2c_log <+: (imx477_set_ctrl_switch bus s ctrl).2.i2c_log := by
  unfold imx477_set_ctrl_switch
  repeat' with_reducible apply log_grows_ite
  all_goals
    simp only [IMX477_REG_VALUE_16BIT, write_reg16_eq, write_reg8_eq,
      set_frame_length_unfold, set_ROI_size_log, List.append_assoc]
  all_goals
    first
      | exact List.prefix_append _ _
      | exact List.prefix_refl _
      | (split_ifs <;> exact List.prefix_append _ _)

theorem set_ctrl_log_grows (bus : i2c_adapter) (s : imx477) (ctrl : v4l2_ctrl) :
    s.i2c_log <+: (imx477_set_ctrl bus s ctrl).2.i2c_log := by
  unfold imx477_set_ctrl
  simp only
  split_ifs
  · exact List.prefix_refl _
  · exact List.prefix_refl _
  · exact set_ctrl_switch_log_grows bus { s with pm := (pm_runtime_get_if_in_use s.pm).2 } ctrl

theorem replay_controls_log_grows (bus : i2c_adapter) :
    ∀ (refs : List ctrl_ref) (s : imx477) (ret : Int),
      s.i2c_log <+: (replay_controls bus refs s ret).2.i2c_log := by
  intro refs
  induction refs with
  | nil => intro s ret; exact List.prefix_refl _
  | cons r rs ih =>
    intro s ret
    rw [replay_controls]
    split
    · exact ih s ret
    · split
      · exact ih s ret
      · exact List.IsPrefix.trans (set_ctrl_log_grows bus s _) (ih _ _)

theorem handler_setup_log_grows (bus : i2c_adapter) (s : imx477) :
    s.i2c_log <+: (__v4l2_ctrl_handler_setup bus s).2.i2c_log :=
  replay_controls_log_grows bus s.ctrl_handler s 0

theorem set_ROI_size_roi_xfers (bus : i2c_adapter) (s : imx477) :
    imx477_set_ROI_size bus s = { s with i2c_log := s.i2c_log ++ roi_xfers s } := by
  rw [set_ROI_size_eq]
  unfold roi_xfers
  rw [set_ROI_size_log, set_ROI_size_log]
  simp only [List.nil_append]

theorem roi_xfers_congr (s t : imx477) (hw : t.roi_width = s.roi_width)
    (hh : t.roi_height = s.roi_height) (hx : t.roi_start_x = s.roi_start_x)
    (hy : t.roi_start_y = s.roi_start_y) (hb : t.binning_ctrl = s.binning_ctrl) :
    roi_xfers t = roi_xfers s := by
  unfold roi_xfers
  rw [set_ROI_size_log, set_ROI_size_log]
  simp only [hw, hh, hx, hy, hb]

theorem ite_one_zero_mod (c : Prop) [Decidable c] :
    (if c then 1 else 0) % 256 = (if c then 1 else 0 : Nat) := by
  split <;> rfl

theorem ite_zero_one_mod (c : Prop) [Decidable c] :
    (if c then 0 else 1) % 256 = (if c then 0 else 1 : Nat) := by
  split <;> rfl

theorem start_streaming_common_cases (bus : i2c_adapter) (s : imx477) :
    (s.common_regs_written = true → imx477_start_streaming_common bus s = (0, s)) ∧
    (s.common_regs_written = false → (imx477_write_regs bus s mode_common_regs).1 ≠ 0 →
      imx477_start_streaming_common bus s = imx477_write_regs bus s mode_common_regs) ∧
    (s.common_regs_written = false → (imx477_write_regs bus s mode_common_regs).1 = 0 →
      (imx477_write_regs bus (imx477_write_regs bus s mode_common_regs).2
        s.compatible_data.extra_regs).1 ≠ 0 →
      imx477_start_streaming_common bus s =
        imx477_write_regs bus (imx477_write_regs bus s mode_common_regs).2
          s.compatible_data.extra_regs) ∧
    (s.common_regs_written = false → (imx477_write_regs bus s mode_common_regs).1 = 0 →
      (imx477_write_regs bus (imx477_write_regs bus s mode_common_regs).2
        s.compatible_data.extra_regs).1 = 0 →
      imx477_start_streaming_common bus s =
        (0, { s with common_regs_written := true,
                     i2c_log := s.i2c_log ++ (recipe_xfers mode_common_regs ++
                       recipe_xfers s.compatible_data.extra_regs) })) := by
  refine ⟨?_, ?_, ?_, ?_⟩
  · intro hf
    unfold imx477_start_streaming_common
    simp [hf]
  · intro hf hrc
    unfold imx477_start_streaming_common
    simp only [hf, Bool.false_eq_true, not_false_eq_true, if_true, if_neg hrc]
    rw [if_pos hrc]
  · intro hf hrc hre
    have hcd : (imx477_write_regs bus s mode_common_regs).2.compatible_data =
        s.compatible_data := by
      rw [write_regs_ok bus s _ hrc]
    unfold imx477_start_streaming_common
    simp only [hf, Bool.false_eq_true, not_false_eq_true, if_true, if_pos hrc, hcd]
    rw [if_pos hre]
  · intro hf hrc hre
    have hcd : (imx477_write_regs bus s mode_common_regs).2.compatible_data =
        s.compatible_data := by
      rw [write_regs_ok bus s _ hrc]
    unfold imx477_start_streaming_common
    simp only [hf, Bool.false_eq_true, not_false_eq_true, if_true, if_pos hrc, hcd]
    rw [if_neg (by simpa using hre), write_regs_ok bus _ _ hre, write_regs_ok bus s _ hrc]
    simp only [List.append_assoc]

theorem start_streaming_common_ok (bus : i2c_adapter) (s : imx477)
    (h : (imx477_start_streaming_common bus s).1 = 0) :
    (imx477_start_streaming_common bus s).2 =
      { s with common_regs_written := true,
               i2c_log := s.i2c_log ++
                 (if s.common_regs_written then []
                  else recipe_xfers mode_common_regs ++
                    recipe_xfers s.compatible_data.extra_regs) } := by
  obtain ⟨h1, h2, h3, h4⟩ := start_streaming_common_cases bus s
  by_cases hf : s.common_regs_written = true
  · rw [h1 hf]
    simp only [hf, if_true, List.append_nil]
    cases s
    simp_all
  · have hf' : s.common_regs_written = false := by simpa using hf
    by_cases hrc : (imx477_write_regs bus s mode_common_regs).1 = 0
    · by_cases hre : (imx477_write_regs bus (imx477_write_regs bus s mode_common_regs).2
          s.compatible_data.extra_regs).1 = 0
      · rw [h4 hf' hrc hre]
        simp only [hf', Bool.false_eq_true, if_false]
      · rw [h3 hf' hrc hre] at h
        exact absurd h hre
    · rw [h2 hf' hrc] at h
      exact absurd h hrc

theorem start_streaming_trigger_eq (mp : module_params) (bus : i2c_adapter) (s : imx477) :
    imx477_start_streaming_trigger mp bus s =
      (let tm : Int := if s.trigger_mode_of ≥ 0 then s.trigger_mode_of else mp.trigger_mode
       let trig : List i2c_xfer :=
         [i2c_xfer.master_send [0x03, 0x50, if tm > 0 then 0 else 1],
          i2c_xfer.master_send [0x3f, 0x0b, if tm > 0 then 1 else 0],
          i2c_xfer.master_send [0x30, 0x41, if tm ≤ 1 then 1 else 0],
          i2c_xfer.master_send [0x30, 0x40, if tm = 1 then 1 else 0],
          i2c_xfer.master_send [0x4b, 0x81, if tm = 1 then 1 else 0]]
       (if bus.master_send (s.i2c_log.length + 5) [0x01, 0x00, 0x01] = 3 then 0 else -EIO_err,
        { s with i2c_log := s.i2c_log ++ (trig ++ [i2c_xfer.master_send [0x01, 0x00, 0x01]]) }))
      := by
  unfold imx477_start_streaming_trigger
  simp only [IMX477_REG_VALUE_08BIT, IMX477_REG_MC_MODE, IMX477_REG_MS_SEL,
    IMX477_REG_XVS_IO_CTRL, IMX477_REG_EXTOUT_EN, IMX477_REG_MODE_SELECT,
    IMX477_MODE_STREAMING, write_reg8_eq, write_reg_buf8, ite_one_zero_mod, ite_zero_one_mod,
    List.length_append, List.length_singleton, List.append_assoc, List.singleton_append,
    List.cons_append, List.nil_append]
  norm_num

theorem roi_xfers_update (s : imx477) (a : Bool) (b : imx477_mode) (c : List i2c_xfer) :
    roi_xfers { s with common_regs_written := a, mode := b, i2c_log := c } = roi_xfers s :=
  roi_xfers_congr s _ rfl rfl rfl rfl rfl

theorem start_streaming_eq (mp : module_params) (bus : i2c_adapter) (s : imx477)
    (hc : (imx477_start_streaming_common bus s).1 = 0) :
    imx477_start_streaming mp bus s =
      (let m := supported_modes_12bit.getD (if s.binning_ctrl.val = 2 then 1 else 0) s.mode
       let A := if s.common_regs_written then []
                else recipe_xfers mode_common_regs ++ recipe_xfers s.compatible_data.extra_regs
       let s2 : imx477 :=
         { s with common_regs_written := true, mode := m, i2c_log := s.i2c_log ++ A }
       let d : Nat := if mp.dpc_enable ≠ 0 then 1 else 0
       let sD : imx477 :=
         { s with common_regs_written := true, mode := m,
                  i2c_log := s.i2c_log ++ (A ++ (recipe_xfers m.reg_list ++ (roi_xfers s ++
                    [i2c_xfer.master_send [0x0b, 0x05, d],
                     i2c_xfer.master_send [0x0b, 0x06, d]]))) }
       if (imx477_write_regs bus s2 m.reg_list).1 ≠ 0 then imx477_write_regs bus s2 m.reg_list
       else if (__v4l2_ctrl_handler_setup bus sD).1 ≠ 0 then __v4l2_ctrl_handler_setup bus sD
       else imx477_start_streaming_trigger mp bus (__v4l2_ctrl_handler_setup bus sD).2) := by
  have hc2 := start_streaming_common_ok bus s hc
  have hd : (if mp.dpc_enable ≠ 0 then 1 else 0 : Nat) % 256 =
      (if mp.dpc_enable ≠ 0 then 1 else 0 : Nat) := ite_one_zero_mod _
  unfold imx477_start_streaming
  dsimp only
  rw [if_neg (not_not.mpr hc), hc2]
  dsimp only
  refine ite_congr rfl (fun _ => rfl) (fun hrm => ?_)
  have hrm0 := not_not.mp hrm
  rw [write_regs_ok bus _ _ hrm0, set_ROI_size_roi_xfers]
  simp only [IMX477_REG_VALUE_08BIT, write_reg8_eq, write_reg_buf8, List.append_assoc, hd,
    Nat.reduceMod, Nat.reduceDiv, List.cons_append, List.nil_append, roi_xfers_update]

/-! ## The order of the writes of a stream start -/

theorem start_streaming_common_fail (mp : module_params) (bus : i2c_adapter) (s : imx477)
    (hc : (imx477_start_streaming_common bus s).1 ≠ 0) :
    imx477_start_streaming mp bus s = imx477_start_streaming_common bus s := by
  unfold imx477_start_streaming
  dsimp only
  rw [if_pos hc]

theorem ite_chain_fst_zero {a b c : Int × imx477}
    (h : (if a.1 ≠ 0 then a else if b.1 ≠ 0 then b else c).1 = 0) :
    b.1 = 0 ∧ (if a.1 ≠ 0 then a else if b.1 ≠ 0 then b else c) = c := by
  by_cases h1 : a.1 ≠ 0
  · rw [if_pos h1] at h
    exact absurd h h1
  · rw [if_neg h1] at h ⊢
    by_cases h2 : b.1 ≠ 0
    · rw [if_pos h2] at h
      exact absurd h h2
    · rw [if_neg h2]
      exact ⟨not_not.mp h2, rfl⟩

theorem start_streaming_ok_eq (mp : module_params) (bus : i2c_adapter) (s : imx477)
    (hok : (imx477_start_streaming mp bus s).1 = 0) :
    let m := supported_modes_12bit.getD (if s.binning_ctrl.val = 2 then 1 else 0) s.mode
    let A := if s.common_regs_written then []
             else recipe_xfers mode_common_regs ++ recipe_xfers s.compatible_data.extra_regs
    let d : Nat := if mp.dpc_enable ≠ 0 then 1 else 0
    let sD : imx477 :=
      { s with common_regs_written := true, mode := m,
               i2c_log := s.i2c_log ++ (A ++ (recipe_xfers m.reg_list ++ (roi_xfers s ++
                 [i2c_xfer.master_send [0x0b, 0x05, d],
                  i2c_xfer.master_send [0x0b, 0x06, d]]))) }
    (imx477_start_streaming_common bus s).1 = 0 ∧
    (__v4l2_ctrl_handler_setup bus sD).1 = 0 ∧
    imx477_start_streaming mp bus s =
      imx477_start_streaming_trigger mp bus (__v4l2_ctrl_handler_setup bus sD).2 := by
  have hc : (imx477_start_streaming_common bus s).1 = 0 := by
    by_contra hne
    rw [start_streaming_common_fail mp bus s hne] at hok
    exact hne hok
  have heq := start_streaming_eq mp bus s hc
  dsimp only at heq ⊢
  rw [heq] at hok ⊢
  exact ⟨hc, (ite_chain_fst_zero hok).1, (ite_chain_fst_zero hok).2⟩

theorem roi_xfers_regs (s : imx477) :
    (roi_xfers s).map (fun t => (decode_write t).map reg_write.reg) =
      [some 0x0344, some 0x0346, some 0x0348, some 0x034a, some 0x034c, some 0x034e,
       some 0x040c, some 0x040e] := by
  have h := (set_ROI_size_regs
    { master_send := fun _ _ => 0, transfer := fun _ _ _ _ => (0, []) }
    { s with i2c_log := [] }).1
  unfold writes_after at h
  simp only [List.length_nil, List.drop_zero, List.map_map] at h
  unfold roi_xfers
  exact h

/-- C17: on every successful imx477_start_streaming the transcript grows by, in this order, the
common recipe and the extra recipe of the chip variant (only when not yet written in this power
cycle), the recipe of the mode, the eight ROI registers, the defect-correction registers 0x0b05
and 0x0b06, the transactions of the replay of the controls, the five trigger-mode registers
0x0350, 0x3f0b, 0x3041, 0x3040, 0x4b81 and, last of all, MODE_SELECT (0x0100) = 1. -/
theorem start_streaming_write_order (mp : module_params) (bus : i2c_adapter) (s : imx477)
    (hok : (imx477_start_streaming mp bus s).1 = 0) :
    ∃ replay : List i2c_xfer,
      let m := supported_modes_12bit.getD (if s.binning_ctrl.val = 2 then 1 else 0) s.mode
      let A := if s.common_regs_written then []
               else recipe_xfers mode_common_regs ++ recipe_xfers s.compatible_data.extra_regs
      let d : Nat := if mp.dpc_enable ≠ 0 then 1 else 0
      let dpc := [i2c_xfer.master_send [0x0b, 0x05, d], i2c_xfer.master_send [0x0b, 0x06, d]]
      let before := s.i2c_log ++ (A ++ (recipe_xfers m.reg_list ++ (roi_xfers s ++ dpc)))
      let h := __v4l2_ctrl_handler_setup bus
        { s with common_regs_written := true, mode := m, i2c_log := before }
      let tm : Int := if h.2.trigger_mode_of ≥ 0 then h.2.trigger_mode_of else mp.trigger_mode
      let trig := [i2c_xfer.master_send [0x03, 0x50, if tm > 0 then 0 else 1],
                   i2c_xfer.master_send [0x3f, 0x0b, if tm > 0 then 1 else 0],
                   i2c_xfer.master_send [0x30, 0x41, if tm ≤ 1 then 1 else 0],
                   i2c_xfer.master_send [0x30, 0x40, if tm = 1 then 1 else 0],
                   i2c_xfer.master_send [0x4b, 0x81, if tm = 1 then 1 else 0]]
      (imx477_start_streaming mp bus s).2.i2c_log =
        before ++ (replay ++ (trig ++ [i2c_xfer.master_send [0x01, 0x00, 0x01]])) ∧
      h.2.i2c_log = before ++ replay ∧
      (roi_xfers s).map (fun t => (decode_write t).map reg_write.reg) =
        [some IMX477_X_START_REG, some IMX477_Y_START_REG, some IMX477_X_END_REG,
         some IMX477_Y_END_REG, some IMX477_X_SIZE_REG, some IMX477_Y_SIZE_REG,
         some IMX477_X_DIG_CROP_SIZE_REG, some IMX477_Y_DIG_CROP_SIZE_REG] ∧
      dpc.map decode_write =
        [some { reg := 0x0b05, len := 1, val := d }, some { reg := 0x0b06, len := 1, val := d }] ∧
      trig.map (fun t => (decode_write t).map reg_write.reg) =
        [some 0x0350, some IMX477_REG_MC_MODE, some IMX477_REG_MS_SEL,
         some IMX477_REG_XVS_IO_CTRL, some IMX477_REG_EXTOUT_EN] ∧
      decode_write (i2c_xfer.master_send [0x01, 0x00, 0x01]) =
        some { reg := IMX477_REG_MODE_SELECT, len := 1, val := IMX477_MODE_STREAMING } ∧
      (imx477_start_streaming mp bus s).2.i2c_log.getLast? =
        some (i2c_xfer.master_send [0x01, 0x00, 0x01]) := by
  obtain ⟨_, _, heq⟩ := start_streaming_ok_eq mp bus s hok
  obtain ⟨replay, hrep⟩ := handler_setup_log_grows bus
    { s with common_regs_written := true,
             mode := supported_modes_12bit.getD (if s.binning_ctrl.val = 2 then 1 else 0) s.mode,
             i2c_log := s.i2c_log ++ ((if s.common_regs_written then []
               else recipe_xfers mode_common_regs ++ recipe_xfers s.compatible_data.extra_regs) ++
               (recipe_xfers (supported_modes_12bit.getD
                  (if s.binning_ctrl.val = 2 then 1 else 0) s.mode).reg_list ++ (roi_xfers s ++
                 [i2c_xfer.master_send [0x0b, 0x05, if mp.dpc_enable ≠ 0 then 1 else 0],
                  i2c_xfer.master_send [0x0b, 0x06, if mp.dpc_enable ≠ 0 then 1 else 0]]))) }
  rw [start_streaming_trigger_eq] at heq
  refine ⟨replay, ?_⟩
  dsimp only at heq hrep ⊢
  rw [heq]
  dsimp only
  rw [← hrep]
  refine ⟨by simp only [List.append_assoc], rfl, roi_xfers_regs s, ?_, ?_, ?_, ?_⟩
  · simp [decode_write, be_value]
  · simp [decode_write, IMX477_REG_MC_MODE, IMX477_REG_MS_SEL,
      IMX477_REG_XVS_IO_CTRL, IMX477_REG_EXTOUT_EN]
  · simp [decode_write, be_value, IMX477_REG_MODE_SELECT, IMX477_MODE_STREAMING]
  · rw [← List.append_assoc]
    exact List.getLast?_concat _

set_option maxRecDepth 100000 in
/-- Witness of C17: on a bus that completes every transaction, the stream start of the powered
session after probe succeeds, and its transcript has the stated order. -/
theorem start_streaming_write_order_witness :
    (imx477_start_streaming default_params good_bus powered_session).1 = 0 ∧
    (imx477_start_streaming default_params good_bus powered_session).2.i2c_log.length = 478 ∧
    (imx477_start_streaming default_params good_bus powered_session).2.i2c_log.getLast? =
      some (i2c_xfer.master_send [0x01, 0x00, 0x01]) := by
  obtain ⟨_, _, _, _, _, _, _, hlast⟩ :=
    start_streaming_write_order default_params good_bus powered_session (by decide)
  exact ⟨by decide, by decide, hlast⟩

/-! ## The recipe of the mode at stream start -/

theorem get_sync_streaming (plat : power_platform) (s : imx477) :
    (pm_runtime_get_sync plat s).2.streaming = s.streaming := by
  unfold pm_runtime_get_sync imx477_power_on
  dsimp only
  split_ifs <;> rfl

theorem set_stream_start_fail (mp : module_params) (plat : power_platform) (bus : i2c_adapter)
    (s : imx477) (hs : s.streaming = false) (hg : ¬ (pm_runtime_get_sync plat s).1 < 0)
    (hst : (imx477_start_streaming mp bus (pm_runtime_get_sync plat s).2).1 ≠ 0) :
    imx477_set_stream mp plat bus s 1 =
      ((imx477_start_streaming mp bus (pm_runtime_get_sync plat s).2).1,
       { (imx477_start_streaming mp bus (pm_runtime_get_sync plat s).2).2 with
         pm := pm_runtime_put (imx477_start_streaming mp bus (pm_runtime_get_sync plat s).2).2.pm })
    := by
  unfold imx477_set_stream
  rw [if_neg (by simp [hs])]
  dsimp only
  have h10 : (1 : Int) ≠ 0 := by decide
  rw [if_pos h10, if_neg hg, if_pos hst]
  simp only [Bool.false_eq_true, if_false]

theorem start_streaming_mode_fail (mp : module_params) (bus : i2c_adapter) (s : imx477)
    (hc : (imx477_start_streaming_common bus s).1 = 0)
    (hrm : (imx477_write_regs bus
      { s with common_regs_written := true,
               mode := supported_modes_12bit.getD (if s.binning_ctrl.val = 2 then 1 else 0) s.mode,
               i2c_log := s.i2c_log ++ (if s.common_regs_written then []
                 else recipe_xfers mode_common_regs ++
                   recipe_xfers s.compatible_data.extra_regs) }
      (supported_modes_12bit.getD
        (if s.binning_ctrl.val = 2 then 1 else 0) s.mode).reg_list).1 ≠ 0) :
    imx477_start_streaming mp bus s =
      imx477_write_regs bus
        { s with common_regs_written := true,
                 mode := supported_modes_12bit.getD
                   (if s.binning_ctrl.val = 2 then 1 else 0) s.mode,
                 i2c_log := s.i2c_log ++ (if s.common_regs_written then []
                   else recipe_xfers mode_common_regs ++
                     recipe_xfers s.compatible_data.extra_regs) }
        (supported_modes_12bit.getD
          (if s.binning_ctrl.val = 2 then 1 else 0) s.mode).reg_list := by
  have heq := start_streaming_eq mp bus s hc
  dsimp only at heq
  rw [heq, if_pos hrm]

/-- C19: when a write of the common, extra or mode recipe fails during a stream-start request,
imx477_start_streaming returns the error -EIO at once and the transcript ends with the failed
recipe write (no ROI, control, trigger or MODE_SELECT write follows); imx477_set_stream returns
the same error and leaves the streaming flag false; common_regs_written is false afterwards
when the common or the extra recipe failed and true when both had been written and the mode
recipe failed. -/
theorem start_streaming_recipe_failure (mp : module_params) (plat : power_platform)
    (bus : i2c_adapter) (s : imx477) (hs : s.streaming = false)
    (hg : ¬ (pm_runtime_get_sync plat s).1 < 0) :
    let g := (pm_runtime_get_sync plat s).2
    let rc := imx477_write_regs bus g mode_common_regs
    let re := imx477_write_regs bus rc.2 g.compatible_data.extra_regs
    let m := supported_modes_12bit.getD (if g.binning_ctrl.val = 2 then 1 else 0) g.mode
    let A := if g.common_regs_written then []
             else recipe_xfers mode_common_regs ++ recipe_xfers g.compatible_data.extra_regs
    let rm := imx477_write_regs bus
      { g with common_regs_written := true, mode := m, i2c_log := g.i2c_log ++ A } m.reg_list
    g.streaming = false ∧
    (g.common_regs_written = false → rc.1 ≠ 0 →
      ∃ n, 1 ≤ n ∧ n ≤ mode_common_regs.length ∧
        imx477_start_streaming mp bus g =
          (-EIO_err, { g with i2c_log := g.i2c_log ++ recipe_xfers (mode_common_regs.take n) }) ∧
        imx477_set_stream mp plat bus s 1 =
          (-EIO_err, { g with i2c_log := g.i2c_log ++ recipe_xfers (mode_common_regs.take n),
                                pm := pm_runtime_put g.pm }) ∧
        (imx477_set_stream mp plat bus s 1).2.streaming = false ∧
        (imx477_set_stream mp plat bus s 1).2.common_regs_written = false) ∧
    (g.common_regs_written = false → rc.1 = 0 → re.1 ≠ 0 →
      ∃ n, 1 ≤ n ∧ n ≤ g.compatible_data.extra_regs.length ∧
        imx477_start_streaming mp bus g =
          (-EIO_err, { g with i2c_log := g.i2c_log ++ (recipe_xfers mode_common_regs ++
             recipe_xfers (g.compatible_data.extra_regs.take n)) }) ∧
        imx477_set_stream mp plat bus s 1 =
          (-EIO_err, { g with i2c_log := g.i2c_log ++ (recipe_xfers mode_common_regs ++
             recipe_xfers (g.compatible_data.extra_regs.take n)),
                                pm := pm_runtime_put g.pm }) ∧
        (imx477_set_stream mp plat bus s 1).2.streaming = false ∧
        (imx477_set_stream mp plat bus s 1).2.common_regs_written = false) ∧
    ((imx477_start_streaming_common bus g).1 = 0 → rm.1 ≠ 0 →
      ∃ n, 1 ≤ n ∧ n ≤ m.reg_list.length ∧
        imx477_start_streaming mp bus g =
          (-EIO_err, { g with common_regs_written := true, mode := m,
                                i2c_log := g.i2c_log ++ (A ++ recipe_xfers (m.reg_list.take n)) }) ∧
        imx477_set_stream mp plat bus s 1 =
          (-EIO_err, { g with common_regs_written := true, mode := m,
                                i2c_log := g.i2c_log ++ (A ++ recipe_xfers (m.reg_list.take n)),
                                pm := pm_runtime_put g.pm }) ∧
        (imx477_set_stream mp plat bus s 1).2.streaming = false ∧
        (imx477_set_stream mp plat bus s 1).2.common_regs_written = true) := by
  have hgs := get_sync_streaming plat s
  rw [hs] at hgs
  have hne : (-EIO_err : Int) ≠ 0 := by decide
  obtain ⟨_, h2, h3, _⟩ := start_streaming_common_cases bus (pm_runtime_get_sync plat s).2
  refine ⟨hgs, ?_, ?_, ?_⟩
  · intro hf hrc
    obtain ⟨he, n, h1, hn, hst⟩ := write_regs_fail bus _ _ hrc
    have hstart : imx477_start_streaming mp bus (pm_runtime_get_sync plat s).2 =
        (-EIO_err, { (pm_runtime_get_sync plat s).2 with
          i2c_log := (pm_runtime_get_sync plat s).2.i2c_log ++
            recipe_xfers (mode_common_regs.take n) }) := by
      rw [start_streaming_common_fail mp bus _ (by rw [h2 hf hrc]; exact hrc), h2 hf hrc]
      exact Prod.ext he hst
    have hset := set_stream_start_fail mp plat bus s hs hg (by rw [hstart]; exact hne)
    rw [hstart] at hset
    refine ⟨n, h1, hn, hstart, hset, ?_, ?_⟩
    · rw [hset]; exact hgs
    · rw [hset]; exact hf
  · intro hf hrc hre
    obtain ⟨he, n, h1, hn, hst⟩ := write_regs_fail bus _ _ hre
    have hstart : imx477_start_streaming mp bus (pm_runtime_get_sync plat s).2 =
        (-EIO_err, { (pm_runtime_get_sync plat s).2 with
          i2c_log := (pm_runtime_get_sync plat s).2.i2c_log ++ (recipe_xfers mode_common_regs ++
            recipe_xfers ((pm_runtime_get_sync plat s).2.compatible_data.extra_regs.take n)) })
        := by
      rw [start_streaming_common_fail mp bus _ (by rw [h3 hf hrc hre]; exact hre),
        h3 hf hrc hre]
      refine Prod.ext he ?_
      rw [hst, write_regs_ok bus _ _ hrc]
      simp only [List.append_assoc]
    have hset := set_stream_start_fail mp plat bus s hs hg (by rw [hstart]; exact hne)
    rw [hstart] at hset
    refine ⟨n, h1, hn, hstart, hset, ?_, ?_⟩
    · rw [hset]; exact hgs
    · rw [hset]; exact hf
  · intro hc hrm
    obtain ⟨he, n, h1, hn, hst⟩ := write_regs_fail bus _ _ hrm
    have hstart : imx477_start_streaming mp bus (pm_runtime_get_sync plat s).2 =
        (-EIO_err, { (pm_runtime_get_sync plat s).2 with
          common_regs_written := true,
          mode := supported_modes_12bit.getD
            (if (pm_runtime_get_sync plat s).2.binning_ctrl.val = 2 then 1 else 0)
            (pm_runtime_get_sync plat s).2.mode,
          i2c_log := (pm_runtime_get_sync plat s).2.i2c_log ++
            ((if (pm_runtime_get_sync plat s).2.common_regs_written then []
              else recipe_xfers mode_common_regs ++
                recipe_xfers (pm_runtime_get_sync plat s).2.compatible_data.extra_regs) ++
             recipe_xfers ((supported_modes_12bit.getD
               (if (pm_runtime_get_sync plat s).2.binning_ctrl.val = 2 then 1 else 0)
               (pm_runtime_get_sync plat s).2.mode).reg_list.take n)) }) := by
      rw [start_streaming_mode_fail mp bus _ hc hrm]
      refine Prod.ext he ?_
      rw [hst]
      simp only [List.append_assoc]
    have hset := set_stream_start_fail mp plat bus s hs hg (by rw [hstart]; exact hne)
    rw [hstart] at hset
    refine ⟨n, h1, hn, hstart, hset, ?_, ?_⟩
    · rw [hset]; exact hgs
    · rw [hset]

set_option maxRecDepth 100000 in
/-- Witness of C19: a stream-start request on the probed session, on a bus that fails the second
write of the mode recipe (transaction 310), returns -EIO after 311 transactions, leaves the
streaming flag false and common_regs_written true; on a bus that fails the very first write the
flag common_regs_written stays false. -/
theorem start_streaming_recipe_failure_witness :
    (imx477_set_stream default_params good_platform (bus_failing_at 310) probed_session 1).1
      = -EIO_err ∧
    (imx477_set_stream default_params good_platform (bus_failing_at 310)
      probed_session 1).2.streaming = false ∧
    (imx477_set_stream default_params good_platform (bus_failing_at 310)
      probed_session 1).2.common_regs_written = true ∧
    (imx477_set_stream default_params good_platform (bus_failing_at 310)
      probed_session 1).2.i2c_log.length = 311 ∧
    (imx477_set_stream default_params good_platform (bus_failing_at 0)
      probed_session 1).2.common_regs_written = false := by
  obtain ⟨_, _, _, h3⟩ := start_streaming_recipe_failure default_params good_platform
    (bus_failing_at 310) probed_session rfl (by decide)
  obtain ⟨n, _, _, _, hset, hstr, hcw⟩ := h3 (by decide) (by decide)
  obtain ⟨_, h1, _, _⟩ := start_streaming_recipe_failure default_params good_platform
    (bus_failing_at 0) probed_session rfl (by decide)
  obtain ⟨k, _, _, _, _, _, hcw0⟩ := h1 (by decide) (by decide)
  exact ⟨by rw [hset], hstr, hcw, by decide, hcw0⟩

/-- C20 (as amended): imx477_start_streaming returns an error, and does not issue its trigger
and stream-on writes, when a write of the common, extra or mode recipe fails or when the replay
of the controls reports an error.  Otherwise the five trigger-mode registers and MODE_SELECT = 1
are written whatever the bus answered to the ROI, defect-correction and trigger-mode writes, and
the result is 0 exactly when the bus accepts the MODE_SELECT write. -/
theorem start_streaming_abort_points (mp : module_params) (bus : i2c_adapter) (s : imx477) :
    let m := supported_modes_12bit.getD (if s.binning_ctrl.val = 2 then 1 else 0) s.mode
    let A := if s.common_regs_written then []
             else recipe_xfers mode_common_regs ++ recipe_xfers s.compatible_data.extra_regs
    let d : Nat := if mp.dpc_enable ≠ 0 then 1 else 0
    let rm := imx477_write_regs bus
      { s with common_regs_written := true, mode := m, i2c_log := s.i2c_log ++ A } m.reg_list
    let h := __v4l2_ctrl_handler_setup bus
      { s with common_regs_written := true, mode := m,
               i2c_log := s.i2c_log ++ (A ++ (recipe_xfers m.reg_list ++ (roi_xfers s ++
                 [i2c_xfer.master_send [0x0b, 0x05, d],
                  i2c_xfer.master_send [0x0b, 0x06, d]]))) }
    let tm : Int := if h.2.trigger_mode_of ≥ 0 then h.2.trigger_mode_of else mp.trigger_mode
    let trig := [i2c_xfer.master_send [0x03, 0x50, if tm > 0 then 0 else 1],
                 i2c_xfer.master_send [0x3f, 0x0b, if tm > 0 then 1 else 0],
                 i2c_xfer.master_send [0x30, 0x41, if tm ≤ 1 then 1 else 0],
                 i2c_xfer.master_send [0x30, 0x40, if tm = 1 then 1 else 0],
                 i2c_xfer.master_send [0x4b, 0x81, if tm = 1 then 1 else 0]]
    ((imx477_start_streaming_common bus s).1 ≠ 0 →
      imx477_start_streaming mp bus s = imx477_start_streaming_common bus s ∧
      (imx477_start_streaming mp bus s).1 ≠ 0) ∧
    ((imx477_start_streaming_common bus s).1 = 0 → rm.1 ≠ 0 →
      imx477_start_streaming mp bus s = rm ∧ (imx477_start_streaming mp bus s).1 ≠ 0) ∧
    ((imx477_start_streaming_common bus s).1 = 0 → rm.1 = 0 → h.1 ≠ 0 →
      imx477_start_streaming mp bus s = h ∧ (imx477_start_streaming mp bus s).1 ≠ 0) ∧
    ((imx477_start_streaming_common bus s).1 = 0 → rm.1 = 0 → h.1 = 0 →
      imx477_start_streaming mp bus s =
        (if bus.master_send (h.2.i2c_log.length + 5) [0x01, 0x00, 0x01] = 3 then 0
         else -EIO_err,
         { h.2 with i2c_log := h.2.i2c_log ++
             (trig ++ [i2c_xfer.master_send [0x01, 0x00, 0x01]]) })) := by
  refine ⟨?_, ?_, ?_, ?_⟩
  · intro hc
    have h1 := start_streaming_common_fail mp bus s hc
    exact ⟨h1, by rw [h1]; exact hc⟩
  · intro hc hrm
    have h1 := start_streaming_mode_fail mp bus s hc hrm
    exact ⟨h1, by rw [h1]; exact hrm⟩
  · intro hc hrm hh
    have heq := start_streaming_eq mp bus s hc
    dsimp only at heq
    rw [if_neg (not_not.mpr hrm), if_pos hh] at heq
    exact ⟨heq, by rw [heq]; exact hh⟩
  · intro hc hrm hh
    have heq := start_streaming_eq mp bus s hc
    dsimp only at heq
    rw [if_neg (not_not.mpr hrm), if_neg (not_not.mpr hh), start_streaming_trigger_eq] at heq
    exact heq

set_option maxRecDepth 100000 in
/-- Witness of C20: on a bus that completes every transaction the start of the powered session
returns 0 and ends with the stream-on write; on a bus that fails the first write it returns an
error after that single transaction. -/
theorem start_streaming_abort_points_witness :
    (imx477_start_streaming default_params good_bus powered_session).1 = 0 ∧
    (imx477_start_streaming default_params dead_bus powered_session).1 ≠ 0 ∧
    (imx477_start_streaming default_params dead_bus powered_session).2.i2c_log.length = 1 := by
  obtain ⟨h1, _, _, _⟩ := start_streaming_abort_points default_params dead_bus powered_session
  exact ⟨by decide, (h1 (by decide)).2, by decide⟩

set_option maxHeartbeats 2000000 in
set_option maxRecDepth 100000 in
/-- C20 (counterexample): a failed write does not always abort the start.  On the powered
session with the common registers written, the write of X_START (transaction 108), of the
defect-correction register 0x0b05 (transaction 116) or of EXTOUT_EN (transaction 167) is not
acknowledged and imx477_write_reg reports -EIO for it, yet imx477_start_streaming returns 0 and
its last transaction is MODE_SELECT = 1. -/
theorem start_streaming_ignores_failed_writes :
    ((imx477_start_streaming default_params (bus_failing_at 108)
        { powered_session with common_regs_written := true }).1,
     (imx477_start_streaming default_params (bus_failing_at 108)
        { powered_session with common_regs_written := true }).2.i2c_log.get? 108,
     (imx477_start_streaming default_params (bus_failing_at 108)
        { powered_session with common_regs_written := true }).2.i2c_log.getLast?) =
      (0, some (i2c_xfer.master_send [0x03, 0x44, 0x00, 0x00]),
       some (i2c_xfer.master_send [0x01, 0x00, 0x01])) ∧
    ((imx477_start_streaming default_params (bus_failing_at 116)
        { powered_session with common_regs_written := true }).1,
     (imx477_start_streaming default_params (bus_failing_at 116)
        { powered_session with common_regs_written := true }).2.i2c_log.get? 116,
     (imx477_start_streaming default_params (bus_failing_at 116)
        { powered_session with common_regs_written := true }).2.i2c_log.getLast?) =
      (0, some (i2c_xfer.master_send [0x0b, 0x05, 0x01]),
       some (i2c_xfer.master_send [0x01, 0x00, 0x01])) ∧
    ((imx477_start_streaming default_params (bus_failing_at 167)
        { powered_session with common_regs_written := true }).1,
     (imx477_start_streaming default_params (bus_failing_at 167)
        { powered_session with common_regs_written := true }).2.i2c_log.get? 167,
     (imx477_start_streaming default_params (bus_failing_at 167)
        { powered_session with common_regs_written := true }).2.i2c_log.getLast?) =
      (0, some (i2c_xfer.master_send [0x4b, 0x81, 0x00]),
       some (i2c_xfer.master_send [0x01, 0x00, 0x01])) ∧
    (imx477_write_reg (bus_failing_at 116)
      { powered_session with i2c_log := List.replicate 116 (i2c_xfer.master_send []) }
      0x0b05 IMX477_REG_VALUE_08BIT 1).1 = -EIO_err :=
  ⟨by decide, by decide, by decide, by decide⟩

/-! ## Stop, power-on and resume -/

theorem stop_streaming_eq (bus : i2c_adapter) (s : imx477) :
    imx477_stop_streaming bus s =
      { s with i2c_log := s.i2c_log ++
          [i2c_xfer.master_send [0x01, 0x00, 0x00], i2c_xfer.master_send [0x4b, 0x81, 0x00]] }
    := by
  unfold imx477_stop_streaming
  simp only [IMX477_REG_VALUE_08BIT, IMX477_REG_MODE_SELECT, IMX477_MODE_STANDBY,
    IMX477_REG_EXTOUT_EN, write_reg8_eq, write_reg_buf8, List.append_assoc,
    List.singleton_append]

/-- C21: a stop request while streaming returns 0 and leaves the streaming flag false whatever
the bus answers; imx477_stop_streaming attempts MODE_SELECT = 0 and then EXTOUT_EN (0x4b81) = 0,
the second also when the first was not acknowledged, and nothing else. -/
theorem set_stream_stop_always_succeeds (mp : module_params) (plat : power_platform)
    (bus : i2c_adapter) (s : imx477) (hs : s.streaming = true) :
    (imx477_set_stream mp plat bus s 0).1 = 0 ∧
    (imx477_set_stream mp plat bus s 0).2.streaming = false ∧
    (imx477_set_stream mp plat bus s 0).2.i2c_log = (imx477_stop_streaming bus s).i2c_log ∧
    (imx477_stop_streaming bus s).i2c_log = s.i2c_log ++
      [i2c_xfer.master_send [0x01, 0x00, 0x00], i2c_xfer.master_send [0x4b, 0x81, 0x00]] ∧
    writes_after s.i2c_log (imx477_stop_streaming bus s).i2c_log =
      [some { reg := IMX477_REG_MODE_SELECT, len := 1, val := IMX477_MODE_STANDBY },
       some { reg := IMX477_REG_EXTOUT_EN, len := 1, val := 0 }] := by
  have hset : imx477_set_stream mp plat bus s 0 =
      (0, { imx477_stop_streaming bus s with
              streaming := false,
              vflip := __v4l2_ctrl_grab (imx477_stop_streaming bus s).vflip false,
              hflip := __v4l2_ctrl_grab (imx477_stop_streaming bus s).hflip false,
              pm := pm_runtime_put (imx477_stop_streaming bus s).pm }) := by
    unfold imx477_set_stream
    rw [if_neg (by simp [hs])]
    simp
  rw [hset, stop_streaming_eq]
  refine ⟨rfl, rfl, rfl, rfl, ?_⟩
  rw [writes_after_append]
  simp [decode_write, be_value, IMX477_REG_MODE_SELECT, IMX477_MODE_STANDBY,
    IMX477_REG_EXTOUT_EN]

/-- Witness of C21: on a bus that acknowledges nothing, the stop request on a streaming session
returns 0, clears the flag and has attempted both writes. -/
theorem set_stream_stop_always_succeeds_witness :
    (imx477_set_stream default_params good_platform dead_bus
      { powered_session with streaming := true } 0).1 = 0 ∧
    (imx477_set_stream default_params good_platform dead_bus
      { powered_session with streaming := true } 0).2.streaming = false ∧
    (imx477_set_stream default_params good_platform dead_bus
      { powered_session with streaming := true } 0).2.i2c_log =
      [i2c_xfer.master_send [0x01, 0x00, 0x00], i2c_xfer.master_send [0x4b, 0x81, 0x00]] := by
  obtain ⟨h1, h2, h3, h4, _⟩ := set_stream_stop_always_succeeds default_params good_platform
    dead_bus { powered_session with streaming := true } rfl
  exact ⟨h1, h2, by rw [h3, h4]; rfl⟩

/-- C22: imx477_power_on enables the supplies first; when that fails it returns the error and
touches neither clock nor reset line.  It then enables the clock; when that fails it disables
the supplies again, does not deassert reset and returns the clock error.  On success the calls
are supplies, clock, reset deasserted (then the settle delay) and the result is 0. -/
theorem power_on_order_and_rollback (plat : power_platform) (s : imx477) :
    (plat.regulator_bulk_enable s.power_log.length ≠ 0 →
      imx477_power_on plat s =
        (plat.regulator_bulk_enable s.power_log.length,
         { s with power_log := s.power_log ++ [power_op.regulator_bulk_enable] })) ∧
    (plat.regulator_bulk_enable s.power_log.length = 0 →
      plat.clk_prepare_enable (s.power_log.length + 1) ≠ 0 →
      imx477_power_on plat s =
        (plat.clk_prepare_enable (s.power_log.length + 1),
         { s with power_log := s.power_log ++
             [power_op.regulator_bulk_enable, power_op.clk_prepare_enable,
              power_op.regulator_bulk_disable] })) ∧
    (plat.regulator_bulk_enable s.power_log.length = 0 →
      plat.clk_prepare_enable (s.power_log.length + 1) = 0 →
      imx477_power_on plat s =
        (0, { s with power_log := s.power_log ++
             [power_op.regulator_bulk_enable, power_op.clk_prepare_enable,
              power_op.gpiod_set_value_cansleep 1, power_op.usleep_range 8000 9000] })) := by
  refine ⟨?_, ?_, ?_⟩
  · intro h
    unfold imx477_power_on
    simp [h]
  · intro h1 h2
    unfold imx477_power_on
    simp [h1, h2]
  · intro h1 h2
    unfold imx477_power_on
    simp [h1, h2, IMX477_XCLR_MIN_DELAY_US, IMX477_XCLR_DELAY_RANGE_US]

/-- Witness of C22: without a clock the probed session sees supplies on, clock attempt, supplies
off and the clock error -22; without supplies only the supply attempt and its error -19; on a
good platform supplies, clock, reset deasserted, delay and 0. -/
theorem power_on_order_and_rollback_witness :
    imx477_power_on platform_without_clock probed_session =
      (-22, { probed_session with power_log :=
        [power_op.regulator_bulk_enable, power_op.clk_prepare_enable,
         power_op.regulator_bulk_disable] }) ∧
    imx477_power_on platform_without_supplies probed_session =
      (-19, { probed_session with power_log := [power_op.regulator_bulk_enable] }) ∧
    imx477_power_on good_platform probed_session =
      (0, { probed_session with power_log :=
        [power_op.regulator_bulk_enable, power_op.clk_prepare_enable,
         power_op.gpiod_set_value_cansleep 1, power_op.usleep_range 8000 9000] }) :=
  ⟨(power_on_order_and_rollback platform_without_clock probed_session).2.1 rfl (by decide),
   (power_on_order_and_rollback platform_without_supplies probed_session).1 (by decide),
   (power_on_order_and_rollback good_platform probed_session).2.2 rfl rfl⟩

/-! ## The flags of the session across a stream start -/

theorem flags_ite {c : Prop} [Decidable c] {s0 : imx477} {a b : Int × imx477}
    (ha : a.2.streaming = s0.streaming ∧ a.2.common_regs_written = s0.common_regs_written)
    (hb : b.2.streaming = s0.streaming ∧ b.2.common_regs_written = s0.common_regs_written) :
    (if c then a else b).2.streaming = s0.streaming ∧
    (if c then a else b).2.common_regs_written = s0.common_regs_written := by
  split <;> assumption

theorem set_ctrl_switch_flags (bus : i2c_adapter) (s : imx477) (ctrl : v4l2_ctrl) :
    (imx477_set_ctrl_switch bus s ctrl).2.streaming = s.streaming ∧
    (imx477_set_ctrl_switch bus s ctrl).2.common_regs_written = s.common_regs_written := by
  unfold imx477_set_ctrl_switch
  repeat' with_reducible apply flags_ite
  all_goals
    try simp only [IMX477_REG_VALUE_16BIT, write_reg16_eq, write_reg8_eq,
      set_frame_length_unfold, set_ROI_size_roi_xfers]
  all_goals
    first
      | exact ⟨rfl, rfl⟩
      | exact ⟨trivial, trivial⟩
      | (split_ifs <;> exact ⟨rfl, rfl⟩)

theorem set_ctrl_flags (bus : i2c_adapter) (s : imx477) (ctrl : v4l2_ctrl) :
    (imx477_set_ctrl bus s ctrl).2.streaming = s.streaming ∧
    (imx477_set_ctrl bus s ctrl).2.common_regs_written = s.common_regs_written := by
  unfold imx477_set_ctrl
  simp only
  split_ifs
  · exact ⟨rfl, rfl⟩
  · exact ⟨rfl, rfl⟩
  · exact set_ctrl_switch_flags bus { s with pm := (pm_runtime_get_if_in_use s.pm).2 } ctrl

theorem replay_controls_flags (bus : i2c_adapter) :
    ∀ (refs : List ctrl_ref) (s : imx477) (ret : Int),
      (replay_controls bus refs s ret).2.streaming = s.streaming ∧
      (replay_controls bus refs s ret).2.common_regs_written = s.common_regs_written := by
  intro refs
  induction refs with
  | nil => intro s ret; exact ⟨rfl, rfl⟩
  | cons r rs ih =>
    intro s ret
    rw [replay_controls]
    split
    · exact ih s ret
    · split
      · exact ih s ret
      · obtain ⟨h1, h2⟩ := ih (imx477_set_ctrl bus s _).2 (if ret ≠ 0 then ret
          else (imx477_set_ctrl bus s _).1)
        obtain ⟨h3, h4⟩ := set_ctrl_flags bus s _
        exact ⟨h1.trans h3, h2.trans h4⟩

theorem handler_setup_flags (bus : i2c_adapter) (s : imx477) :
    (__v4l2_ctrl_handler_setup bus s).2.streaming = s.streaming ∧
    (__v4l2_ctrl_handler_setup bus s).2.common_regs_written = s.common_regs_written :=
  replay_controls_flags bus s.ctrl_handler s 0

theorem write_regs_flags (bus : i2c_adapter) (s : imx477) (regs : List imx477_reg) :
    (imx477_write_regs bus s regs).2.streaming = s.streaming ∧
    (imx477_write_regs bus s regs).2.common_regs_written = s.common_regs_written ∧
    s.i2c_log <+: (imx477_write_regs bus s regs).2.i2c_log := by
  obtain ⟨n, _, hst, _⟩ := write_regs_cases bus regs s
  rw [hst]
  exact ⟨rfl, rfl, List.prefix_append _ _⟩

theorem ite_chain_prop {P : Int × imx477 → Prop} {a b c : Int × imx477}
    (ha : P a) (hb : P b) (hc : P c) :
    P (if a.1 ≠ 0 then a else if b.1 ≠ 0 then b else c) := by
  split_ifs <;> assumption

theorem start_streaming_flags (mp : module_params) (bus : i2c_adapter) (s : imx477) :
    (imx477_start_streaming mp bus s).2.streaming = s.streaming ∧
    (imx477_start_streaming mp bus s).2.common_regs_written =
      (s.common_regs_written || decide ((imx477_start_streaming_common bus s).1 = 0)) ∧
    (imx477_start_streaming_common bus s).2.i2c_log <+:
      (imx477_start_streaming mp bus s).2.i2c_log := by
  by_cases hc : (imx477_start_streaming_common bus s).1 = 0
  · have hc2 := start_streaming_common_ok bus s hc
    have heq := start_streaming_eq mp bus s hc
    dsimp only at heq
    have hdec : decide ((imx477_start_streaming_common bus s).1 = 0) = true := by simp [hc]
    rw [hdec, Bool.or_true, hc2, heq]
    obtain ⟨h1, h2⟩ := handler_setup_flags bus
      { s with common_regs_written := true,
               mode := supported_modes_12bit.getD
                 (if s.binning_ctrl.val = 2 then 1 else 0) s.mode,
               i2c_log := s.i2c_log ++ ((if s.common_regs_written then []
                 else recipe_xfers mode_common_regs ++
                   recipe_xfers s.compatible_data.extra_regs) ++
                 (recipe_xfers (supported_modes_12bit.getD
                    (if s.binning_ctrl.val = 2 then 1 else 0) s.mode).reg_list ++
                  (roi_xfers s ++
                   [i2c_xfer.master_send [0x0b, 0x05, if mp.dpc_enable ≠ 0 then 1 else 0],
                    i2c_xfer.master_send [0x0b, 0x06, if mp.dpc_enable ≠ 0 then 1 else 0]]))) }
    obtain ⟨e, he⟩ := handler_setup_log_grows bus
      { s with common_regs_written := true,
               mode := supported_modes_12bit.getD
                 (if s.binning_ctrl.val = 2 then 1 else 0) s.mode,
               i2c_log := s.i2c_log ++ ((if s.common_regs_written then []
                 else recipe_xfers mode_common_regs ++
                   recipe_xfers s.compatible_data.extra_regs) ++
                 (recipe_xfers (supported_modes_12bit.getD
                    (if s.binning_ctrl.val = 2 then 1 else 0) s.mode).reg_list ++
                  (roi_xfers s ++
                   [i2c_xfer.master_send [0x0b, 0x05, if mp.dpc_enable ≠ 0 then 1 else 0],
                    i2c_xfer.master_send [0x0b, 0x06, if mp.dpc_enable ≠ 0 then 1 else 0]]))) }
    dsimp only at he h1 h2
    refine ite_chain_prop
      (P := fun x => x.2.streaming = s.streaming ∧ x.2.common_regs_written = true ∧
        (s.i2c_log ++ (if s.common_regs_written then []
          else recipe_xfers mode_common_regs ++
            recipe_xfers s.compatible_data.extra_regs)) <+: x.2.i2c_log) ?_ ?_ ?_
    · exact write_regs_flags bus _ _
    · refine ⟨h1, h2, ?_⟩
      rw [← he]
      simp only [List.append_assoc]
      rw [← List.append_assoc]
      exact List.prefix_append _ _
    · rw [start_streaming_trigger_eq]
      refine ⟨h1, h2, ?_⟩
      dsimp only
      rw [← he]
      simp only [List.append_assoc]
      rw [← List.append_assoc]
      exact List.prefix_append _ _
  · rw [start_streaming_common_fail mp bus s hc]
    have hdec : decide ((imx477_start_streaming_common bus s).1 = 0) = false := by simp [hc]
    rw [hdec, Bool.or_false]
    obtain ⟨h1, h2, h3, _⟩ := start_streaming_common_cases bus s
    refine ⟨?_, ?_, List.prefix_refl _⟩
    · by_cases hf : s.common_regs_written = true
      · rw [h1 hf]
      · have hf' : s.common_regs_written = false := by simpa using hf
        by_cases hrc : (imx477_write_regs bus s mode_common_regs).1 = 0
        · by_cases hre : (imx477_write_regs bus (imx477_write_regs bus s mode_common_regs).2
              s.compatible_data.extra_regs).1 = 0
          · exact absurd (by rw [(start_streaming_common_cases bus s).2.2.2 hf' hrc hre]) hc
          · rw [h3 hf' hrc hre]
            exact (write_regs_flags bus _ _).1.trans (write_regs_flags bus _ _).1
        · rw [h2 hf' hrc]
          exact (write_regs_flags bus _ _).1
    · by_cases hf : s.common_regs_written = true
      · rw [h1 hf]
      · have hf' : s.common_regs_written = false := by simpa using hf
        by_cases hrc : (imx477_write_regs bus s mode_common_regs).1 = 0
        · by_cases hre : (imx477_write_regs bus (imx477_write_regs bus s mode_common_regs).2
              s.compatible_data.extra_regs).1 = 0
          · exact absurd (by rw [(start_streaming_common_cases bus s).2.2.2 hf' hrc hre]) hc
          · rw [h3 hf' hrc hre]
            exact (write_regs_flags bus _ _).2.1.trans (write_regs_flags bus _ _).2.1
        · rw [h2 hf' hrc]
          exact (write_regs_flags bus _ _).2.1

/-- C24: imx477_resume runs the stream-start sequence exactly when the streaming flag is set.
When the flag is clear it returns 0 and leaves the session, and so the bus transcript, as they
are.  When the flag is set and the start succeeds it returns 0 and the flag stays true; when the
start fails it runs the stop sequence (MODE_SELECT = 0, EXTOUT_EN = 0), clears the flag and
returns the error of the start. -/
theorem resume_restarts_stream (mp : module_params) (bus : i2c_adapter) (s : imx477) :
    (s.streaming = false → imx477_resume mp bus s = (0, s)) ∧
    (s.streaming = true → (imx477_start_streaming mp bus s).1 = 0 →
      imx477_resume mp bus s = (0, (imx477_start_streaming mp bus s).2) ∧
      (imx477_resume mp bus s).2.streaming = true) ∧
    (s.streaming = true → (imx477_start_streaming mp bus s).1 ≠ 0 →
      imx477_resume mp bus s =
        ((imx477_start_streaming mp bus s).1,
         { imx477_stop_streaming bus (imx477_start_streaming mp bus s).2 with
             streaming := false }) ∧
      (imx477_resume mp bus s).1 ≠ 0 ∧
      (imx477_resume mp bus s).2.streaming = false ∧
      (imx477_resume mp bus s).2.i2c_log = (imx477_start_streaming mp bus s).2.i2c_log ++
        [i2c_xfer.master_send [0x01, 0x00, 0x00], i2c_xfer.master_send [0x4b, 0x81, 0x00]]) := by
  refine ⟨?_, ?_, ?_⟩
  · intro hs
    unfold imx477_resume
    simp [hs]
  · intro hs hok
    have h : imx477_resume mp bus s = (0, (imx477_start_streaming mp bus s).2) := by
      unfold imx477_resume
      simp [hs, hok]
    refine ⟨h, ?_⟩
    rw [h]
    exact (start_streaming_flags mp bus s).1.trans hs
  · intro hs hfail
    have h : imx477_resume mp bus s =
        ((imx477_start_streaming mp bus s).1,
         { imx477_stop_streaming bus (imx477_start_streaming mp bus s).2 with
             streaming := false }) := by
      unfold imx477_resume
      simp [hs, hfail]
    refine ⟨h, ?_, ?_, ?_⟩
    · rw [h]; exact hfail
    · rw [h]
    · rw [h, stop_streaming_eq]

/-- Witness of C24: on a bus that acknowledges nothing, resuming a streaming session attempts
the first common register, then the two stop writes, clears the flag and returns -EIO; resuming
a session that is not streaming does nothing. -/
theorem resume_restarts_stream_witness :
    imx477_resume default_params dead_bus probed_session = (0, probed_session) ∧
    (imx477_resume default_params dead_bus { powered_session with streaming := true }).1
      = -EIO_err ∧
    (imx477_resume default_params dead_bus
      { powered_session with streaming := true }).2.streaming = false ∧
    (imx477_resume default_params dead_bus
      { powered_session with streaming := true }).2.i2c_log =
      [i2c_xfer.master_send [0x01, 0x36, 0x18], i2c_xfer.master_send [0x01, 0x00, 0x00],
       i2c_xfer.master_send [0x4b, 0x81, 0x00]] := by
  obtain ⟨h1, _, h3⟩ := resume_restarts_stream default_params dead_bus probed_session
  obtain ⟨_, _, h6⟩ := resume_restarts_stream default_params dead_bus
    { powered_session with streaming := true }
  obtain ⟨_, _, hflag, _⟩ := h6 rfl (by decide)
  exact ⟨h1 rfl, by decide, hflag, by decide⟩

/-- C25 (the code at the failing input): in the catalogs of the 12-bit and the 10-bit family the
first entry is at least as wide and as high as every entry, but the first entry of
supported_modes_8bit is 1332x990 while its second entry is 2028x1080, larger in both
dimensions; an 8-bit format resolution therefore selects the 1332x990 mode. -/
theorem supported_modes_8bit_first_not_largest :
    (∀ m ∈ supported_modes_12bit, m.orig_width ≤ 4056 ∧ m.orig_height ≤ 3040) ∧
    supported_modes_12bit.head?.map (fun m => (m.orig_width, m.orig_height))
      = some (4056, 3040) ∧
    (∀ m ∈ supported_modes_10bit, m.orig_width ≤ 1332 ∧ m.orig_height ≤ 990) ∧
    supported_modes_10bit.head?.map (fun m => (m.orig_width, m.orig_height))
      = some (1332, 990) ∧
    supported_modes_8bit.head?.map (fun m => (m.orig_width, m.orig_height))
      = some (1332, 990) ∧
    (supported_modes_8bit.get? 1).map (fun m => (m.orig_width, m.orig_height))
      = some (2028, 1080) ∧
    ¬ (∀ m ∈ supported_modes_8bit, m.orig_width ≤ 1332 ∧ m.orig_height ≤ 990) ∧
    (imx477_set_pad_format probed_session empty_subdev_state
        (image_pad_request MEDIA_BUS_FMT_SRGGB8_1X8 2028 1080)).map
      (fun r => (r.1, r.2.1.mode.orig_width, r.2.1.mode.orig_height, r.2.1.roi_width,
        r.2.1.roi_height)) = some (0, 1332, 990, 2028, 1080) := by
  refine ⟨by decide, rfl, by decide, rfl, rfl, rfl, by decide, by decide⟩

/-- C26 (the code at the failing input): on the powered session (device active, usage count 1)
the raw write control V4L2_CID_I2C_8B with value 0 returns 0 at the value-0 early return after
pm_runtime_get_if_in_use has taken a reference: the usage count is 2 afterwards.  A control
that reaches the end of the function, such as the analogue gain, leaves the count at 1. -/
theorem set_ctrl_value_zero_keeps_reference :
    powered_session.pm.usage_count = 1 ∧
    (pm_runtime_get_if_in_use powered_session.pm).1 = 1 ∧
    (imx477_set_ctrl good_bus powered_session (new_ctrl V4L2_CID_I2C_8B 0 0 1 0)).1 = 0 ∧
    (imx477_set_ctrl good_bus powered_session
      (new_ctrl V4L2_CID_I2C_8B 0 0 1 0)).2.pm.usage_count = 2 ∧
    (imx477_set_ctrl good_bus powered_session
      (new_ctrl V4L2_CID_I2C_8B 0 0 1 0)).2.i2c_log = [] ∧
    (imx477_set_ctrl good_bus powered_session
      (new_ctrl V4L2_CID_ANALOGUE_GAIN 0 978 1 0)).2.pm.usage_count = 1 := by
  decide

theorem flip_index_group (i : Nat) (hi : i < 16) (a b : Bool) :
    ((i &&& 0xFFFFFFFC) ||| (if a then 2 else 0) ||| (if b then 1 else 0)) < 16 ∧
    ((i &&& 0xFFFFFFFC) ||| (if a then 2 else 0) ||| (if b then 1 else 0)) / 4 = i / 4 ∧
    ((i &&& 0xFFFFFFFC) ||| (if a then 2 else 0) ||| (if b then 1 else 0)) % 4 =
      (if a then 2 else 0) + (if b then 1 else 0) := by
  interval_cases i <;> cases a <;> cases b <;> decide

theorem codes_getD_mem (i : Nat) (hi : i < 16) : codes.getD i 0 ∈ codes := by
  have hlt : i < codes.length := hi
  rw [List.getD_eq_getElem _ _ hlt]
  exact List.getElem_mem hlt

/-- C27: for every input code and every flip setting imx477_get_format_code returns an entry of
the codes table.  For a recognised code, found first at index i, the entry is the one at index
(i with the two low bits cleared) | (vflip ? 2 : 0) | (hflip ? 1 : 0), in the same group of four
as i, and get_mode_table gives for it the same catalog as for the input; for an unrecognised
code the entry lies in the first (12-bit) group and its catalog is the 12-bit one.  In every
case the catalog is not empty, so imx477_set_pad_format on the image pad finds mode_list[0]
and returns. -/
theorem get_format_code_stays_in_family (s : imx477) (code : Nat) :
    imx477_get_format_code s code ∈ codes ∧
    (code ∈ codes →
      ∃ j, j < 16 ∧ j / 4 = codes.indexOf code / 4 ∧
        j % 4 = (if s.vflip.val ≠ 0 then 2 else 0) + (if s.hflip.val ≠ 0 then 1 else 0) ∧
        imx477_get_format_code s code = codes.getD j 0 ∧
        get_mode_table (imx477_get_format_code s code) = get_mode_table code) ∧
    (code ∉ codes →
      ∃ j, j < 4 ∧
        j = (if s.vflip.val ≠ 0 then 2 else 0) + (if s.hflip.val ≠ 0 then 1 else 0) ∧
        imx477_get_format_code s code = codes.getD j 0 ∧
        get_mode_table (imx477_get_format_code s code) = supported_modes_12bit) ∧
    get_mode_table (imx477_get_format_code s code) ≠ [] ∧
    (∀ (st : v4l2_subdev_state) (fmt : v4l2_subdev_format), fmt.pad = IMAGE_PAD →
      fmt.format.code = code → (imx477_set_pad_format s st fmt).isSome = true) := by
  have hl : codes.length = 16 := rfl
  have hidx : (if codes.indexOf code ≥ 16 then 0 else codes.indexOf code) < 16 := by
    split <;> omega
  obtain ⟨g1, g2, g3⟩ := flip_index_group _ hidx (decide (s.vflip.val ≠ 0))
    (decide (s.hflip.val ≠ 0))
  have hbits : ((if decide (s.vflip.val ≠ 0) = true then 2 else 0) +
      (if decide (s.hflip.val ≠ 0) = true then 1 else 0) : Nat) =
      (if s.vflip.val ≠ 0 then 2 else 0) + (if s.hflip.val ≠ 0 then 1 else 0) := by
    simp only [decide_eq_true_eq]
  refine ⟨?_, ?_, ?_, get_mode_table_format_code_ne_nil s code, ?_⟩
  · rw [get_format_code_eq]
    exact codes_getD_mem _ g1
  · intro hmem
    have hlt : codes.indexOf code < 16 := by
      have := List.indexOf_lt_length.mpr hmem
      omega
    have hi : (if codes.indexOf code ≥ 16 then 0 else codes.indexOf code) =
        codes.indexOf code := if_neg (by omega)
    rw [hi] at g1 g2 g3
    refine ⟨_, g1, g2, g3.trans hbits, ?_, get_format_code_family s code hmem⟩
    rw [get_format_code_eq, hi]
  · intro hnot
    have hi : (if codes.indexOf code ≥ 16 then 0 else codes.indexOf code) = 0 := by
      rw [List.indexOf_eq_length.mpr hnot]
      rfl
    have hcode : imx477_get_format_code s code =
        codes.getD (((if codes.indexOf code ≥ 16 then 0 else codes.indexOf code)
          &&& 0xFFFFFFFC) ||| (if decide (s.vflip.val ≠ 0) then 2 else 0) |||
          (if decide (s.hflip.val ≠ 0) then 1 else 0)) 0 := get_format_code_eq s code
    rw [hi] at g1 g2 g3 hcode
    rw [hbits] at g3
    generalize ((0 &&& 0xFFFFFFFC) ||| (if decide (s.vflip.val ≠ 0) then 2 else 0) |||
      (if decide (s.hflip.val ≠ 0) then 1 else 0)) = j at g1 g2 g3 hcode
    exact ⟨j, by omega, by omega, hcode, (get_format_code_unrecognised s code hnot).2⟩
  · intro st fmt hpad hcode
    obtain ⟨m0, rest, hm⟩ := List.exists_cons_of_ne_nil
      (get_mode_table_format_code_ne_nil s fmt.format.code)
    rw [set_pad_format_image_eq s st fmt m0 rest hpad hm]
    rfl

/-! ## Numeric bounds and the register round trip -/

theorem set_ctrl_switch_vblank (bus : i2c_adapter) (s : imx477) (ctrl : v4l2_ctrl)
    (hid : ctrl.id = V4L2_CID_VBLANK) :
    imx477_set_ctrl_switch bus s ctrl =
      imx477_set_frame_length bus s (to_u32 (s.roi_height + ctrl.val)) := by
  unfold imx477_set_ctrl_switch
  simp only [hid]
  repeat (rw [if_neg (by decide)])
  rw [if_pos trivial]

/-- C28: for every ROI height h and every vertical-blank value v inside the range that
imx477_set_framing_limits installs (mode.min_vblank <= v <= 128*0xFFDC - h), the total h + v of
the VBLANK handler does not wrap in 32 bits, is at most 128*0xFFDC, and imx477_set_frame_length
leaves a long-exposure shift of at most 7.  At v = 128*0xFFDC - h the shift is 7 and the value
written to FRAME_LENGTH (0x0340) is 0xFFDC. -/
theorem vblank_range_keeps_shift_within_7 (bus : i2c_adapter) (s : imx477) (ctrl : v4l2_ctrl)
    (hid : ctrl.id = V4L2_CID_VBLANK)
    (hlo : (imx477_set_framing_limits s).vblank.minimum ≤ ctrl.val)
    (hhi : ctrl.val ≤ (imx477_set_framing_limits s).vblank.maximum) :
    (imx477_set_framing_limits s).vblank.minimum = s.mode.min_vblank ∧
    (imx477_set_framing_limits s).vblank.maximum = 128 * 0xFFDC - (s.roi_height : Int) ∧
    (imx477_set_framing_limits s).roi_height = s.roi_height ∧
    (to_u32 ((imx477_set_framing_limits s).roi_height + ctrl.val) : Int) =
      s.roi_height + ctrl.val ∧
    to_u32 ((imx477_set_framing_limits s).roi_height + ctrl.val) ≤ 128 * 0xFFDC ∧
    imx477_set_ctrl_switch bus (imx477_set_framing_limits s) ctrl =
      imx477_set_frame_length bus (imx477_set_framing_limits s)
        (to_u32 ((imx477_set_framing_limits s).roi_height + ctrl.val)) ∧
    (imx477_set_ctrl_switch bus (imx477_set_framing_limits s) ctrl).2.long_exp_shift ≤ 7 ∧
    (ctrl.val = (imx477_set_framing_limits s).vblank.maximum →
      (imx477_set_ctrl_switch bus (imx477_set_framing_limits s) ctrl).2.long_exp_shift = 7 ∧
      ∃ rest, (imx477_set_ctrl_switch bus (imx477_set_framing_limits s) ctrl).2.i2c_log =
        (imx477_set_framing_limits s).i2c_log ++
          (i2c_xfer.master_send [0x03, 0x40, 0xFF, 0xDC] :: rest)) := by
  have hmin : (imx477_set_framing_limits s).vblank.minimum = s.mode.min_vblank := rfl
  have hmax : (imx477_set_framing_limits s).vblank.maximum =
      128 * 0xFFDC - (s.roi_height : Int) := by
    show (((1 <<< IMX477_LONG_EXP_SHIFT_MAX) * IMX477_FRAME_LENGTH_MAX : Nat) : Int) -
      (s.roi_height : Int) = _
    rfl
  have hrh : (imx477_set_framing_limits s).roi_height = s.roi_height := rfl
  rw [hmin] at hlo
  rw [hmax] at hhi
  have hv0 : (0 : Int) ≤ ctrl.val := le_trans (Int.ofNat_nonneg _) hlo
  obtain ⟨v, hv⟩ := Int.eq_ofNat_of_zero_le hv0
  have hvle : s.roi_height + v ≤ 8384000 := by
    rw [hv] at hhi
    omega
  have htot : to_u32 ((imx477_set_framing_limits s).roi_height + ctrl.val) =
      s.roi_height + v := by
    rw [hrh, hv]
    have : ((s.roi_height : Int) + (v : Int)) = ((s.roi_height + v : Nat) : Int) := by
      push_cast
      rfl
    rw [this, to_u32_natCast]
    exact Nat.mod_eq_of_lt (by omega)
  have hsw := set_ctrl_switch_vblank bus (imx477_set_framing_limits s) ctrl hid
  obtain ⟨k, ⟨hle, hmink⟩, _, hsh, hlog⟩ :=
    set_frame_length_cases bus (imx477_set_framing_limits s) (s.roi_height + v) (by omega)
  have hk7 : k ≤ 7 := by
    by_contra hc
    have h7 := hmink 7 (by omega)
    rw [Nat.shiftRight_eq_div_pow] at h7
    omega
  refine ⟨hmin, hmax, hrh, ?_, ?_, hsw, ?_, ?_⟩
  · rw [htot, hv]
    push_cast
    rfl
  · rw [htot]
    omega
  · rw [hsw, htot, hsh]
    exact hk7
  · intro hvmax
    rw [hmax, hv] at hvmax
    have htotal : s.roi_height + v = 8384000 := by omega
    rw [htotal] at hle hmink hlog hsh
    have hk : k = 7 := by
      by_contra hne
      have hlt : k < 7 := by omega
      have h6 := hmink 6
      interval_cases k <;> simp at hle
    subst hk
    rw [hsw, htot, htotal]
    refine ⟨hsh, ?_⟩
    have hb : (write_reg_buf 0x0340 2 (8384000 >>> 7)).take 4 = [0x03, 0x40, 0xFF, 0xDC] := by
      rw [write_reg_buf16]
      rfl
    rw [hb] at hlog
    rcases hlog with ⟨_, hl⟩ | ⟨_, _, hl⟩
    · exact ⟨_, hl⟩
    · exact ⟨_, hl⟩

/-- Witness of C28: on the probed session (ROI height 0) the smallest value 42 of the installed
range gives shift 0 and the largest, 128*0xFFDC = 8384000, gives shift 7. -/
theorem vblank_range_keeps_shift_within_7_witness :
    (imx477_set_ctrl_switch good_bus (imx477_set_framing_limits probed_session)
      { probed_session.vblank with val := 42 }).2.long_exp_shift ≤ 7 ∧
    (imx477_set_ctrl_switch good_bus (imx477_set_framing_limits probed_session)
      { probed_session.vblank with val := 8384000 }).2.long_exp_shift = 7 :=
  ⟨(vblank_range_keeps_shift_within_7 good_bus probed_session
      { probed_session.vblank with val := 42 } rfl (by decide)
      (by decide)).2.2.2.2.2.2.1,
   ((vblank_range_keeps_shift_within_7 good_bus probed_session
      { probed_session.vblank with val := 8384000 } rfl (by decide)
      (by decide)).2.2.2.2.2.2.2 (by decide)).1⟩

/-- C29: for an image-pad format set with a recognised code and a requested width w and height
h that do not exceed the first catalog entry W x H of the family, the start that
imx477_set_pad_format stores, ((W - w)/2) & 0xFFFC (likewise for the height), is a multiple
of 4, keeps start + w <= W and is off-centre by at most 7: 0 <= (W - w - start) - start <= 7. -/
theorem set_pad_format_start_near_centre (s : imx477) (st : v4l2_subdev_state)
    (fmt : v4l2_subdev_format) (cx cy : v4l2_ctrl) (m0 : imx477_mode)
    (rest : List imx477_mode)
    (hpad : fmt.pad = IMAGE_PAD) (hcode : fmt.format.code ∈ codes)
    (hm : get_mode_table fmt.format.code = m0 :: rest)
    (hx : s.roi_start_x = some cx) (hy : s.roi_start_y = some cy)
    (hw : fmt.format.width ≤ m0.orig_width) (hh : fmt.format.height ≤ m0.orig_height) :
    ∃ r sx sy, imx477_set_pad_format s st fmt = some r ∧ r.2.1.mode = m0 ∧
      r.2.1.roi_start_x.map v4l2_ctrl.val = some ((sx : Nat) : Int) ∧
      r.2.1.roi_start_y.map v4l2_ctrl.val = some ((sy : Nat) : Int) ∧
      sx = ((m0.orig_width - fmt.format.width) / 2) &&& 0xFFFC ∧
      sy = ((m0.orig_height - fmt.format.height) / 2) &&& 0xFFFC ∧
      sx % 4 = 0 ∧ sx + fmt.format.width ≤ m0.orig_width ∧
      sx ≤ m0.orig_width - fmt.format.width - sx ∧
      (m0.orig_width - fmt.format.width - sx) - sx ≤ 7 ∧
      sy % 4 = 0 ∧ sy + fmt.format.height ≤ m0.orig_height ∧
      sy ≤ m0.orig_height - fmt.format.height - sy ∧
      (m0.orig_height - fmt.format.height - sy) - sy ≤ 7 := by
  obtain ⟨r, hr, _, hmode, _, _, hsx, hsy, _, _⟩ :=
    set_pad_format_result s st fmt cx cy m0 rest hpad hcode hm hx hy hw hh
  have hdims := first_mode_dims _ m0 rest hm
  have hW : (m0.orig_width - fmt.format.width) / 2 < 65536 := by
    rcases hdims with ⟨h1, _⟩ | ⟨h1, _⟩ <;> omega
  have hH : (m0.orig_height - fmt.format.height) / 2 < 65536 := by
    rcases hdims with ⟨_, h1⟩ | ⟨_, h1⟩ <;> omega
  refine ⟨r, 4 * (((m0.orig_width - fmt.format.width) / 2) / 4),
    4 * (((m0.orig_height - fmt.format.height) / 2) / 4), hr, hmode, ?_, ?_,
    (and_0xFFFC_lt _ hW).symm, (and_0xFFFC_lt _ hH).symm, ?_, ?_, ?_, ?_, ?_, ?_, ?_, ?_⟩
  · rw [hsx]; rfl
  · rw [hsy]; rfl
  all_goals omega

/-- Witness of C29: a 12-bit format set of 1921x1083 on the probed session stores the starts
1064 and 976; the widths left and right of the ROI are 1064 and 1071. -/
theorem set_pad_format_start_near_centre_witness :
    ∃ r sx sy, imx477_set_pad_format probed_session empty_subdev_state
        (image_pad_request MEDIA_BUS_FMT_SRGGB12_1X12 1921 1083) = some r ∧
      r.2.1.roi_start_x.map v4l2_ctrl.val = some ((sx : Nat) : Int) ∧
      r.2.1.roi_start_y.map v4l2_ctrl.val = some ((sy : Nat) : Int) ∧
      sx = 1064 ∧ sy = 976 ∧ (4056 - 1921 - sx) - sx ≤ 7 := by
  obtain ⟨r, sx, sy, hr, _, hsx, hsy, hx, hy, _, _, _, hoff, _⟩ :=
    set_pad_format_start_near_centre probed_session empty_subdev_state
      (image_pad_request MEDIA_BUS_FMT_SRGGB12_1X12 1921 1083)
      (new_ctrl V4L2_CID_ROI_START_X 0 0xFFFF 4 0) (new_ctrl V4L2_CID_ROI_START_Y 0 0xFFFF 4 0)
      (supported_modes_12bit.headD probed_session.mode) supported_modes_12bit.tail
      rfl (by decide) rfl rfl rfl (by decide) (by decide)
  exact ⟨r, sx, sy, hr, hsx, hsy, hx, hy, hoff⟩

theorem or_eq_add_of_dvd (x y i : Nat) (hx : 2 ^ i ∣ x) (hy : y < 2 ^ i) : x ||| y = x + y := by
  obtain ⟨k, rfl⟩ := hx
  exact (Nat.mul_add_lt_is_or hy k).symm

theorem get_unaligned_be32_bytes (a b c d : Nat) (hb : b < 256) (hc : c < 256)
    (hd : d < 256) :
    get_unaligned_be32 [a, b, c, d] = be_value [a, b, c, d] := by
  unfold get_unaligned_be32 be_value
  simp only [List.getD_cons_zero, List.getD_cons_succ, List.foldl_cons, List.foldl_nil,
    Nat.shiftLeft_eq]
  rw [or_eq_add_of_dvd (a * 2 ^ 24) (b * 2 ^ 16) 24 (Dvd.intro_left _ rfl) (by omega),
    or_eq_add_of_dvd (a * 2 ^ 24 + b * 2 ^ 16) (c * 2 ^ 8) 16 (by omega) (by omega),
    or_eq_add_of_dvd (a * 2 ^ 24 + b * 2 ^ 16 + c * 2 ^ 8) d 8 (by omega) (by omega)]
  omega

theorem be_value_leading_zeros (l : List Nat) (n : Nat) :
    be_value (List.replicate n 0 ++ l) = be_value l := by
  induction n with
  | zero => rfl
  | succ n ih =>
    rw [List.replicate_succ, List.cons_append]
    unfold be_value at ih ⊢
    rw [List.foldl_cons]
    exact ih

theorem low_bytes_be_lt (len val : Nat) : ∀ b ∈ low_bytes_be len val, b < 256 := by
  induction len with
  | zero => intro b hb; simp [low_bytes_be] at hb
  | succ n ih =>
    intro b hb
    rw [low_bytes_be, List.mem_cons] at hb
    rcases hb with rfl | hb
    · exact Nat.mod_lt _ (by norm_num)
    · exact ih b hb

theorem get_unaligned_be32_low_bytes (len val : Nat) (hl1 : 1 ≤ len) (hl4 : len ≤ 4) :
    get_unaligned_be32 (List.replicate (4 - len) 0 ++ low_bytes_be len val) =
      val % 2 ^ (8 * len) := by
  rw [← be_value_low_bytes len val hl4, ← be_value_leading_zeros (low_bytes_be len val) (4 - len)]
  have hlt := low_bytes_be_lt len val
  interval_cases len
  · simp only [low_bytes_be] at hlt ⊢
    exact get_unaligned_be32_bytes _ _ _ _ (by norm_num) (by norm_num)
      (hlt _ (by simp))
  · simp only [low_bytes_be] at hlt ⊢
    exact get_unaligned_be32_bytes _ _ _ _ (by norm_num) (hlt _ (by simp))
      (hlt _ (by simp))
  · simp only [low_bytes_be] at hlt ⊢
    exact get_unaligned_be32_bytes _ _ _ _ (hlt _ (by simp)) (hlt _ (by simp))
      (hlt _ (by simp))
  · simp only [low_bytes_be] at hlt ⊢
    exact get_unaligned_be32_bytes _ _ _ _ (hlt _ (by simp)) (hlt _ (by simp))
      (hlt _ (by simp))

/-- C30: register read decodes what register write encodes.  For a width len in 1..4 and a
32-bit value val, imx477_write_reg transmits the two address bytes followed by len data bytes;
when a read of the same width receives these len data bytes, imx477_read_reg (which places them
at data_buf[4-len..3] and reads the buffer as a big-endian 32-bit word) returns 0 and the value
val mod 2^(8*len).  For len > 4 both functions return -EINVAL and leave the session, and so the
transcript, unchanged. -/
theorem read_reg_decodes_write_reg (bus : i2c_adapter) (s t : imx477) (reg len val old : Nat)
    (hr : reg < 65536) (hv : val < 4294967296) :
    (1 ≤ len → len ≤ 4 →
      (imx477_write_reg bus s reg len val).2.i2c_log = s.i2c_log ++
        [i2c_xfer.master_send ((reg >>> 8) :: (reg &&& 0xFF) :: low_bytes_be len val)] ∧
      (low_bytes_be len val).length = len ∧
      ((bus.transfer t.i2c_log.length t.client_addr
          [((reg % 65536) >>> 8) % 256, (reg % 65536) &&& 0xff] len) =
          (2, low_bytes_be len val) →
        (imx477_read_reg bus t reg len old).1 = 0 ∧
        (imx477_read_reg bus t reg len old).2.2 = val % 2 ^ (8 * len))) ∧
    (4 < len →
      imx477_write_reg bus s reg len val = (-EINVAL, s) ∧
      imx477_read_reg bus t reg len old = (-EINVAL, t, old)) := by
  refine ⟨?_, ?_⟩
  · intro hl1 hl4
    refine ⟨?_, low_bytes_be_length len val, ?_⟩
    · rw [write_reg_state bus s reg len val hl4, write_reg_bytes reg len val hr hl1 hl4 hv]
    · intro hecho
      have htake : (low_bytes_be len val ++ List.replicate len 0).take len =
          low_bytes_be len val := by
        rw [List.take_append_of_le_length (by rw [low_bytes_be_length])]
        exact List.take_of_length_le (by rw [low_bytes_be_length])
      unfold imx477_read_reg i2c_transfer
      simp only [hecho, if_neg (show ¬ len > 4 by omega), htake]
      exact ⟨by simp, by simpa using get_unaligned_be32_low_bytes len val hl1 hl4⟩
  · intro h4
    constructor
    · unfold imx477_write_reg
      rw [if_pos h4]
    · unfold imx477_read_reg
      simp only [if_pos (show len > 4 from h4)]

/-- Witness of C30: the 16-bit write of 0x1234 to register 0x0202 transmits 0x02 0x02 0x12 0x34,
and a 16-bit read that receives 0x12 0x34 returns 0x1234; a width of 5 is refused by both. -/
theorem read_reg_decodes_write_reg_witness :
    (imx477_write_reg good_bus probed_session 0x0202 2 0x1234).2.i2c_log =
      [i2c_xfer.master_send [0x02, 0x02, 0x12, 0x34]] ∧
    (imx477_read_reg { master_send := fun _ b => (b.length : Int),
                       transfer := fun _ _ _ _ => (2, [0x12, 0x34]) }
      probed_session 0x0202 2 0).2.2 = 0x1234 ∧
    imx477_read_reg good_bus probed_session 0x0202 5 7 = (-EINVAL, probed_session, 7) := by
  obtain ⟨h1, h2⟩ := read_reg_decodes_write_reg
    { master_send := fun _ b => (b.length : Int), transfer := fun _ _ _ _ => (2, [0x12, 0x34]) }
    probed_session probed_session 0x0202 2 0x1234 0 (by decide) (by decide)
  obtain ⟨_, _, hread⟩ := h1 (by decide) (by decide)
  obtain ⟨_, h3⟩ := (read_reg_decodes_write_reg good_bus probed_session probed_session
    0x0202 5 0 7 (by decide) (by decide)).2 (by decide)
  exact ⟨by decide, (hread rfl).2, h3⟩
